import Mathlib

/-!
# zfcp-hbaapi: the CT client of the fc_tools (zfcp_ping, zfcp_show)

A shallow embedding of `src/fc_tools/include/zfcp_util.h`,
`src/fc_tools/zfcp_show.c` and `src/fc_tools/zfcp_ping.c`.

Conventions of the embedding

* A buffer (`char *`) is a `List Nat` of bytes.  Reading index `i` is
  `peek buf i`; a write outside the buffer is dropped (`List.set`).  In C both
  are undefined behaviour, so the embedding is exact wherever every access is
  inside the buffer.
* Machine integers are `Nat` with an explicit `% 2 ^ w` where a C conversion
  truncates.
* The code never converts byte order: every multi-byte field is read and
  written in the byte order of the host.  The host byte order is the
  parameter `Endian` (the tools are built for s390x, which is `Endian.big`).
  `char` is unsigned, as in the s390x ABI.
* The HBA API (`HBA_SendCTPassThru`), the clock and `sleep` are external; they
  are the fields of `Platform`, acting on an abstract environment state.
* Every side effect a caller could observe (pass-through calls, sleeps, lines
  printed) is appended to `World.trace`.
* `posix_memalign` and `calloc` are taken to succeed.
-/

set_option autoImplicit false

namespace Zfcp

/-! ## Bytes and host-order fields -/

/-- Byte order of the host the tools run on. -/
inductive Endian
  | big
  | little
  deriving DecidableEq, Repr

/-- Reads the byte `buf[i]`. -/
def peek (buf : List Nat) (i : Nat) : Nat := buf.getD i 0

/-- Writes the bytes `bs` to `buf[off], buf[off + 1], ...`. -/
def poke (buf : List Nat) (off : Nat) : List Nat → List Nat
  | [] => buf
  | b :: bs => poke (buf.set off b) (off + 1) bs

/-- The call `memcpy(dst + off, src, n)`. -/
def memcpy (dst : List Nat) (off : Nat) (src : List Nat) (n : Nat) : List Nat :=
  poke dst off (src.take n)

/-- Value of a byte string, most significant byte first. -/
def be_value (bs : List Nat) : Nat := bs.foldl (fun acc b => acc * 256 + b) 0

/-- The `n` bytes of `v`, most significant byte first. -/
def be_bytes : Nat → Nat → List Nat
  | 0, _ => []
  | n + 1, v => be_bytes n (v / 256) ++ [v % 256]

/-- The `n` bytes `buf[off .. off + n)`. -/
def field_bytes (buf : List Nat) (off n : Nat) : List Nat :=
  (List.range n).map (fun i => peek buf (off + i))

/-- Reads an `n`-byte unsigned integer in host order: `*(uintN_t *)(buf + off)`. -/
def load (e : Endian) (buf : List Nat) (off n : Nat) : Nat :=
  match e with
  | Endian.big => be_value (field_bytes buf off n)
  | Endian.little => be_value (field_bytes buf off n).reverse

/-- The `n` bytes of `v` in host order. -/
def host_bytes (e : Endian) (n v : Nat) : List Nat :=
  match e with
  | Endian.big => be_bytes n v
  | Endian.little => (be_bytes n v).reverse

/-- Writes an `n`-byte unsigned integer in host order: `*(uintN_t *)(buf + off) = v`. -/
def store (e : Endian) (buf : List Nat) (off n v : Nat) : List Nat :=
  poke buf off (host_bytes e n v)

/-! ## Constants of zfcp_util.h -/

/-- Offset of `code` in `struct ct_iu_preamble`. -/
def CT_IU_CODE_OFFSET : Nat := 8
/-- The packed `struct ct_iu_preamble` has 16 bytes: revision (0), in_id (1..3),
gs_type (4), gs_subtype (5), options (6), res (7), code (8..9), size (10..11),
fragment_id (12), reason_code (13), reason_code_exp (14), vendor_specific (15). -/
def CT_IU_PREAMBLE_SIZE : Nat := 16

def FC_TAG_NPORT : Nat := 0x0001
def FC_TAG_WWPN : Nat := 0x0002

def FCS_RCC_GIEL : Nat := 0x0101
def FCS_RCC_GPL : Nat := 0x0118
def FCS_RCC_GAPNL : Nat := 0x0124
def FCS_RCC_FPNG : Nat := 0x0401

def GS_REJECT_RESPONSE_CT_IU : Nat := 0x8001
def GS_ACCEPT_RESPONSE_CT_IU : Nat := 0x8002

def GS_TYPE_MANAGEMENT_SERVICE : Nat := 0xfa
def SUBTYPE_FABRIC_CONFIGURATION_SERVER : Nat := 0x01

def RC_LOGICAL_ERROR : Nat := 0x3
def RC_UNABLE_TO_PERFORM_CMND_REQUEST : Nat := 0x9
def RCE_PROCESSING_REQUEST : Nat := 0xf4

def DEBUG : Nat := 0x0100
def VERBOSE : Nat := 0x0200

def FCS_RCC_GDID : Nat := 0x0112
def FCS_RCC_GIELN : Nat := 0x0115
def FCS_RCC_GIEIL : Nat := 0x0117
def FCS_RCC_GPPN : Nat := 0x0122
def FCS_RCC_GPS : Nat := 0x0126
def NS_RCC_GID_PN : Nat := 0x0121
def NS_RCC_GA_NXT : Nat := 0x0100
def GS_TYPE_DIRECTORY_SERVICE : Nat := 0xfc
def SUBTYPE_NAME_SERVER : Nat := 0x02

/-- The value `E_PORT` of `enum port_type`. -/
def E_PORT : Nat := 0x84
/-- The value `ONLINE` of `enum port_state`. -/
def ONLINE : Nat := 0x01
/-- The value `OFFLINE` of `enum port_state`. -/
def OFFLINE : Nat := 0x02

def HBA_STATUS_OK : Nat := 0
def HBA_STATUS_ERROR : Nat := 1
def HBA_STATUS_ERROR_ARG : Nat := 4

/-! ## The request built by send_ct_pt -/

/-- The request buffer `req` of `send_ct_pt` as it stands when it is handed to
`HBA_SendCTPassThru`: `memset(req, 0, req_s)`, the five preamble assignments
through `p = (struct ct_iu_preamble *) req`, then the `memcpy` of the caller's
parameter.  `resp_s - CT_IU_PREAMBLE_SIZE` and `req_s - CT_IU_PREAMBLE_SIZE` are
`size_t` subtractions (64 bit); `p->code` and `p->size` are `uint16_t`. -/
def send_ct_pt_req (e : Endian) (req_s resp_s cmd : Nat) (c_param : List Nat)
    (gs_subtype gs_type : Nat) : List Nat :=
  let req := List.replicate req_s 0
  let req := req.set 0 0x03
  let req := req.set 4 (gs_type % 256)
  let req := req.set 5 (gs_subtype % 256)
  let req := store e req 8 2 (cmd % 65536)
  let req := store e req 10 2
    ((resp_s + 2 ^ 64 - CT_IU_PREAMBLE_SIZE) % 2 ^ 64 / 4 % 65536)
  memcpy req CT_IU_PREAMBLE_SIZE c_param
    ((req_s + 2 ^ 64 - CT_IU_PREAMBLE_SIZE) % 2 ^ 64)

/-! ## Environment, trace of effects -/

/-- The `struct timeval` of gettimeofday. -/
structure timeval where
  tv_sec : Int
  tv_usec : Int
  deriving DecidableEq, Repr

/-- The `struct adapter_attr` of zfcp_util.h. -/
structure adapter_attr where
  handle : Nat
  bus_id : Nat
  wwpn : Nat
  d_id : Nat
  dev_name : String
  speed : Nat
  deriving DecidableEq, Repr

/-- An argument of a `printf` conversion. -/
inductive Arg
  /-- An integer argument. -/
  | num (n : Nat)
  /-- The string `table[index]` of one of the string tables (`PORT_TYPE`,
  `PORT_STATE`, ...), named by the variable that holds the table. -/
  | tab (table : String) (index : Nat)
  /-- A string built by the function itself. -/
  | lit (s : String)
  /-- A C string read from a buffer; `none` when reading it runs outside the buffer. -/
  | str (s : Option (List Nat))
  deriving DecidableEq, Repr

/-- What a `printf` of the tools writes.  Fixed strings are kept as text; a
line with conversions is kept as its arguments (the formatting done by `printf`
is not part of the embedding). -/
inductive Msg
  /-- A fixed string. -/
  | text (s : String)
  /-- In `send_ct_pt`: "--- REQUEST cmd = 0x%04x ---" and `print_code(req, req_s)`. -/
  | request_dump (cmd : Nat) (req : List Nat)
  /-- In `send_ct_pt`: "--- RESPONSE rc = 0x%x ---" and `print_code(resp, resp_s)`. -/
  | response_dump (rc : Nat) (resp : List Nat)
  /-- In `send_fc_ping`: "Sending PNG from ...", long form when VERBOSE. -/
  | sending_png (verbose : Bool) (aa : adapter_attr)
  /-- In `send_fc_ping`: "Warning: Token %d in use. Incrementing." -/
  | token_in_use (token : Nat)
  /-- In `print_error`: "Error: %s" with `ret_codes[rc]`, then "-> %s." with
  `rc_expl[expl]` when there is an explanation to print (`none`: a null pointer). -/
  | error (reason : Option String) (explanation : Option (Option String))
  /-- In `send_fc_ping`: "echo received from WWPN/D_ID (0x%x) tok=%d time=%0.03f ms",
  with the tag of the request, the destination, the token and the round trip in microseconds. -/
  | echo (tag dest_val token diff : Nat)
  /-- A `printf` of zfcp_show.c with conversions: its format string and arguments. -/
  | fmt (format : String) (args : List Arg)
  deriving DecidableEq, Repr

/-- One observable effect. -/
inductive Event
  /-- A call `HBA_SendCTPassThru(handle, req, req_s, resp, resp_s)`. -/
  | ct_pass_thru (handle : Nat) (req : List Nat) (resp_s : Nat)
  /-- A call `sleep(seconds)`. -/
  | sleep (seconds : Nat)
  /-- A `printf`. -/
  | print (m : Msg)
  deriving DecidableEq, Repr

/-- What `HBA_SendCTPassThru` gives back: its status, the bytes it wrote to the
response buffer (from offset 0) and the next state of the environment. -/
structure pass_thru_result (σ : Type) where
  status : Nat
  written : List Nat
  st : σ

/-- The external collaborators of the tools, over an environment state `σ`
(adapter, fabric, clock). -/
structure Platform (σ : Type) where
  endian : Endian
  /-- Arguments: state, handle, request bytes, response capacity. -/
  HBA_SendCTPassThru : σ → Nat → List Nat → Nat → pass_thru_result σ
  gettimeofday : σ → timeval × σ
  sleep : Nat → σ → σ

/-- State of the environment and everything done so far. -/
structure World (σ : Type) where
  st : σ
  trace : List Event
  deriving DecidableEq

/-- The call `printf(...)`. -/
def World.printf {σ : Type} (m : Msg) (w : World σ) : World σ :=
  { w with trace := w.trace ++ [Event.print m] }

/-- The call `sleep(seconds)`. -/
def World.sleep {σ : Type} (P : Platform σ) (seconds : Nat) (w : World σ) : World σ :=
  ⟨P.sleep seconds w.st, w.trace ++ [Event.sleep seconds]⟩

/-- The call `gettimeofday(&tv, NULL)`. -/
def World.gettimeofday {σ : Type} (P : Platform σ) (w : World σ) : timeval × World σ :=
  ((P.gettimeofday w.st).1, ⟨(P.gettimeofday w.st).2, w.trace⟩)

/-- Number of pass-through calls in a trace. -/
def calls (tr : List Event) : Nat :=
  tr.countP (fun ev => match ev with
    | Event.ct_pass_thru _ _ _ => true
    | _ => false)

/-- Number of `sleep` calls in a trace. -/
def sleeps (tr : List Event) : Nat :=
  tr.countP (fun ev => match ev with
    | Event.sleep _ => true
    | _ => false)

/-- Tokens of the echo lines of a trace, in order. -/
def echoes (tr : List Event) : List Nat :=
  tr.filterMap (fun ev => match ev with
    | Event.print (Msg.echo _ _ token _) => some token
    | _ => none)

/-! ## zfcp_util.h: print_error, print_error_statement, send_ct_pt -/

/-- The array `ret_codes[]` built from `RET_CODES`: designated initialisers, every
other element a null pointer. -/
def RET_CODES (rc : Nat) : Option String :=
  if rc = 0x01 then some "Invalid command code"
  else if rc = 0x02 then some "Invalid version level"
  else if rc = 0x03 then some "Logical error"
  else if rc = 0x04 then some "Invalid CT_IU size"
  else if rc = 0x05 then some "Logical busy"
  else if rc = 0x07 then some "Protocol error"
  else if rc = 0x09 then some "Unable to perform command request"
  else if rc = 0x0b then some "Command not supported"
  else if rc = 0x0d then some "Server not available"
  else if rc = 0x0e then some "Session could not be established"
  else if rc = 0xff then some "Vendor specific error"
  else none

/-- The array `rc_expl[]` built from `RC_EXPL`. -/
def RC_EXPL (expl : Nat) : Option String :=
  if expl = 0x00 then some "No additional explanation"
  else if expl = 0x01 then some "Port Identifier not registered"
  else if expl = 0x02 then some "Port Name not registered"
  else if expl = 0x03 then some "Node Name not registered"
  else if expl = 0x04 then some "Class of service not registered"
  else if expl = 0x06 then some "Initial process associator not registered"
  else if expl = 0x07 then some "FC-4 type not registered"
  else if expl = 0x08 then some "Symbolic Port Name not registered"
  else if expl = 0x09 then some "Symbolic Node Name not registered"
  else if expl = 0x0a then some "Port Type not registered"
  else if expl = 0x0c then some "Fabric Port Name not registered"
  else if expl = 0x0d then some "Hard Address not registered"
  else if expl = 0x0f then some "FC-4 features not registered"
  else if expl = 0x10 then some "Access denied"
  else if expl = 0x11 then some "Unacceptable Port Identifier"
  else if expl = 0x12 then some "Database empty"
  else if expl = 0x13 then some "No object registered in the specified scope"
  else if expl = 0x14 then some "Domain ID not set"
  else if expl = 0x15 then some "Port Number not present"
  else if expl = 0x16 then some "No device attached"
  else if expl = 0x30 then some "Port List not available"
  else if expl = 0x31 then some "Port Type not available"
  else if expl = 0x32 then some "Physical Port Number not available"
  else if expl = 0x34 then some "Attached Port Name List not available"
  else if expl = 0x36 then some "Port State not available"
  else if expl = 0xf0 then some "Authorization exception"
  else if expl = 0xf1 then some "Authentication exception"
  else if expl = 0xf2 then some "DB full"
  else if expl = 0xf3 then some "DB empty"
  else if expl = 0xf4 then some "Processing request"
  else if expl = 0xf5 then some "Unable to verify connection"
  else if expl = 0xf6 then some "Device not in a common zone"
  else if expl = 0xff then some ""
  else none

/-- The function `print_error(rc, expl)`; both arguments are `uint8_t`. -/
def print_error {σ : Type} (rc expl : Nat) (w : World σ) : World σ :=
  w.printf (Msg.error (RET_CODES rc)
    (if rc = RC_UNABLE_TO_PERFORM_CMND_REQUEST then some (RC_EXPL expl) else none))

/-- First line printed by `print_error_statement`. -/
def NON_CONFORMING : String :=
  "\n*** Warning: Received \"non-conforming\" data from management server. ***\n"

/-- Second line printed by `print_error_statement`. -/
def CONTACT_SUPPLIER : String :=
  "***          Contact your switch supplier for support.              ***\n"

/-- The function `print_error_statement()`. -/
def print_error_statement {σ : Type} (w : World σ) : World σ :=
  (w.printf (Msg.text NON_CONFORMING)).printf (Msg.text CONTACT_SUPPLIER)

/-- Number of times the non-conforming warning was printed. -/
def warnings (tr : List Event) : Nat :=
  tr.count (Event.print (Msg.text NON_CONFORMING))

/-- The function `send_ct_pt`.  The response buffer has `resp_s` zero bytes, into
which the pass-through call writes; `none` is the null pointer returned when the
call reports a nonzero status. -/
def send_ct_pt {σ : Type} (P : Platform σ) (display_detail : Nat)
    (handle req_s resp_s cmd : Nat) (c_param : List Nat) (gs_subtype gs_type : Nat)
    (w : World σ) : Option (List Nat) × World σ :=
  let req := send_ct_pt_req P.endian req_s resp_s cmd c_param gs_subtype gs_type
  let r := P.HBA_SendCTPassThru w.st handle req resp_s
  let resp := poke (List.replicate resp_s 0) 0 r.written
  let w1 : World σ := ⟨r.st, w.trace ++ [Event.ct_pass_thru handle req resp_s]⟩
  let w2 :=
    if display_detail &&& DEBUG ≠ 0 then
      (w1.printf (Msg.request_dump cmd req)).printf (Msg.response_dump r.status resp)
    else w1
  (if r.status ≠ 0 then none else some resp, w2)

/-! ## zfcp_show.c: send_ct -/

/-- The loop `while (retries--) { ... }` of `send_ct`; the argument counts the
iterations still allowed, so inside the body `retries` is the value after the
decrement. -/
def send_ct_loop {σ : Type} (P : Platform σ) (display_detail : Nat)
    (handle req_s resp_s cmd : Nat) (c_param : List Nat) (gs_subtype gs_type : Nat) :
    Nat → World σ → Option (List Nat) × World σ
  | 0, w => (none, w)
  | retries + 1, w =>
    match send_ct_pt P display_detail handle req_s resp_s cmd c_param gs_subtype gs_type w with
    | (none, w1) =>
      send_ct_loop P display_detail handle req_s resp_s cmd c_param gs_subtype gs_type
        retries (w1.sleep P 1)
    | (some resp, w1) =>
      let code := load P.endian resp CT_IU_CODE_OFFSET 2
      if code = GS_ACCEPT_RESPONSE_CT_IU then (some resp, w1)
      else if code = GS_REJECT_RESPONSE_CT_IU then
        send_ct_loop P display_detail handle req_s resp_s cmd c_param gs_subtype gs_type
          retries w1
      else
        send_ct_loop P display_detail handle req_s resp_s cmd c_param gs_subtype gs_type
          retries (if retries = 0 then print_error_statement w1 else w1.sleep P 1)

/-- The function `send_ct`: `uint8_t retries = 3`. -/
def send_ct {σ : Type} (P : Platform σ) (display_detail : Nat)
    (handle req_s resp_s cmd : Nat) (c_param : List Nat) (gs_subtype gs_type : Nat)
    (w : World σ) : Option (List Nat) × World σ :=
  send_ct_loop P display_detail handle req_s resp_s cmd c_param gs_subtype gs_type 3 w

/-- The world in which the next attempt of `send_ct` starts after `k` attempts
in a row on which `send_ct_pt` returned no response (each followed by `sleep(1)`). -/
def after_failures {σ : Type} (P : Platform σ) (display_detail : Nat)
    (handle req_s resp_s cmd : Nat) (c_param : List Nat) (gs_subtype gs_type : Nat) :
    Nat → World σ → World σ
  | 0, w => w
  | k + 1, w =>
    after_failures P display_detail handle req_s resp_s cmd c_param gs_subtype gs_type k
      ((send_ct_pt P display_detail handle req_s resp_s cmd c_param gs_subtype gs_type w).2.sleep
        P 1)

/-- Whether the first `k` attempts from `w` on are transport failures. -/
def all_fail {σ : Type} (P : Platform σ) (display_detail : Nat)
    (handle req_s resp_s cmd : Nat) (c_param : List Nat) (gs_subtype gs_type : Nat) :
    Nat → World σ → Bool
  | 0, _ => true
  | k + 1, w =>
    (send_ct_pt P display_detail handle req_s resp_s cmd c_param gs_subtype gs_type w).1.isNone
      && all_fail P display_detail handle req_s resp_s cmd c_param gs_subtype gs_type k
        ((send_ct_pt P display_detail handle req_s resp_s cmd c_param gs_subtype gs_type w).2.sleep
          P 1)

/-! ## zfcp_show.c: list queries -/

/-- The macro `PL_SIZE(x)`, which expands to `4 + x * 12`; it is only used as
the last summand of `CT_IU_PREAMBLE_SIZE + PL_SIZE(n)`. -/
def PL_SIZE (x : Nat) : Nat := 4 + x * 12

/-- Number of loop tests allowed to a loop whose counter `i` is a `uint16_t`:
`i` has 65536 values, so a run that is still inside `for (...; i < entries; i++)`
after 65536 iterations has `entries > 65535` and never leaves the loop. -/
def UINT16_RANGE : Nat := 65537

/-- The `struct interconnect_element`. -/
structure interconnect_element where
  port_name : Nat
  port_type : Nat
  deriving DecidableEq, Repr

/-- The `struct port_list_entry`. -/
structure port_list_entry where
  port_name : Nat
  port_module_type : Nat
  port_tx_type : Nat
  port_type : Nat
  deriving DecidableEq, Repr

/-- The `struct att_port_name`. -/
structure att_port_name where
  port_name : Nat
  port_flags : Nat
  port_type : Nat
  deriving DecidableEq, Repr

/-- The loop of `get_ice_list`,
`for (i = 0, offset = 4; i < entries; i++, offset++)` with `uint16_t i, offset`,
from the state `(i, offset, ice)`; `none` when the fuel runs out. -/
def get_ice_list_loop (e : Endian) (payload : List Nat) (entries : Nat) :
    Nat → Nat → Nat → List interconnect_element → Option (List interconnect_element)
  | 0, _, _, _ => none
  | fuel + 1, i, offset, ice =>
    if i < entries then
      let port_name := load e payload offset 8
      let offset := (offset + 11) % 65536
      let port_type := peek payload offset
      get_ice_list_loop e payload entries fuel ((i + 1) % 65536) ((offset + 1) % 65536)
        (ice.set i ⟨port_name, port_type⟩)
    else some ice

/-- The function `get_ice_list`: the value returned and `*p_ice` (`none`: null),
or `none` when the loop does not terminate. -/
def get_ice_list {σ : Type} (P : Platform σ) (display_detail handle : Nat) (w : World σ) :
    Option (Nat × Option (List interconnect_element)) × World σ :=
  match send_ct P display_detail handle CT_IU_PREAMBLE_SIZE (CT_IU_PREAMBLE_SIZE + PL_SIZE 100)
      FCS_RCC_GIEL [] SUBTYPE_FABRIC_CONFIGURATION_SERVER GS_TYPE_MANAGEMENT_SERVICE w with
  | (none, w1) => (some (0, none), w1)
  | (some resp, w1) =>
    let payload := resp.drop CT_IU_PREAMBLE_SIZE
    let entries := load P.endian payload 0 4
    let ice := List.replicate entries (⟨0, 0⟩ : interconnect_element)
    ((get_ice_list_loop P.endian payload entries UINT16_RANGE 0 4 ice).map
      (fun ice => (entries, some ice)), w1)

/-- The loop of `get_port_list`, `for (i = 0; i < entries; i++)` with
`uint16_t i, offset`. -/
def get_port_list_loop (e : Endian) (payload : List Nat) (entries : Nat) :
    Nat → Nat → Nat → List port_list_entry → Option (List port_list_entry)
  | 0, _, _, _ => none
  | fuel + 1, i, offset, ple =>
    if i < entries then
      let port_name := load e payload offset 8
      let offset := (offset + 9) % 65536
      let port_module_type := peek payload offset
      let offset := (offset + 1) % 65536
      let port_tx_type := peek payload offset
      let offset := (offset + 1) % 65536
      let port_type := peek payload offset
      let offset := (offset + 1) % 65536
      get_port_list_loop e payload entries fuel ((i + 1) % 65536) offset
        (ple.set i ⟨port_name, port_module_type, port_tx_type, port_type⟩)
    else some ple

/-- The function `get_port_list`; `ice_name` is a `uint64_t` handed over by address,
so the request parameter is its 8 bytes in host order. -/
def get_port_list {σ : Type} (P : Platform σ) (display_detail handle ice_name : Nat)
    (w : World σ) : Option (Nat × Option (List port_list_entry)) × World σ :=
  match send_ct P display_detail handle (CT_IU_PREAMBLE_SIZE + 8)
      (CT_IU_PREAMBLE_SIZE + PL_SIZE 500) FCS_RCC_GPL (host_bytes P.endian 8 ice_name)
      SUBTYPE_FABRIC_CONFIGURATION_SERVER GS_TYPE_MANAGEMENT_SERVICE w with
  | (none, w1) => (some (0, none), w1)
  | (some resp, w1) =>
    let payload := resp.drop CT_IU_PREAMBLE_SIZE
    let entries := load P.endian payload 0 4
    let ple := List.replicate entries (⟨0, 0, 0, 0⟩ : port_list_entry)
    ((get_port_list_loop P.endian payload entries UINT16_RANGE 0 4 ple).map
      (fun ple => (entries, some ple)), w1)

/-- The loop of `get_att_port_list`, `for (i = 0; i < entries; i++)` with
`uint16_t i` and `uint32_t offset`. -/
def get_att_port_list_loop (e : Endian) (payload : List Nat) (entries : Nat) :
    Nat → Nat → Nat → List att_port_name → Option (List att_port_name)
  | 0, _, _, _ => none
  | fuel + 1, i, offset, apn =>
    if i < entries then
      let port_name := load e payload offset 8
      let offset := (offset + 10) % 2 ^ 32
      let port_flags := peek payload offset
      let offset := (offset + 1) % 2 ^ 32
      let port_type := peek payload offset
      let offset := (offset + 1) % 2 ^ 32
      get_att_port_list_loop e payload entries fuel ((i + 1) % 65536) offset
        (apn.set i ⟨port_name, port_flags, port_type⟩)
    else some apn

/-- The function `get_att_port_list`. -/
def get_att_port_list {σ : Type} (P : Platform σ) (display_detail handle icep_name : Nat)
    (w : World σ) : Option (Nat × Option (List att_port_name)) × World σ :=
  match send_ct P display_detail handle (CT_IU_PREAMBLE_SIZE + 8)
      (CT_IU_PREAMBLE_SIZE + PL_SIZE 100) FCS_RCC_GAPNL (host_bytes P.endian 8 icep_name)
      SUBTYPE_FABRIC_CONFIGURATION_SERVER GS_TYPE_MANAGEMENT_SERVICE w with
  | (none, w1) => (some (0, none), w1)
  | (some resp, w1) =>
    let payload := resp.drop CT_IU_PREAMBLE_SIZE
    let entries := load P.endian payload 0 4
    let apn := List.replicate entries (⟨0, 0, 0⟩ : att_port_name)
    ((get_att_port_list_loop P.endian payload entries UINT16_RANGE 0 4 apn).map
      (fun apn => (entries, some apn)), w1)

/-! ## zfcp_show.c: single-value queries -/

def TOPOLOGY : Nat := 0x0400
def ATTACHMENT : Nat := 0x0800
def DOMAIN : Nat := 0x1000
def CSV : Nat := 0x2000

/-- The function `get_domain_id`; the value is a `uint8_t`. -/
def get_domain_id {σ : Type} (P : Platform σ) (display_detail handle icep_name : Nat)
    (w : World σ) : Nat × World σ :=
  match send_ct P display_detail handle (CT_IU_PREAMBLE_SIZE + 8) (CT_IU_PREAMBLE_SIZE + 4)
      FCS_RCC_GDID (host_bytes P.endian 8 icep_name) SUBTYPE_FABRIC_CONFIGURATION_SERVER
      GS_TYPE_MANAGEMENT_SERVICE w with
  | (none, w1) => (0, w1)
  | (some resp, w1) => (load P.endian resp CT_IU_PREAMBLE_SIZE 2 &&& 0xff, w1)

/-- The function `get_port_state`; the byte is read through a `uint8_t *` and
the value returned is a `uint8_t`. -/
def get_port_state {σ : Type} (P : Platform σ) (display_detail handle port_name : Nat)
    (w : World σ) : Nat × World σ :=
  match send_ct P display_detail handle (CT_IU_PREAMBLE_SIZE + 8) (CT_IU_PREAMBLE_SIZE + 8)
      FCS_RCC_GPS (host_bytes P.endian 8 port_name) SUBTYPE_FABRIC_CONFIGURATION_SERVER
      GS_TYPE_MANAGEMENT_SERVICE w with
  | (none, w1) => (0, w1)
  | (some resp, w1) => (peek resp (CT_IU_PREAMBLE_SIZE + 7) % 256, w1)

/-- The function `get_ppn`. -/
def get_ppn {σ : Type} (P : Platform σ) (display_detail handle port_name : Nat)
    (w : World σ) : Nat × World σ :=
  match send_ct P display_detail handle (CT_IU_PREAMBLE_SIZE + 8) (CT_IU_PREAMBLE_SIZE + 4)
      FCS_RCC_GPPN (host_bytes P.endian 8 port_name) SUBTYPE_FABRIC_CONFIGURATION_SERVER
      GS_TYPE_MANAGEMENT_SERVICE w with
  | (none, w1) => (0xFFFFFFFF, w1)
  | (some resp, w1) => (load P.endian resp CT_IU_PREAMBLE_SIZE 4, w1)

/-- The function `get_destination_id`. -/
def get_destination_id {σ : Type} (P : Platform σ) (display_detail handle port_name : Nat)
    (w : World σ) : Nat × World σ :=
  match send_ct P display_detail handle (CT_IU_PREAMBLE_SIZE + 8) (CT_IU_PREAMBLE_SIZE + 4)
      NS_RCC_GID_PN (host_bytes P.endian 8 port_name) SUBTYPE_NAME_SERVER
      GS_TYPE_MANAGEMENT_SERVICE w with
  | (none, w1) => (0, w1)
  | (some resp, w1) => (load P.endian resp CT_IU_PREAMBLE_SIZE 4 &&& 0xFFFFFF, w1)

/-- The function `get_information_list`: the string buffer of `length + 1` bytes
that it returns (`none`: null), `calloc(length + 1, 1)` into which
`memcpy(ret_str, payload + offset, length)` copies from payload offset 4. -/
def get_information_list {σ : Type} (P : Platform σ) (display_detail handle name : Nat)
    (w : World σ) : Option (List Nat) × World σ :=
  match send_ct P display_detail handle (CT_IU_PREAMBLE_SIZE + 8) (CT_IU_PREAMBLE_SIZE + 256)
      FCS_RCC_GIEIL (host_bytes P.endian 8 name) SUBTYPE_FABRIC_CONFIGURATION_SERVER
      GS_TYPE_MANAGEMENT_SERVICE w with
  | (none, w1) => (none, w1)
  | (some resp, w1) =>
    let payload := resp.drop CT_IU_PREAMBLE_SIZE
    let length := peek payload 3 % 256
    (some (memcpy (List.replicate (length + 1) 0) 0 (payload.drop 4) length), w1)

/-- The call `strncpy(dst, src, n)` into a buffer `dst`: the bytes of `src` up
to its first NUL, at most `n` of them, then NUL bytes up to `n`. -/
def strncpy (dst src : List Nat) (n : Nat) : List Nat :=
  poke dst 0 (((src.take n).takeWhile (fun b => b ≠ 0)) ++
    List.replicate (n - ((src.take n).takeWhile (fun b => b ≠ 0)).length) 0)

/-- The function `get_ice_logical_name`. -/
def get_ice_logical_name {σ : Type} (P : Platform σ) (display_detail handle name : Nat)
    (w : World σ) : Option (List Nat) × World σ :=
  match send_ct P display_detail handle (CT_IU_PREAMBLE_SIZE + 8) (CT_IU_PREAMBLE_SIZE + 256)
      FCS_RCC_GIELN (host_bytes P.endian 8 name) SUBTYPE_FABRIC_CONFIGURATION_SERVER
      GS_TYPE_MANAGEMENT_SERVICE w with
  | (none, w1) => (none, w1)
  | (some resp, w1) =>
    let payload := resp.drop CT_IU_PREAMBLE_SIZE
    let length := peek payload 0 % 256
    (some (strncpy (List.replicate (length + 1) 0) (payload.drop 1) length), w1)

/-! ## The payload offsets that the decoders read -/

/-- The offsets of the bytes that `*(uintN_t *)(payload + off)` reads for an
`n`-byte integer, or that `memcpy(dst, payload + off, n)` reads. -/
def field_offsets (off n : Nat) : List Nat := (List.range n).map (fun i => off + i)

/-- The loop of `get_ice_list` again (same control flow as `get_ice_list_loop`),
recording every payload offset it reads. -/
def get_ice_list_loop_reads (e : Endian) (payload : List Nat) (entries : Nat) :
    Nat → Nat → Nat → List interconnect_element → List Nat →
      Option (List interconnect_element × List Nat)
  | 0, _, _, _, _ => none
  | fuel + 1, i, offset, ice, rd =>
    if i < entries then
      let port_name := load e payload offset 8
      let rd := rd ++ field_offsets offset 8
      let offset := (offset + 11) % 65536
      let port_type := peek payload offset
      let rd := rd ++ [offset]
      get_ice_list_loop_reads e payload entries fuel ((i + 1) % 65536) ((offset + 1) % 65536)
        (ice.set i ⟨port_name, port_type⟩) rd
    else some (ice, rd)

/-- The payload offsets that `get_ice_list` reads in an accepted response: the
entry count, then the reads of the loop. -/
def get_ice_list_reads (e : Endian) (payload : List Nat) : Option (List Nat) :=
  (get_ice_list_loop_reads e payload (load e payload 0 4) UINT16_RANGE 0 4
    (List.replicate (load e payload 0 4) ⟨0, 0⟩) (field_offsets 0 4)).map Prod.snd

/-- The loop of `get_port_list` again, recording every payload offset it reads. -/
def get_port_list_loop_reads (e : Endian) (payload : List Nat) (entries : Nat) :
    Nat → Nat → Nat → List port_list_entry → List Nat →
      Option (List port_list_entry × List Nat)
  | 0, _, _, _, _ => none
  | fuel + 1, i, offset, ple, rd =>
    if i < entries then
      let port_name := load e payload offset 8
      let rd := rd ++ field_offsets offset 8
      let offset := (offset + 9) % 65536
      let port_module_type := peek payload offset
      let rd := rd ++ [offset]
      let offset := (offset + 1) % 65536
      let port_tx_type := peek payload offset
      let rd := rd ++ [offset]
      let offset := (offset + 1) % 65536
      let port_type := peek payload offset
      let rd := rd ++ [offset]
      let offset := (offset + 1) % 65536
      get_port_list_loop_reads e payload entries fuel ((i + 1) % 65536) offset
        (ple.set i ⟨port_name, port_module_type, port_tx_type, port_type⟩) rd
    else some (ple, rd)

/-- The payload offsets that `get_port_list` reads in an accepted response. -/
def get_port_list_reads (e : Endian) (payload : List Nat) : Option (List Nat) :=
  (get_port_list_loop_reads e payload (load e payload 0 4) UINT16_RANGE 0 4
    (List.replicate (load e payload 0 4) ⟨0, 0, 0, 0⟩) (field_offsets 0 4)).map Prod.snd

/-- The loop of `get_att_port_list` again, recording every payload offset it reads. -/
def get_att_port_list_loop_reads (e : Endian) (payload : List Nat) (entries : Nat) :
    Nat → Nat → Nat → List att_port_name → List Nat →
      Option (List att_port_name × List Nat)
  | 0, _, _, _, _ => none
  | fuel + 1, i, offset, apn, rd =>
    if i < entries then
      let port_name := load e payload offset 8
      let rd := rd ++ field_offsets offset 8
      let offset := (offset + 10) % 2 ^ 32
      let port_flags := peek payload offset
      let rd := rd ++ [offset]
      let offset := (offset + 1) % 2 ^ 32
      let port_type := peek payload offset
      let rd := rd ++ [offset]
      let offset := (offset + 1) % 2 ^ 32
      get_att_port_list_loop_reads e payload entries fuel ((i + 1) % 65536) offset
        (apn.set i ⟨port_name, port_flags, port_type⟩) rd
    else some (apn, rd)

/-- The payload offsets that `get_att_port_list` reads in an accepted response. -/
def get_att_port_list_reads (e : Endian) (payload : List Nat) : Option (List Nat) :=
  (get_att_port_list_loop_reads e payload (load e payload 0 4) UINT16_RANGE 0 4
    (List.replicate (load e payload 0 4) ⟨0, 0, 0⟩) (field_offsets 0 4)).map Prod.snd

/-- The payload offsets that `get_information_list` reads in an accepted
response: the length byte at offset 3, then the `length` bytes of the `memcpy`. -/
def get_information_list_reads (payload : List Nat) : List Nat :=
  3 :: field_offsets 4 (peek payload 3 % 256)

/-! ## zfcp_show.c: the topology list -/

/-- The `struct ice_conn` without its `next` pointer: a chain of them is a
`List ice_conn`, the null pointer the empty list. -/
structure ice_conn where
  domain_id : Nat
  ppn : Nat
  port_name : Nat
  local_port : Nat
  deriving DecidableEq, Repr

/-- The walk `while (icc_cur->next) icc_cur = icc_cur->next;` of `gen_topology`
followed by `icc_cur->next = icc_new`. -/
def append_tail (icc_new : ice_conn) : List ice_conn → List ice_conn
  | [] => [icc_new]
  | icc_cur :: next => icc_cur :: append_tail icc_new next

/-- The function `gen_topology`; `domain_id` is a `uint8_t`, `apn` a pointer
(`none`: null) and `calloc` succeeds.  The result is `none` when the function
dereferences a null `apn`. -/
def gen_topology (icc_start : List ice_conn) (domain_id ppn : Nat) (apn : Option att_port_name)
    (ple : port_list_entry) : Option (List ice_conn) :=
  if ple.port_type ≠ E_PORT then some icc_start
  else
    match apn with
    | none => none
    | some a =>
      let icc_new : ice_conn := ⟨domain_id, ppn, a.port_name, ple.port_name⟩
      if icc_start = [] then some [icc_new] else some (append_tail icc_new icc_start)

/-- The inner loop of `print_topology`:
`for (tmp = ic; tmp; tmp = tmp->next) if (tmp->local_port == ic_cur->port_name) break;`. -/
def find_local_port (port_name : Nat) : List ice_conn → Option ice_conn
  | [] => none
  | tmp :: next => if tmp.local_port = port_name then some tmp else find_local_port port_name next

/-- Format of the domain line of `print_topology`. -/
def DOMAIN_FORMAT : String := "\nDomain %03d attached via\n"

/-- Format of the link line of `print_topology`. -/
def LINK_FORMAT : String := "\tphysical port %03d to physical port %03d of domain %d\n"

/-- The outer loop of `print_topology` from `ic_cur` on; `domain_id` is the
`uint8_t` local of that name. -/
def print_topology_loop {σ : Type} (ic : List ice_conn) :
    List ice_conn → Nat → World σ → World σ
  | [], _, w => w
  | ic_cur :: next, domain_id, w =>
    match find_local_port ic_cur.port_name ic with
    | none => print_topology_loop ic next domain_id w
    | some tmp =>
      let w1 :=
        if domain_id ≠ ic_cur.domain_id then
          w.printf (Msg.fmt DOMAIN_FORMAT [Arg.num ic_cur.domain_id])
        else w
      let w2 := w1.printf (Msg.fmt LINK_FORMAT
        [Arg.num ic_cur.ppn, Arg.num tmp.ppn, Arg.num tmp.domain_id])
      print_topology_loop ic next (ic_cur.domain_id % 256) w2

/-- The function `print_topology`: `uint8_t domain_id = 0xff`. -/
def print_topology {σ : Type} (ic : List ice_conn) (w : World σ) : World σ :=
  print_topology_loop ic ic 0xff w

/-- The edges of `L` that have a partner, each with its partner: the first edge
of `L` whose local port is the port the edge is attached to. -/
def topology_links (L : List ice_conn) : List (ice_conn × ice_conn) :=
  L.filterMap (fun e => (L.find? (fun t => t.local_port = e.port_name)).map (fun t => (e, t)))

/-- The arguments of the link lines of a trace, in order. -/
def link_lines : List Event → List (Nat × Nat × Nat)
  | [] => []
  | Event.print (Msg.fmt f [Arg.num a, Arg.num b, Arg.num c]) :: rest =>
    if f = LINK_FORMAT then (a, b, c) :: link_lines rest else link_lines rest
  | _ :: rest => link_lines rest

/-- The link lines of a piece of output, each with the domain of the last
domain line printed before it (`none`: there is none); the first argument is
the domain line in force at the start. -/
def headed_link_lines : Option Nat → List Event → List (Option Nat × Nat × Nat × Nat)
  | _, [] => []
  | h, Event.print (Msg.fmt f [Arg.num d]) :: rest =>
    if f = DOMAIN_FORMAT then headed_link_lines (some d) rest else headed_link_lines h rest
  | h, Event.print (Msg.fmt f [Arg.num a, Arg.num b, Arg.num c]) :: rest =>
    if f = LINK_FORMAT then (h, a, b, c) :: headed_link_lines h rest
    else headed_link_lines h rest
  | h, _ :: rest => headed_link_lines h rest

/-! ## zfcp_show.c: show_ns_info -/

/-- Format of the entry line of `show_ns_info`. -/
def NS_ENTRY_FORMAT : String := "\t 0x%016lx / 0x%x [%s] "

/-- The string `prot_str` that `show_ns_info` builds with `strcat` from the
FC-4 word `proto`. -/
def prot_str (proto : Nat) : String :=
  (if proto &&& 0x100 ≠ 0 then " SCSI-FCP " else "") ++
    (if proto &&& 0x18000000 = 0x18000000 then " FICON " else "")

/-- The loop `do { ... } while (1)` of `show_ns_info` from the state
`(tmp, port_id)`; `none` when the fuel runs out (the loop ends only when the
query fails or the port id `tmp` comes back). -/
def show_ns_info_loop {σ : Type} (P : Platform σ) (display_detail handle value : Nat) :
    Nat → Nat → Nat → World σ → Option (World σ)
  | 0, _, _, _ => none
  | fuel + 1, tmp, port_id, w =>
    match send_ct P display_detail handle (CT_IU_PREAMBLE_SIZE + 4) (CT_IU_PREAMBLE_SIZE + 640)
        NS_RCC_GA_NXT (host_bytes P.endian 4 port_id) SUBTYPE_NAME_SERVER
        GS_TYPE_DIRECTORY_SERVICE w with
    | (none, w1) => some w1
    | (some resp, w1) =>
      let payload := resp.drop CT_IU_PREAMBLE_SIZE
      let tmp := if tmp = 0 then port_id else tmp
      let port_id := load P.endian payload 1 4 / 256
      let port_name := load P.endian payload 4 8
      let proto := load P.endian payload 560 4
      if tmp = port_id then some w1
      else if display_detail &&& ATTACHMENT ≠ 0 ∧ ¬ (value = port_id ∨ value = port_name) then
        show_ns_info_loop P display_detail handle value fuel tmp port_id w1
      else
        let w2 := w1.printf (Msg.fmt NS_ENTRY_FORMAT
          [Arg.num port_name, Arg.num port_id, Arg.tab "pt" (peek payload 0)])
        let w3 :=
          if (prot_str proto).length ≠ 0 then
            w2.printf (Msg.fmt "proto =%s\n" [Arg.lit (prot_str proto)])
          else w2.printf (Msg.text "\n")
        show_ns_info_loop P display_detail handle value fuel tmp port_id w3

/-- The function `show_ns_info`: `tmp = 0, port_id = 0`. -/
def show_ns_info {σ : Type} (P : Platform σ) (display_detail handle value fuel : Nat)
    (w : World σ) : Option (World σ) :=
  show_ns_info_loop P display_detail handle value fuel 0 0
    (w.printf (Msg.text "\nLocal Port List:\n"))

/-- The port id of an entry line of `show_ns_info`, `none` for any other event. -/
def ns_entry (ev : Event) : Option Nat :=
  match ev with
  | Event.print (Msg.fmt f [Arg.num _, Arg.num port_id, Arg.tab _ _]) =>
    if f = NS_ENTRY_FORMAT then some port_id else none
  | _ => none

/-- The port ids of the entry lines of a trace, in order. -/
def ns_entries (tr : List Event) : List Nat := tr.filterMap ns_entry

/-! ## zfcp_show.c: print_ice_info -/

/-- The C string that starts at `buf[off]`: the bytes before the first NUL at or
after `off`; `none` when the buffer has no NUL from `off` on, so that reading the
string runs outside the buffer. -/
def cstr (buf : List Nat) (off : Nat) : Option (List Nat) :=
  if (buf.drop off).any (fun b => b = 0) then some ((buf.drop off).takeWhile (fun b => b ≠ 0))
  else none

/-- The three strings that `print_ice_info` prints from the buffer `ice_info`:
`ice_info` itself, then `tmp = index(ice_info, 0) + 1`, then
`tmp = index(tmp, 0) + 1`, each as the offset of `tmp` in the buffer. -/
def ice_info_strings (ice_info : List Nat) :
    Option (List Nat) × Option (List Nat) × Option (List Nat) :=
  let vendor := cstr ice_info 0
  let tmp := vendor.map (fun v => v.length + 1)
  let model := tmp.bind (cstr ice_info)
  let tmp2 := tmp.bind (fun t => model.map (fun m => t + m.length + 1))
  let release := tmp2.bind (cstr ice_info)
  (vendor, model, release)

/-- The function `print_ice_info`. -/
def print_ice_info {σ : Type} (P : Platform σ) (display_detail handle : Nat)
    (ice : interconnect_element) (domain_id pl_entries : Nat) (w : World σ) : World σ :=
  let w := w.printf (Msg.text "\n")
  let w := w.printf (Msg.fmt "Interconnect Element Name       0x%lx\n" [Arg.num ice.port_name])
  let w := w.printf (Msg.fmt "Interconnect Element Domain ID  %03d\n" [Arg.num domain_id])
  let w := w.printf (Msg.fmt "Interconnect Element Type       %s\n"
    [Arg.tab "element_type" ice.port_type])
  let w := w.printf (Msg.fmt "Interconnect Element Ports      %03d\n" [Arg.num pl_entries])
  if display_detail &&& VERBOSE = 0 then w
  else
    let r := get_information_list P display_detail handle ice.port_name w
    let w :=
      match r.1 with
      | none =>
        ((r.2.printf (Msg.text "Interconnect Element Vendor     Error\n")).printf
          (Msg.text "Interconnect Element Model      Error\n")).printf
          (Msg.text "Interconnect Element Rel. Code  Error\n")
      | some ice_info =>
        ((r.2.printf (Msg.fmt "Interconnect Element Vendor     %s\n"
            [Arg.str (ice_info_strings ice_info).1])).printf
          (Msg.fmt "Interconnect Element Model      %s\n"
            [Arg.str (ice_info_strings ice_info).2.1])).printf
          (Msg.fmt "Interconnect Element Rel. Code  %s\n"
            [Arg.str (ice_info_strings ice_info).2.2])
    let r := get_ice_logical_name P display_detail handle ice.port_name w
    match r.1 with
    | none => r.2.printf (Msg.text "Interconnect Element Log. Name  Error\n")
    | some tmp => r.2.printf (Msg.fmt "Interconnect Element Log. Name  %s\n" [Arg.str (cstr tmp 0)])

/-! ## zfcp_show.c: do_something -/

/-- The function `print_csv`; `apn` is a pointer (`none`: null). -/
def print_csv {σ : Type} (ice : interconnect_element) (domain_id : Nat) (ple : port_list_entry)
    (ps ppn : Nat) (apn : Option att_port_name) (d_id : Nat) (w : World σ) : World σ :=
  let w1 := w.printf (Msg.fmt "0x%016lx,%03d,%s,%03d,%s,0x%016lx,%s,%s,%s,"
    [Arg.num ice.port_name, Arg.num domain_id, Arg.tab "element_type" ice.port_type,
      Arg.num ppn, Arg.tab "port_state" ps, Arg.num ple.port_name,
      Arg.tab "port_module_type" ple.port_module_type, Arg.tab "port_tx_type" ple.port_tx_type,
      Arg.tab "port_type" ple.port_type])
  match apn with
  | some a =>
    if ps = ONLINE then
      w1.printf (Msg.fmt "0x%016lx,0x%06x,%s\n"
        [Arg.num a.port_name, Arg.num d_id, Arg.tab "port_type" a.port_type])
    else w1.printf (Msg.text "n/a,n/a,n/a\n")
  | none => w1.printf (Msg.text "n/a,n/a,n/a\n")

/-- The function `print_ple_info`. -/
def print_ple_info {σ : Type} (display_detail : Nat) (ple : port_list_entry) (ps ppn : Nat)
    (w : World σ) : World σ :=
  if display_detail &&& VERBOSE ≠ 0 then
    let w1 := w.printf (Msg.fmt "\n\tICE Port %03d  %s [0x%lx]\n"
      [Arg.num ppn, Arg.tab "port_state" ps, Arg.num ple.port_name])
    if ps ≠ OFFLINE then
      w1.printf (Msg.fmt "\tICE Port Type %s %s [%s]\n"
        [Arg.tab "port_module_type" ple.port_module_type,
          Arg.tab "port_tx_type" ple.port_tx_type, Arg.tab "port_type" ple.port_type])
    else w1
  else w.printf (Msg.fmt "\tICE Port %03d  %s\n" [Arg.num ppn, Arg.tab "port_state" ps])

/-- The function `print_apn_info`. -/
def print_apn_info {σ : Type} (apn : att_port_name) (d_id : Nat) (w : World σ) : World σ :=
  w.printf (Msg.fmt "\t\tAttached Port [WWPN/ID] 0x%lx / 0x%06x [%s]\n"
    [Arg.num apn.port_name, Arg.num d_id, Arg.tab "port_type" apn.port_type])

/-- The text printed by `do_something` when `incompl` is set. -/
def INCOMPLETE_WARNING : String :=
  "\n*** Warning: at least one command did not succeed. ***\n" ++
    "*** Data might be incomplete.                      ***\n"

/-- The loop `for (apn_cnt = 0; apn_cnt < apn_no; apn_cnt++)` of `do_something`
over the `apn_no` elements of `apn` that are left. -/
def do_something_apn_loop {σ : Type} (P : Platform σ) (display_detail : Nat) (aa : adapter_attr)
    (value : Nat) (ice : interconnect_element) (domain_id ple_no : Nat) (ple : port_list_entry)
    (ps ppn : Nat) : List att_port_name → World σ → World σ
  | [], w => w
  | a :: rest, w =>
    let r := get_destination_id P display_detail aa.handle a.port_name w
    let d_id := r.1
    let w1 :=
      if display_detail &&& ATTACHMENT ≠ 0 ∧ (value = d_id ∨ value = a.port_name) then
        print_apn_info a d_id (print_ple_info display_detail ple ps ppn
          (print_ice_info P display_detail aa.handle ice domain_id ple_no r.2))
      else r.2
    let w2 :=
      if display_detail &&& (ATTACHMENT ||| TOPOLOGY ||| CSV) = 0 then print_apn_info a d_id w1
      else w1
    let w3 :=
      if display_detail &&& CSV ≠ 0 then print_csv ice domain_id ple ps ppn (some a) d_id w2
      else w2
    do_something_apn_loop P display_detail aa value ice domain_id ple_no ple ps ppn rest w3

/-- The loop `for (ple_cnt = 0; ple_cnt < ple_no; ple_cnt++)` of `do_something`
over the elements of `ple` that are left, from the state `(icc_start, incompl)`.
The result is `none` when `get_att_port_list` does not terminate or
`gen_topology` dereferences a null `apn`. -/
def do_something_ple_loop {σ : Type} (P : Platform σ) (display_detail : Nat) (aa : adapter_attr)
    (value : Nat) (ice : interconnect_element) (domain_id ple_no : Nat) :
    List port_list_entry → List ice_conn → Nat → World σ →
      Option (List ice_conn × Nat × World σ)
  | [], icc_start, incompl, w => some (icc_start, incompl, w)
  | ple :: rest, icc_start, incompl, w =>
    let r := get_port_state P display_detail aa.handle ple.port_name w
    let ps := r.1
    if display_detail &&& ps = 0 then
      do_something_ple_loop P display_detail aa value ice domain_id ple_no rest icc_start
        incompl r.2
    else
      let r1 := get_ppn P display_detail aa.handle ple.port_name r.2
      let ppn := r1.1
      let w1 :=
        if display_detail &&& (ATTACHMENT ||| TOPOLOGY ||| CSV) = 0 then
          print_ple_info display_detail ple ps ppn r1.2
        else r1.2
      if ps ≠ ONLINE then
        do_something_ple_loop P display_detail aa value ice domain_id ple_no rest icc_start
          incompl
          (if display_detail &&& CSV ≠ 0 then print_csv ice domain_id ple ps ppn none 0 w1
            else w1)
      else
        match get_att_port_list P display_detail aa.handle ple.port_name w1 with
        | (none, _) => none
        | (some (apn_no, apn), w2) =>
          let incompl1 := if apn_no = 0 then incompl ||| 1 else incompl
          let w3 := do_something_apn_loop P display_detail aa value ice domain_id ple_no ple
            ps ppn (apn.getD []) w2
          if display_detail &&& (TOPOLOGY ||| VERBOSE) ≠ 0 then
            match gen_topology icc_start domain_id ppn
                (apn.map (fun l => l.getD 0 ⟨0, 0, 0⟩)) ple with
            | none => none
            | some icc => do_something_ple_loop P display_detail aa value ice domain_id ple_no
                rest icc incompl1 w3
          else
            do_something_ple_loop P display_detail aa value ice domain_id ple_no rest icc_start
              incompl1 w3

/-- The loop `for (ice_cnt = 0; ice_cnt < ice_no; ice_cnt++)` of `do_something`
over the elements of `ice` that are left. -/
def do_something_ice_loop {σ : Type} (P : Platform σ) (display_detail : Nat) (aa : adapter_attr)
    (value : Nat) :
    List interconnect_element → List ice_conn → Nat → World σ →
      Option (List ice_conn × Nat × World σ)
  | [], icc_start, incompl, w => some (icc_start, incompl, w)
  | ice :: rest, icc_start, incompl, w =>
    let r := get_domain_id P display_detail aa.handle ice.port_name w
    let domain_id := r.1
    let incompl1 := if domain_id = 0 then incompl ||| 1 else incompl
    if display_detail &&& DOMAIN ≠ 0 ∧ value ≠ domain_id then
      do_something_ice_loop P display_detail aa value rest icc_start incompl1 r.2
    else
      match get_port_list P display_detail aa.handle ice.port_name r.2 with
      | (none, _) => none
      | (some (ple_no, ple), w1) =>
        let w2 :=
          if display_detail &&& (ATTACHMENT ||| TOPOLOGY ||| CSV) = 0 then
            print_ice_info P display_detail aa.handle ice domain_id ple_no w1
          else w1
        let incompl2 := if ple_no = 0 then incompl1 ||| 1 else incompl1
        match do_something_ple_loop P display_detail aa value ice domain_id ple_no
            (ple.getD []) icc_start incompl2 w2 with
        | none => none
        | some s => do_something_ice_loop P display_detail aa value rest s.1 s.2.1 s.2.2

/-- The function `do_something`: the status it returns, or `none` when it does
not return (a list query that does not terminate, a null `apn` dereferenced). -/
def do_something {σ : Type} (P : Platform σ) (display_detail : Nat) (aa : adapter_attr)
    (value : Nat) (w : World σ) : Option (Nat × World σ) :=
  match get_ice_list P display_detail aa.handle w with
  | (none, _) => none
  | (some (ice_no, ice), w1) =>
    if ice_no = 0 then some (1, w1.printf (Msg.text "ERROR: no interconnect elements found.\n"))
    else
      let w2 :=
        if display_detail &&& CSV ≠ 0 then
          w1.printf (Msg.text ("ICE-name,domain,ICE-type,ppn,status,port name," ++
            "port module type,port TX type,port type," ++
            "att. port name,att. port ID,att. port type\n"))
        else w1
      match do_something_ice_loop P display_detail aa value (ice.getD []) [] 0 w2 with
      | none => none
      | some s =>
        let w3 :=
          if display_detail &&& (TOPOLOGY ||| VERBOSE) ≠ 0 then
            if s.1 ≠ [] then print_topology s.1 (s.2.2.printf (Msg.text "\n\t*** Topology ***\n"))
            else s.2.2.printf (Msg.text "\n\t*** No topology information available ***\n")
          else s.2.2
        some (0, if s.2.1 ≠ 0 then w3.printf (Msg.text INCOMPLETE_WARNING) else w3)

/-- The pass-through calls of a trace, in order: the CT queries issued. -/
def queries (tr : List Event) : List Event :=
  tr.filter (fun ev => match ev with
    | Event.ct_pass_thru _ _ _ => true
    | _ => false)

/-- The command codes of the CT queries of a trace, in order, as a host of byte
order `e` wrote them. -/
def cmd_codes (e : Endian) (tr : List Event) : List Nat :=
  tr.filterMap (fun ev => match ev with
    | Event.ct_pass_thru _ req _ => some (load e req CT_IU_CODE_OFFSET 2)
    | _ => none)

/-- Two worlds that differ at most in what was printed and slept: the same
state of the environment and the same CT queries issued so far. -/
def same_queries {σ : Type} (w v : World σ) : Prop :=
  w.st = v.st ∧ queries w.trace = queries v.trace

/-! ## zfcp_ping.c -/

def FC_PNG_REV : Nat := 0x00000001

/-- The static `time_stat` without its `double avg`, which is floating point. -/
structure time_stat where
  min : Nat
  max : Nat
  count : Nat
  deriving DecidableEq, Repr

/-- The packed `struct fpng`; `pval` and `token` are the members of the arm of
the union that `tag` selects (`t.name` for FC_TAG_WWPN, `t.id` otherwise). -/
structure fpng where
  revision : Nat
  tag : Nat
  length : Nat
  pval : Nat
  token : Nat
  deriving DecidableEq, Repr

/-- The 20 bytes of a `struct fpng` that was cleared by `bzero(&p, 20)`:
revision (0..3), tag (4..5), length (6..7), then `t.name.pval` (8..15) and
`t.name.token` (16..19), or `t.id.pval` (8..11) and `t.id.token` (12..15). -/
def fpng_bytes (e : Endian) (p : fpng) : List Nat :=
  let b := List.replicate 20 0
  let b := store e b 0 4 p.revision
  let b := store e b 4 2 p.tag
  let b := store e b 6 2 p.length
  if p.tag = FC_TAG_WWPN then store e (store e b 8 8 p.pval) 16 4 p.token
  else store e (store e b 8 4 p.pval) 12 4 p.token

/-- The function `calc_time_diff`: `long` arithmetic converted to `unsigned int`. -/
def calc_time_diff (start end_ : timeval) : Nat :=
  (((end_.tv_sec - start.tv_sec) * 1000000 + (end_.tv_usec - start.tv_usec)) % 2 ^ 32).toNat

/-- The function `update_ts` on `time_stat`; the value is the difference in
microseconds (the C function returns it divided by 1000.0). -/
def update_ts (ts : time_stat) (start end_ : timeval) : Nat × time_stat :=
  let diff := calc_time_diff start end_
  if ts.count = 0 then (diff, ⟨diff, diff, (ts.count + 1) % 2 ^ 32⟩)
  else
    (diff, ⟨if ts.min > diff then diff else ts.min, if ts.max < diff then diff else ts.max,
      (ts.count + 1) % 2 ^ 32⟩)

/-- The request parameter `p` and the request size `size` that `send_fc_ping`
sets up for a destination `dest_val` (a `uint64_t`) and a token. -/
def send_fc_ping_setup (dest_val token : Nat) : fpng × Nat :=
  if dest_val &&& 0xFFFFFFFFFF000000 ≠ 0 then
    (⟨FC_PNG_REV, FC_TAG_WWPN, 8, dest_val, token⟩, CT_IU_PREAMBLE_SIZE + 20)
  else
    (⟨FC_PNG_REV, FC_TAG_NPORT, 4, ((dest_val &&& 0xFFFFFF) <<< 8) % 2 ^ 32, token⟩,
      CT_IU_PREAMBLE_SIZE + 16)

/-- The loop `while (count) { ... }` of `send_fc_ping` from the state
`(p, retry, count, time_stat)`; `none` when the fuel runs out (the loop has no
bound of its own: every token collision and every response starts it again). -/
def send_fc_ping_loop {σ : Type} (P : Platform σ) (display_detail : Nat) (aa : adapter_attr)
    (dest_val size : Nat) :
    Nat → fpng → Nat → Nat → time_stat → World σ → Option (Nat × time_stat × World σ)
  | 0, _, _, _, _, _ => none
  | fuel + 1, p, retry, count, ts, w =>
    if count = 0 then some (HBA_STATUS_OK, ts, w)
    else
      let t0 := w.gettimeofday P
      let r := send_ct_pt P display_detail aa.handle size (CT_IU_PREAMBLE_SIZE + 4)
        FCS_RCC_FPNG (fpng_bytes P.endian p) SUBTYPE_FABRIC_CONFIGURATION_SERVER
        GS_TYPE_MANAGEMENT_SERVICE t0.2
      let t1 := r.2.gettimeofday P
      let w1 := t1.2
      match r.1 with
      | none =>
        if retry ≠ 0 then
          send_fc_ping_loop P display_detail aa dest_val size fuel p (retry - 1) count ts w1
        else some (HBA_STATUS_ERROR, ts, w1)
      | some resp =>
        let code := load P.endian resp CT_IU_CODE_OFFSET 2
        if code = GS_REJECT_RESPONSE_CT_IU then
          if peek resp 13 = RC_LOGICAL_ERROR ∧ peek resp 14 = RCE_PROCESSING_REQUEST then
            let w2 :=
              if display_detail &&& VERBOSE ≠ 0 then w1.printf (Msg.token_in_use p.token)
              else w1
            send_fc_ping_loop P display_detail aa dest_val size fuel
              { p with token := (p.token + 1) % 2 ^ 32 } 2 count ts w2
          else
            some (HBA_STATUS_ERROR, ts,
              if display_detail &&& VERBOSE ≠ 0 then print_error (peek resp 13) (peek resp 14) w1
              else w1)
        else if code = GS_ACCEPT_RESPONSE_CT_IU then
          let u := update_ts ts t0.1 t1.1
          let w2 := w1.printf (Msg.echo p.tag dest_val p.token u.1)
          send_fc_ping_loop P display_detail aa dest_val size fuel
            { p with token := (p.token + 1) % 2 ^ 32 } 2 (count - 1) u.2 (w2.sleep P 1)
        else some (HBA_STATUS_ERROR, ts, print_error_statement w1)

/-- The function `send_fc_ping`, given `dest_val = strtoull(dest, NULL, 0)` and
the `time_stat` it finds; the result is the status returned, the `time_stat`
left behind and the world. -/
def send_fc_ping {σ : Type} (P : Platform σ) (display_detail : Nat) (aa : adapter_attr)
    (dest_val token count fuel : Nat) (ts : time_stat) (w : World σ) :
    Option (Nat × time_stat × World σ) :=
  if dest_val = 0 then some (HBA_STATUS_ERROR_ARG, ts, w)
  else
    let s := send_fc_ping_setup dest_val token
    send_fc_ping_loop P display_detail aa dest_val s.2 fuel s.1 2 count ts
      (w.printf (Msg.sending_png (display_detail &&& VERBOSE ≠ 0) aa))


/-! ## Closed forms of the decoded entries, used to state what the loops compute -/

/-- Entry `i` of a Get Interconnect Element List payload as `get_ice_list` reads it. -/
def ice_entry (e : Endian) (payload : List Nat) (i : Nat) : interconnect_element :=
  ⟨load e payload (4 + 12 * i) 8, peek payload (4 + 12 * i + 11)⟩

/-- Entry `i` of a Get Port List payload as `get_port_list` reads it. -/
def ple_entry (e : Endian) (payload : List Nat) (i : Nat) : port_list_entry :=
  ⟨load e payload (4 + 12 * i) 8, peek payload (4 + 12 * i + 9), peek payload (4 + 12 * i + 10),
    peek payload (4 + 12 * i + 11)⟩

/-- Entry `i` of a Get Attached Port List payload as `get_att_port_list` reads it. -/
def apn_entry (e : Endian) (payload : List Nat) (i : Nat) : att_port_name :=
  ⟨load e payload (4 + 12 * i) 8, peek payload (4 + 12 * i + 10), peek payload (4 + 12 * i + 11)⟩

/-- An accept CT_IU carrying a list payload of two 12-byte entries: count 2,
then bytes `10 00 00 05 1e 00 00 01 | a1 a2 a3 a4` and
`20 00 00 05 1e 00 00 02 | b1 b2 b3 b4` (big-endian host). -/
def LIST_IU : List Nat :=
  [1, 0, 0, 0, 0xfa, 1, 0, 0, 0x80, 0x02, 0, 0, 0, 0, 0, 0,
   0, 0, 0, 2,
   0x10, 0, 0, 5, 0x1e, 0, 0, 1, 0xa1, 0xa2, 0xa3, 0xa4,
   0x20, 0, 0, 5, 0x1e, 0, 0, 2, 0xb1, 0xb2, 0xb3, 0xb4]

/-! ## zfcp_util.h: fc_get_hba_handle -/

/-- The `enum addr_type`. -/
inductive addr_type where
  | NPORT
  | WWPN
  | BUSID
  | FCHOST
  deriving DecidableEq, Repr

/-- The conversions of the C library that the tools call, as parameters: `atoi`,
`strtoul(nptr, NULL, base)` and `strtoull(nptr, NULL, base)`. -/
structure Libc where
  atoi : String → Int
  strtoul : String → Nat → Nat
  strtoull : String → Nat → Nat

/-- The string that starts at `&s[k]`, for `k` inside the buffer that holds `s`
and is padded with NUL bytes. -/
def str_from (s : String) (k : Nat) : String := ⟨s.toList.drop k⟩

/-- The string that `strncpy(dst, s, n)` leaves in a cleared buffer `dst` of more
than `n` bytes. -/
def str_copy (s : String) (n : Nat) : String := ⟨s.toList.take n⟩

/-- Whether `strstr(haystack, needle)` is not null. -/
def strstr (haystack needle : String) : Bool :=
  decide (needle.toList <:+: haystack.toList)

/-- The value of `a << k` for an `int a`, converted to `uint64_t`. -/
def int_shl_u64 (a : Int) (k : Nat) : Nat :=
  (((a * 2 ^ k + 2 ^ 31) % 2 ^ 32 - 2 ^ 31) % 2 ^ 64).toNat

/-- What the library tells `fc_get_hba_handle` about the adapter with a given
index: the status of `HBA_GetAdapterName`, the handle that `HBA_OpenAdapter`
returns, the status `rc` of the two attribute calls, and the attributes read. -/
structure hba_adapter where
  name_status : Nat
  handle : Nat
  rc : Nat
  VendorSpecificID : Nat
  PortWWN : Nat
  PortFcId : Nat
  PortSpeed : Nat
  OSDeviceName : String
  deriving DecidableEq, Repr

/-- The first part of `fc_get_hba_handle`: the address type and the id that the
argument selects; `none` where the function returns NULL. -/
def fc_get_hba_handle_id (L : Libc) (arg : String) : Option (addr_type × Nat) :=
  if strstr arg "." then
    some (addr_type.BUSID,
      int_shl_u64 (L.atoi arg) 24 ||| int_shl_u64 (L.atoi (str_from arg 2)) 16 |||
        L.strtoul (str_from arg 4) 16)
  else if strstr arg "host" then some (addr_type.FCHOST, 0)
  else
    let hba_id := L.strtoull arg 0
    if arg.length ≠ 0 ∧ hba_id = 0 then none
    else if hba_id &&& 0xffffffffff000000 ≠ 0 then some (addr_type.WWPN, hba_id)
    else some (addr_type.NPORT, hba_id)

/-- The loop `for (cnt = 0; cnt < hba_cnt; cnt++)` of `fc_get_hba_handle` over
the adapters that are left, up to the label `out`. -/
def fc_get_hba_handle_loop (arg : String) (hba_adr_type : addr_type) (hba_id : Nat) :
    List hba_adapter → Option hba_adapter
  | [] => none
  | a :: rest =>
    if a.name_status ≠ HBA_STATUS_OK then fc_get_hba_handle_loop arg hba_adr_type hba_id rest
    else if a.handle = 0 then fc_get_hba_handle_loop arg hba_adr_type hba_id rest
    else if a.rc ≠ HBA_STATUS_OK then fc_get_hba_handle_loop arg hba_adr_type hba_id rest
    else if hba_id = 0 ∧ hba_adr_type ≠ addr_type.FCHOST then some a
    else if (match hba_adr_type with
        | addr_type.BUSID => decide (a.VendorSpecificID = hba_id)
        | addr_type.WWPN => decide (a.PortWWN = hba_id)
        | addr_type.NPORT => decide (a.PortFcId = hba_id)
        | addr_type.FCHOST => strstr a.OSDeviceName arg) then some a
    else fc_get_hba_handle_loop arg hba_adr_type hba_id rest

/-- The function `fc_get_hba_handle`, `calloc` succeeding; `adapters` are the
`HBA_GetNumberOfAdapters()` adapters of the library. -/
def fc_get_hba_handle (L : Libc) (adapters : List hba_adapter) (arg : String) :
    Option adapter_attr :=
  if adapters.length = 0 then none
  else
    match fc_get_hba_handle_id L arg with
    | none => none
    | some (hba_adr_type, hba_id) =>
      match fc_get_hba_handle_loop arg hba_adr_type hba_id adapters with
      | none => none
      | some a =>
        some ⟨a.handle, a.VendorSpecificID, a.PortWWN, a.PortFcId, str_copy a.OSDeviceName 255,
          a.PortSpeed⟩

/-! ## zfcp_ping.c: timing_results, main -/

def SIGHUP : Nat := 1

/-- The lines of `print_usage` of zfcp_ping.c. -/
def zfcp_ping_usage : List String :=
  ["Usage: zfcp_ping [-vdh] [-c <count> ] [-t <token>] -a <busid|fc_host|S_ID|WWPN> <WWPN|D_ID>\n",
   "\t-a: source adapter specified by busid, fc_host, S_ID or WWPN.\n",
   "\t-c: number of ping requests to send.\n",
   "\t-t: token to send by ping request.\n",
   "\t-v: be verbose.\n",
   "\t-d: provide some debug output.\n",
   "\t-h: this help text.\n"]

/-- Prints fixed lines, one `printf` each. -/
def print_lines {σ : Type} (lines : List String) (w : World σ) : World σ :=
  lines.foldl (fun v line => v.printf (Msg.text line)) w

/-- The function `timing_results(sig)`: the statistics are printed (the average,
a `double`, is left out of the arguments), then `exit(0)` unless the signal is
SIGHUP; the value is the exit status when the process exits here. -/
def timing_results {σ : Type} (sig : Nat) (ts : time_stat) (w : World σ) :
    Option Nat × World σ :=
  (if sig ≠ SIGHUP then some 0 else none,
    ((w.printf (Msg.text "\n---------- ping statistics -----------\n")).printf
      (Msg.fmt "min/avg/max = %0.03f/%0.03f/%0.03f ms" [Arg.num ts.min, Arg.num ts.max])).printf
      (Msg.text "\n--------------------------------------\n"))

/-- The variables that the option loop of zfcp_ping.c sets. -/
structure ping_options where
  adapter : String
  cnt : Nat
  token : Nat
  display_detail : Nat
  deriving DecidableEq, Repr

/-- The loop `while ((arg = getopt(argc, argv, "a:c:t:vdh")) != -1)` of zfcp_ping.c
over the results of `getopt` that are left, each with its `optarg`; the first
component is the exit status when the process ends inside the loop. -/
def zfcp_ping_getopt {σ : Type} (L : Libc) :
    List (Char × String) → ping_options → World σ → Option Nat × ping_options × World σ
  | [], o, w => (none, o, w)
  | (arg, optarg) :: rest, o, w =>
    if arg = 'a' then zfcp_ping_getopt L rest { o with adapter := str_copy optarg 255 } w
    else if arg = 'c' then
      if (optarg.length ≠ 0 ∧ L.strtoul optarg 0 % 2 ^ 32 = 0) ∨ optarg.toList.head? = some '-' then
        (some HBA_STATUS_ERROR, { o with cnt := L.strtoul optarg 0 % 2 ^ 32 },
          w.printf (Msg.text "Invalid value for count.\n"))
      else zfcp_ping_getopt L rest { o with cnt := L.strtoul optarg 0 % 2 ^ 32 } w
    else if arg = 't' then
      if (optarg.length ≠ 0 ∧ L.strtoul optarg 0 % 2 ^ 32 = 0) ∨ optarg.toList.head? = some '-' then
        (some HBA_STATUS_ERROR, { o with token := L.strtoul optarg 0 % 2 ^ 32 },
          w.printf (Msg.text "Invalid value.\n"))
      else zfcp_ping_getopt L rest { o with token := L.strtoul optarg 0 % 2 ^ 32 } w
    else if arg = 'v' then
      zfcp_ping_getopt L rest { o with display_detail := o.display_detail ||| VERBOSE } w
    else if arg = 'd' then
      zfcp_ping_getopt L rest { o with display_detail := o.display_detail ||| DEBUG } w
    else if arg = 'h' then (some 0, o, print_lines zfcp_ping_usage w)
    else
      (some HBA_STATUS_ERROR, o,
        print_lines zfcp_ping_usage
          (w.printf (Msg.fmt "Unknown parameter \x27-%c\x27\n" [Arg.num arg.toNat])))

/-- The function `main` of zfcp_ping.c: the exit status of the process and the
world it leaves.  `opts` are the results of `getopt`, `operands` the arguments
from `argv[optind]` on, `load` the status of `HBA_LoadLibrary()` and `adapters`
the adapters of the library; `none` when the fuel of `send_fc_ping` runs out. -/
def zfcp_ping_main {σ : Type} (P : Platform σ) (L : Libc) (load : Nat)
    (adapters : List hba_adapter) (opts : List (Char × String)) (operands : List String)
    (fuel : Nat) (w : World σ) : Option (Nat × World σ) :=
  match zfcp_ping_getopt L opts ⟨"", 3, 0, 0xff⟩ w with
  | (some status, _, w1) => some (status, w1)
  | (none, o, w1) =>
    match operands with
    | [dest] =>
      if load ≠ HBA_STATUS_OK then
        some (HBA_STATUS_ERROR, w1.printf (Msg.text "Error: Failed to load library.\n"))
      else
        match fc_get_hba_handle L adapters o.adapter with
        | none => some (HBA_STATUS_ERROR, w1.printf (Msg.text "No adapter found.\n"))
        | some aa =>
          match send_fc_ping P o.display_detail aa (L.strtoull (str_copy dest 255) 0) o.token o.cnt
              fuel ⟨0, 0, 0⟩ w1 with
          | none => none
          | some (status, ts, w2) =>
            let w3 :=
              if status ≠ HBA_STATUS_OK then
                w2.printf (Msg.text "Error received for FPNG request, aborting.\n")
              else w2
            let rc := if status ≠ HBA_STATUS_OK then HBA_STATUS_ERROR else HBA_STATUS_OK
            match timing_results 0 ts w3 with
            | (some status, w4) => some (status, w4)
            | (none, w4) => some (rc, w4)
    | _ =>
      some (HBA_STATUS_ERROR, print_lines zfcp_ping_usage (w1.printf (Msg.text "Invalid parameter.\n")))

/-! ## zfcp_ping.c: consecutive transport failures, repeated measurements -/

/-- One passage of the loop of `send_fc_ping` up to the test of `resp`: the two
clock readings, the response of `send_ct_pt` and the world after them. -/
def send_fc_ping_attempt {σ : Type} (P : Platform σ) (display_detail : Nat) (aa : adapter_attr)
    (size : Nat) (p : fpng) (w : World σ) : timeval × timeval × Option (List Nat) × World σ :=
  let t0 := w.gettimeofday P
  let r := send_ct_pt P display_detail aa.handle size (CT_IU_PREAMBLE_SIZE + 4)
    FCS_RCC_FPNG (fpng_bytes P.endian p) SUBTYPE_FABRIC_CONFIGURATION_SERVER
    GS_TYPE_MANAGEMENT_SERVICE t0.2
  let t1 := r.2.gettimeofday P
  (t0.1, t1.1, r.1, t1.2)

/-- The world after `k` passages in a row. -/
def ping_after {σ : Type} (P : Platform σ) (display_detail : Nat) (aa : adapter_attr)
    (size : Nat) (p : fpng) : Nat → World σ → World σ
  | 0, w => w
  | k + 1, w =>
    ping_after P display_detail aa size p k (send_fc_ping_attempt P display_detail aa size p w).2.2.2

/-- Whether the next `k` passages from `w` on all get no response. -/
def ping_all_fail {σ : Type} (P : Platform σ) (display_detail : Nat) (aa : adapter_attr)
    (size : Nat) (p : fpng) : Nat → World σ → Bool
  | 0, _ => true
  | k + 1, w =>
    (send_fc_ping_attempt P display_detail aa size p w).2.2.1.isNone &&
      ping_all_fail P display_detail aa size p k
        (send_fc_ping_attempt P display_detail aa size p w).2.2.2

/-- The `time_stat` after `update_ts` has been applied to the measurements of a
list, one after the other. -/
def update_ts_all : List (timeval × timeval) → time_stat → time_stat
  | [], ts => ts
  | m :: ms, ts => update_ts_all ms (update_ts ts m.1 m.2).2

/-! ## zfcp_show.c: main -/

/-- The lines of `print_usage` of zfcp_show.c. -/
def zfcp_show_usage : List String :=
  ["Usage: zfcp_show [-oOtnvcdh] [-a <busid|fc_host|S_ID|WWPN>]\n",
   "                 [-i <DOMAIN-ID>] [-p <attached port>]\n",
   "\t-a: source adapter specified by busid, fc_host, S_ID or WWPN.\n",
   "\t-o: show online ports only.\n",
   "\t-O: show offline ports only.\n",
   "\t-i: show domain <ID> only.\n",
   "\t-p: show attached port <WWPN|ID> only.\n",
   "\t-t: show topology information only.\n",
   "\t-n: show local name server information.\n",
   "\t-c: provide the result as CSV output.\n",
   "\t-d: provide some debug output.\n",
   "\t-v: be verbose.\n",
   "\t-h: this help text.\n"]

/-- The variables that the option loop of zfcp_show.c sets; `display_detail` is
a `uint16_t`. -/
structure show_options where
  adapter : String
  display_detail : Nat
  value : Nat
  ns_only : Nat
  cc : Nat
  deriving DecidableEq, Repr

/-- How the option loop of zfcp_show.c ends: `exit(status)`, `goto end`, or the
end of the options. -/
inductive getopt_end where
  | exit (status : Nat)
  | goto_end
  | done
  deriving DecidableEq, Repr

/-- The loop `while ((arg = getopt(argc, argv, "a:p:i:vdtchoOn")) != -1)` of
zfcp_show.c over the results of `getopt` that are left. -/
def zfcp_show_getopt {σ : Type} (L : Libc) :
    List (Char × String) → show_options → World σ → getopt_end × show_options × World σ
  | [], o, w => (getopt_end.done, o, w)
  | (arg, optarg) :: rest, o0, w =>
    let o := { o0 with cc := o0.cc + 1 }
    if arg = 'a' then zfcp_show_getopt L rest { o with adapter := str_copy optarg 255 } w
    else if arg = 'v' then
      zfcp_show_getopt L rest { o with display_detail := o.display_detail ||| VERBOSE } w
    else if arg = 'd' then
      zfcp_show_getopt L rest { o with display_detail := o.display_detail ||| DEBUG } w
    else if arg = 't' then
      if o.display_detail &&& (DOMAIN ||| ATTACHMENT) ≠ 0 then
        (getopt_end.goto_end, o, w.printf (Msg.text
          "No limiting filter allowed in conjunction with topology output.\n"))
      else zfcp_show_getopt L rest { o with display_detail := o.display_detail ||| TOPOLOGY } w
    else if arg = 'i' ∨ arg = 'p' then
      if o.value ≠ 0 then
        (getopt_end.goto_end, o, w.printf (Msg.text "Only one filter is allowed at a time.\n"))
      else if o.display_detail &&& TOPOLOGY ≠ 0 then
        (getopt_end.goto_end, o, w.printf (Msg.text
          "No limiting filter allowed in conjunction with topology output.\n"))
      else
        let o1 := { o with
          display_detail := o.display_detail ||| (if arg = 'i' then DOMAIN else ATTACHMENT),
          value := L.strtoull optarg 0 }
        if optarg.length ≠ 0 ∧ o1.value = 0 then
          (getopt_end.goto_end, o1, w.printf (Msg.text "Invalid value.\n"))
        else zfcp_show_getopt L rest o1 w
    else if arg = 'c' then
      zfcp_show_getopt L rest { o with display_detail := o.display_detail ||| CSV } w
    else if arg = 'o' then
      zfcp_show_getopt L rest { o with display_detail := o.display_detail ^^^ (0xff ^^^ ONLINE) } w
    else if arg = 'O' then
      zfcp_show_getopt L rest { o with display_detail := o.display_detail ^^^ (0xff ^^^ OFFLINE) } w
    else if arg = 'n' then zfcp_show_getopt L rest { o with ns_only := 1 } w
    else if arg = 'h' then (getopt_end.exit 0, o, print_lines zfcp_show_usage w)
    else
      (getopt_end.goto_end, o,
        print_lines zfcp_show_usage
          (w.printf (Msg.fmt "Unknown parameter \x27-%c\x27\n" [Arg.num arg.toNat])))

/-- The function `main` of zfcp_show.c: the exit status of the process and the
world it leaves; `none` when `do_something` crashes or the fuel of
`show_ns_info` runs out. -/
def zfcp_show_main {σ : Type} (P : Platform σ) (L : Libc) (load : Nat)
    (adapters : List hba_adapter) (opts : List (Char × String)) (fuel : Nat) (w : World σ) :
    Option (Nat × World σ) :=
  if load ≠ HBA_STATUS_OK then some (load, w.printf (Msg.text "Failed to load library.\n"))
  else
    match zfcp_show_getopt L opts ⟨"", 0xff, 0, 0, 0⟩ w with
    | (getopt_end.exit status, _, w1) => some (status, w1)
    | (getopt_end.goto_end, _, w1) => some (load, w1)
    | (getopt_end.done, o, w1) =>
      if o.display_detail &&& CSV ≠ 0 ∧ o.cc > 1 then
        some (load, w1.printf (Msg.text
          "No additional switches allowed in conjunction with CVS (-c) output.\n"))
      else
        match fc_get_hba_handle L adapters o.adapter with
        | none => some (1, w1.printf (Msg.text "No adapter found.\n"))
        | some aa =>
          let w2 :=
            if o.display_detail &&& VERBOSE ≠ 0 then
              w1.printf (Msg.fmt ("Using adapter BUS_ID    0.0.%x\n" ++
                "              Name      0x%016llx\n" ++
                "              N_Port_ID 0x%x\n" ++
                "              OS-Device %s\n" ++
                "              Speed     %s\n")
                [Arg.num aa.bus_id, Arg.num aa.wwpn, Arg.num aa.d_id, Arg.lit aa.dev_name,
                  Arg.tab "speed" aa.speed])
            else w1
          if o.ns_only = 0 then
            match do_something P o.display_detail aa o.value w2 with
            | none => none
            | some (rc, w3) => some (rc, w3)
          else
            match show_ns_info P o.display_detail aa.handle o.value fuel w2 with
            | none => none
            | some w3 => some (load, w3)

/-! ## vlib_events.c: the event queue of an adapter -/

def MAX_SLOTS : Nat := 10

/-- The `HBA_EVENTINFO` of hbaapi.h: the event code and the four 32-bit words of
the union `Event`. -/
structure HBA_EVENTINFO where
  EventCode : Nat
  Event : List Nat
  deriving DecidableEq, Repr

/-- The `struct vlib_event`; `next` is a pointer to another event, which is the
index of its slot in the memory of events, or null. -/
structure vlib_event where
  hbaapi_event : HBA_EVENTINFO
  next : Option Nat
  deriving DecidableEq, Repr

/-- The `struct vlib_event_queue`. -/
structure vlib_event_queue where
  slots_used : Nat
  first : Option Nat
  last : Option Nat
  deriving DecidableEq, Repr

/-- The two queues of a `struct vlib_adapter` together with the memory their
pointers point into: `mem[i]` is the event at address `i`. -/
structure event_store where
  mem : List vlib_event
  event_queue : vlib_event_queue
  free_event_list : vlib_event_queue
  deriving DecidableEq, Repr

/-- A `struct vlib_event` as `calloc` returns it. -/
def vlib_event.zero : vlib_event := ⟨⟨0, [0, 0, 0, 0]⟩, none⟩

/-- The assignment `p->next = v` for a pointer `p` that is not null. -/
def set_next (mem : List vlib_event) (p : Nat) (v : Option Nat) : List vlib_event :=
  match mem.get? p with
  | some ev => mem.set p { ev with next := v }
  | none => mem

/-- The function `popEvent`; the value is the pointer returned (null when the
queue is empty), and `none` stands for the dereference of a wild pointer. -/
def popEvent (a : event_store) : Option (Option Nat × event_store) :=
  match a.event_queue.first with
  | none => some (none, a)
  | some event =>
    match a.mem.get? event with
    | none => none
    | some ev =>
      let q : vlib_event_queue :=
        { a.event_queue with first := ev.next,
                             last := if ev.next = none then none else a.event_queue.last }
      match a.free_event_list.last with
      | some l =>
        some (some event,
          { mem := set_next a.mem l (some event), event_queue := q,
            free_event_list := { a.free_event_list with last := some event } })
      | none =>
        some (some event,
          { mem := set_next a.mem event none, event_queue := q,
            free_event_list := { a.free_event_list with first := some event,
                                                        last := some event } })

/-- The function `appendEvent`; `none` stands for the dereference of a null or
wild pointer. -/
def appendEvent (newEvent : HBA_EVENTINFO) (a : event_store) : Option event_store :=
  let taken : Option (Nat × vlib_event_queue × vlib_event_queue) :=
    match a.free_event_list.first with
    | some event =>
      match a.mem.get? event with
      | none => none
      | some ev =>
        some (event, a.event_queue,
          { a.free_event_list with first := ev.next,
                                   last := if ev.next = none then none
                                     else a.free_event_list.last })
    | none =>
      match a.event_queue.first with
      | none => none
      | some event =>
        match a.mem.get? event with
        | none => none
        | some ev => some (event, { a.event_queue with first := ev.next }, a.free_event_list)
  match taken with
  | none => none
  | some (event, q, fl) =>
    let mem := a.mem.set event ⟨newEvent, none⟩
    match q.last with
    | some l =>
      some { mem := set_next mem l (some event), event_queue := { q with last := some event },
             free_event_list := fl }
    | none =>
      some { mem := mem, event_queue := { q with first := some event, last := some event },
             free_event_list := fl }

/-- The loop `for (i = 0; i < MAX_SLOTS - 1; i++)` of `init_event_queue`, every
`calloc` returning the next fresh address. -/
def init_event_queue_loop : Nat → event_store → event_store
  | 0, a => a
  | n + 1, a =>
    let event := a.mem.length
    let mem := a.mem ++ [vlib_event.zero]
    init_event_queue_loop n
      { a with mem := (match a.free_event_list.last with
                        | some l => set_next mem l (some event)
                        | none => mem),
               free_event_list := { a.free_event_list with last := some event } }

/-- The function `init_event_queue`, every `calloc` succeeding; it does not
assign `event_queue.last`. -/
def init_event_queue (a : event_store) : event_store :=
  let event := a.mem.length
  let a1 : event_store :=
    { mem := a.mem ++ [vlib_event.zero],
      event_queue := { a.event_queue with first := none, slots_used := 0 },
      free_event_list := { a.free_event_list with first := some event, last := some event } }
  let a2 := init_event_queue_loop (MAX_SLOTS - 1) a1
  { a2 with free_event_list := { a2.free_event_list with slots_used := MAX_SLOTS } }

/-- The queues of an adapter that `block_addItem` has just added: the memory of
the block is cleared, so all pointers are null. -/
def event_store.zero : event_store := ⟨[], ⟨0, none, none⟩, ⟨0, none, none⟩⟩

/-- An operation on the event queue: an event arrives, or the application polls
for one. -/
inductive event_op where
  | append (newEvent : HBA_EVENTINFO)
  | pop
  deriving DecidableEq, Repr

/-- Runs a sequence of operations; the value lists what each `popEvent` returned:
the event information at the returned pointer, or `none` for a null pointer. -/
def run_events : List event_op → event_store → Option (List (Option HBA_EVENTINFO) × event_store)
  | [], a => some ([], a)
  | event_op.append e :: ops, a =>
    match appendEvent e a with
    | none => none
    | some a1 => run_events ops a1
  | event_op.pop :: ops, a =>
    match popEvent a with
    | none => none
    | some (p, a1) =>
      match run_events ops a1 with
      | none => none
      | some (out, a2) =>
        some ((match p with
               | none => none
               | some i => (a1.mem.get? i).map (fun ev => ev.hbaapi_event)) :: out, a2)

/-- The events reachable from a pointer by following `next`, at most `fuel` of them. -/
def chain (mem : List vlib_event) : Nat → Option Nat → List Nat
  | 0, _ => []
  | _ + 1, none => []
  | fuel + 1, some i =>
    match mem.get? i with
    | none => [i]
    | some ev => i :: chain mem fuel ev.next

/-- A link event with the given port id. -/
def link_up (id : Nat) : HBA_EVENTINFO := ⟨2, [id, 0, 0, 0]⟩

/-! ## vlib.h, vlib_aux.c: the repository of adapters, ports and units -/

def HBA_STATUS_ERROR_INVALID_HANDLE : Nat := 3
def HBA_STATUS_ERROR_MORE_DATA : Nat := 7
def HBA_STATUS_ERROR_UNAVAILABLE : Nat := 12
def VLIB_INVALID_HANDLE : Nat := 0
def VLIB_GROW_UNITS : Nat := 8
def VLIB_GROW_PORTS : Nat := 4

/-- The `struct block`: a growable array; `data` holds the `allocated` elements
of the array, of which the first `used` are in use. -/
structure block (α : Type) where
  data : List α
  used : Nat
  allocated : Nat
  deriving DecidableEq, Repr

/-- The `struct vlib_unit`. -/
structure vlib_unit where
  isInvalid : Nat
  host : Nat
  channel : Nat
  target : Nat
  lun : Nat
  fcLun : Nat
  sg_dev : String
  deriving DecidableEq, Repr

/-- The `struct vlib_port`. -/
structure vlib_port where
  isInvalid : Nat
  wwpn : Nat
  wwnn : Nat
  did : Nat
  units : block vlib_unit
  name : String
  host : Nat
  channel : Nat
  target : Nat
  deriving DecidableEq, Repr

/-- The `struct vlib_adapter_ident`. -/
structure vlib_adapter_ident where
  devid : Nat
  wwnn : Nat
  wwpn : Nat
  host : Nat
  did : Nat
  bus_dev_name : String
  class_dev_name : String
  sysfsPath : String
  deriving DecidableEq, Repr

/-- The `struct vlib_adapter` without its two event queues, which are modelled
by `event_store`. -/
structure vlib_adapter where
  isInvalid : Nat
  ident : vlib_adapter_ident
  handle : Nat
  ports : block vlib_port
  deriving DecidableEq, Repr

/-- The members of `struct vlib_data` that the repository functions use. -/
structure vlib_data where
  isLoaded : Nat
  isValid : Nat
  adapters : block vlib_adapter
  deriving DecidableEq, Repr

/-- A `struct vlib_port` of cleared memory. -/
def vlib_port.zero : vlib_port := ⟨0, 0, 0, 0, ⟨[], 0, 0⟩, "", 0, 0, 0⟩

/-- A `struct vlib_adapter` of cleared memory. -/
def vlib_adapter.zero : vlib_adapter := ⟨0, ⟨0, 0, 0, 0, 0, "", "", ""⟩, 0, ⟨[], 0, 0⟩⟩

/-- A `struct vlib_unit` of cleared memory. -/
def vlib_unit.zero : vlib_unit := ⟨0, 0, 0, 0, 0, 0, ""⟩

/-- The function `block_assertSize`, `realloc` succeeding; `zero` is an element
of cleared memory. -/
def block_assertSize {α : Type} (zero : α) (b : block α) (num grow : Nat) : Int × block α :=
  if num ≤ b.allocated then (b.allocated, b)
  else
    let needed := num - b.allocated
    let needed := if needed % grow ≠ 0 then needed + (grow - needed % grow) else needed
    (b.allocated + needed,
      { b with data := b.data ++ List.replicate needed zero, allocated := b.allocated + needed })

/-- The function `block_addItem`; the value is the index of the new item in the
array, or `none` for the null pointer. -/
def block_addItem {α : Type} (zero : α) (b : block α) (grow : Nat) : Option Nat × block α :=
  let r := block_assertSize zero b (b.used + 1) grow
  if r.1 < 0 then (none, r.2)
  else (some b.used, { r.2 with used := b.used + 1 })

/-- The function `getPortByIndex`; a pointer to a port is its index. -/
def getPortByIndex (adapter : vlib_adapter) (index : Nat) : Option Nat :=
  if index ≥ adapter.ports.used then none else some index

/-- The function `getUnitByIndex`. -/
def getUnitByIndex (port : vlib_port) (index : Nat) : Option Nat :=
  if index ≥ port.units.used then none else some index

/-- The loop of `getPortFromRepos` from index `i` on, with `n` iterations left. -/
def getPortFromRepos_loop (adapter : vlib_adapter) (sysfs_name : String) : Nat → Nat → Option Nat
  | 0, _ => none
  | n + 1, i =>
    if (adapter.ports.data.getD i vlib_port.zero).name = sysfs_name then some i
    else getPortFromRepos_loop adapter sysfs_name n (i + 1)

/-- The function `getPortFromRepos`. -/
def getPortFromRepos (adapter : vlib_adapter) (sysfs_name : String) : Option Nat :=
  getPortFromRepos_loop adapter sysfs_name adapter.ports.used 0

/-- The function `addPortToRepos(adapter, port)`: the value returned, the adapter
and the port `*port` of the caller afterwards. -/
def addPortToRepos (adapter : vlib_adapter) (port : vlib_port) :
    Int × vlib_adapter × vlib_port :=
  match getPortFromRepos adapter port.name with
  | some _ => (0, adapter, { port with isInvalid := 0 })
  | none =>
    match block_addItem vlib_port.zero adapter.ports VLIB_GROW_PORTS with
    | (none, ports) => (-1, { adapter with ports := ports }, port)
    | (some portLoc, ports) =>
      let old := ports.data.getD portLoc vlib_port.zero
      let item : vlib_port :=
        { old with wwpn := port.wwpn, wwnn := port.wwnn, did := port.did, host := port.host,
                   channel := port.channel, target := port.target, name := port.name }
      (0, { adapter with ports := { ports with data := ports.data.set portLoc item } }, port)

/-- The function `getAdapterByIndex`. -/
def getAdapterByIndex (d : vlib_data) (index : Nat) : Option Nat :=
  if index ≥ d.adapters.used then none else some index

/-- The function `getAdapterByHandle`: the adapter found (its index) and `*status`.
The handle is an `HBA_UINT32`, so `handle - 1` is taken modulo 2^32. -/
def getAdapterByHandle (d : vlib_data) (handle : Nat) : Option Nat × Nat :=
  if VLIB_INVALID_HANDLE = handle then (none, HBA_STATUS_ERROR_INVALID_HANDLE)
  else
    match getAdapterByIndex d ((handle + 2 ^ 32 - 1) % 2 ^ 32) with
    | none => (none, HBA_STATUS_ERROR_INVALID_HANDLE)
    | some i =>
      if (d.adapters.data.getD i vlib_adapter.zero).isInvalid ≠ 0 then
        (none, HBA_STATUS_ERROR_UNAVAILABLE)
      else (some i, HBA_STATUS_OK)

/-! ## vlib_sysfs.h, vlib.c: HBA_GetFcpTargetMapping -/

/-- The functions of vlib_sysfs.c that read the configuration from sysfs, for a
file system that does not change during a call: each gives its return value
and the structure it has filled in. -/
structure Sysfs where
  sysfs_createAndReadConfigAdapter : vlib_data → Nat × vlib_data
  sysfs_createAndReadConfigPorts : vlib_adapter → Int × vlib_adapter
  sysfs_getUnitsFromPort : vlib_port → Int × vlib_port

/-- The inline function `revalidateRepository`. -/
def revalidateRepository (S : Sysfs) (d : vlib_data) : Nat × vlib_data :=
  if d.isLoaded = 0 then (HBA_STATUS_ERROR, d)
  else if d.isValid = 0 then
    if (S.sysfs_createAndReadConfigAdapter d).1 ≠ HBA_STATUS_OK then
      (HBA_STATUS_ERROR, (S.sysfs_createAndReadConfigAdapter d).2)
    else (HBA_STATUS_OK, (S.sysfs_createAndReadConfigAdapter d).2)
  else (HBA_STATUS_OK, d)

/-- The inline function `revalidatePorts`. -/
def revalidatePorts (S : Sysfs) (adapter : vlib_adapter) : Int × vlib_adapter :=
  if adapter.ports.allocated = 0 then S.sysfs_createAndReadConfigPorts adapter
  else (0, adapter)

/-- The inline function `revalidateUnits`. -/
def revalidateUnits (S : Sysfs) (port : vlib_port) : Int × vlib_port :=
  if port.units.allocated = 0 then S.sysfs_getUnitsFromPort port
  else (0, port)

/-- The `HBA_SCSIID` of hbaapi.h. -/
structure HBA_SCSIID where
  OSDeviceName : String
  ScsiBusNumber : Nat
  ScsiTargetNumber : Nat
  ScsiOSLun : Nat
  deriving DecidableEq, Repr

/-- The `HBA_FCPID` of hbaapi.h; a WWN is given by the `uint64_t` that its eight
bytes hold in host byte order. -/
structure HBA_FCPID where
  FcId : Nat
  NodeWWN : Nat
  PortWWN : Nat
  FcpLun : Nat
  deriving DecidableEq, Repr

/-- The `HBA_FCPSCSIENTRY` of hbaapi.h. -/
structure HBA_FCPSCSIENTRY where
  ScsiId : HBA_SCSIID
  FcpId : HBA_FCPID
  deriving DecidableEq, Repr

/-- The `HBA_FCPTARGETMAPPING` of hbaapi.h; `entry` is the array that the caller
has allocated. -/
structure HBA_FCPTARGETMAPPING where
  NumberOfEntries : Nat
  entry : List HBA_FCPSCSIENTRY
  deriving DecidableEq, Repr

/-- The inline function `vlib_FCID_to_hbaFCID` on `uint32_t`. -/
def vlib_FCID_to_hbaFCID (fcid : Nat) : Nat := (fcid <<< 8) % 2 ^ 32

/-- What `%d` prints for a 32-bit argument. -/
def printf_d (v : Nat) : String :=
  if v % 2 ^ 32 < 2 ^ 31 then toString (v % 2 ^ 32) else "-" ++ toString (2 ^ 32 - v % 2 ^ 32)

/-- The entry that `HBA_GetFcpTargetMapping` writes for a unit of a port: every
member is assigned; the device name has at most 56 characters, so `snprintf`
does not cut it. -/
def mapping_entry (adapter : vlib_adapter) (port : vlib_port) (unit : vlib_unit) :
    HBA_FCPSCSIENTRY :=
  ⟨⟨"/dev/bsg/" ++ printf_d adapter.ident.host ++ ":" ++ printf_d unit.channel ++ ":" ++
      printf_d unit.target ++ ":" ++ printf_d unit.lun,
    unit.channel, unit.target, unit.lun⟩,
   ⟨vlib_FCID_to_hbaFCID port.did, port.wwnn, port.wwpn, unit.fcLun⟩⟩

/-- The state of the loops of `HBA_GetFcpTargetMapping`: the caller's array, the
index in it that the pointer `entry` has reached, and the counters `total` and
`free`. -/
structure mapping_state where
  entry : List HBA_FCPSCSIENTRY
  index : Nat
  total : Nat
  free : Nat
  deriving DecidableEq, Repr

/-- The loop `for (j = 0; j < port->units.used; ++j, ++unit)` over the units that
are left. -/
def mapping_unit_loop (adapter : vlib_adapter) (port : vlib_port) :
    List vlib_unit → mapping_state → mapping_state
  | [], s => s
  | unit :: rest, s =>
    if unit.isInvalid ≠ 0 then mapping_unit_loop adapter port rest s
    else
      let total := (s.total + 1) % 2 ^ 32
      if s.free = 0 then mapping_unit_loop adapter port rest { s with total := total }
      else
        mapping_unit_loop adapter port rest
          ⟨s.entry.set s.index (mapping_entry adapter port unit), s.index + 1, total, s.free - 1⟩

/-- The loop `for (i = 0; i < adapter->ports.used; ++i, ++port)` over the ports
that are left: whether it ran to its end (`false` when `revalidateUnits` gave a
negative value), the ports as they are afterwards, and the state. -/
def mapping_port_loop (S : Sysfs) (adapter : vlib_adapter) :
    List vlib_port → mapping_state → Bool × List vlib_port × mapping_state
  | [], s => (true, [], s)
  | port :: rest, s =>
    if port.isInvalid ≠ 0 then
      let r := mapping_port_loop S adapter rest s
      (r.1, port :: r.2.1, r.2.2)
    else
      let ru := revalidateUnits S port
      if ru.1 < 0 then (false, ru.2 :: rest, s)
      else
        let s1 :=
          match getUnitByIndex ru.2 0 with
          | none => s
          | some _ => mapping_unit_loop adapter ru.2 (ru.2.units.data.take ru.2.units.used) s
        let r := mapping_port_loop S adapter rest s1
        (r.1, ru.2 :: r.2.1, r.2.2)

/-- Writes an adapter back to its place in the repository. -/
def vlib_data.set_adapter (d : vlib_data) (i : Nat) (adapter : vlib_adapter) : vlib_data :=
  { d with adapters := { d.adapters with data := d.adapters.data.set i adapter } }

/-- The function `HBA_GetFcpTargetMapping(handle, pMapping)`: the status returned,
`*pMapping` and the repository afterwards. -/
def HBA_GetFcpTargetMapping (S : Sysfs) (handle : Nat) (pMapping : HBA_FCPTARGETMAPPING)
    (d : vlib_data) : Nat × HBA_FCPTARGETMAPPING × vlib_data :=
  let r := revalidateRepository S d
  if HBA_STATUS_OK ≠ r.1 then (r.1, pMapping, r.2)
  else
    match getAdapterByHandle r.2 handle with
    | (none, status) => (status, pMapping, r.2)
    | (some a, _) =>
      let rp := revalidatePorts S (r.2.adapters.data.getD a vlib_adapter.zero)
      if rp.1 < 0 then (HBA_STATUS_ERROR, pMapping, r.2.set_adapter a rp.2)
      else
        match getPortByIndex rp.2 0 with
        | none => (HBA_STATUS_ERROR, pMapping, r.2.set_adapter a rp.2)
        | some _ =>
          let l := mapping_port_loop S rp.2 (rp.2.ports.data.take rp.2.ports.used)
            ⟨pMapping.entry, 0, 0, pMapping.NumberOfEntries⟩
          let adapter : vlib_adapter :=
            { rp.2 with ports := { rp.2.ports with
                data := l.2.1 ++ rp.2.ports.data.drop rp.2.ports.used } }
          if l.1 = false then
            (HBA_STATUS_ERROR, { pMapping with entry := l.2.2.entry }, r.2.set_adapter a adapter)
          else
            (if l.2.2.total > pMapping.NumberOfEntries then HBA_STATUS_ERROR_MORE_DATA
              else HBA_STATUS_OK,
             ⟨l.2.2.total, l.2.2.entry⟩, r.2.set_adapter a adapter)

/-- The mappings of the valid units of the given ports, in port order and then
unit order. -/
def target_mappings (adapter : vlib_adapter) (ports : List vlib_port) : List HBA_FCPSCSIENTRY :=
  ports.flatMap (fun port =>
    ((port.units.data.take port.units.used).filter (fun unit => unit.isInvalid = 0)).map
      (mapping_entry adapter port))

/-- One passage through the body of the unit loop for a valid unit whose entry is `e`. -/
def mapping_step (e : HBA_FCPSCSIENTRY) (s : mapping_state) : mapping_state :=
  if s.free = 0 then { s with total := (s.total + 1) % 2 ^ 32 }
  else ⟨s.entry.set s.index e, s.index + 1, (s.total + 1) % 2 ^ 32, s.free - 1⟩

/-- The passages for a list of entries, one after the other. -/
def mapping_steps : List HBA_FCPSCSIENTRY → mapping_state → mapping_state
  | [], s => s
  | e :: es, s => mapping_steps es (mapping_step e s)

/-- The ports of the list that are valid, each as `revalidateUnits` leaves it. -/
def revalidated_ports (S : Sysfs) (ports : List vlib_port) : List vlib_port :=
  (ports.filter (fun port => port.isInvalid = 0)).map (fun port => (revalidateUnits S port).2)

/-! ## Test doubles of the platform -/

/-- A platform whose pass-through call number `k` (counted from 0 by the state)
answers with entry `k` of a script of (status, bytes written), and with status 1
once the script is used up.  Its clock shows the number of calls made. -/
def scripted (e : Endian) (script : List (Nat × List Nat)) : Platform Nat where
  endian := e
  HBA_SendCTPassThru := fun st _ _ _ =>
    match script.get? st with
    | some a => ⟨a.1, a.2, st + 1⟩
    | none => ⟨1, [], st + 1⟩
  gettimeofday := fun st => (⟨st, 0⟩, st)
  sleep := fun _ st => st

/-- A platform whose pass-through call always gives the same status and bytes. -/
def constant_reply (e : Endian) (status : Nat) (written : List Nat) : Platform Nat where
  endian := e
  HBA_SendCTPassThru := fun st _ _ _ => ⟨status, written, st + 1⟩
  gettimeofday := fun st => (⟨st, 0⟩, st)
  sleep := fun _ st => st

/-- An accept CT_IU (code 0x8002) of 20 bytes with payload `00 00 00 07`,
as a big-endian host reads it. -/
def ACCEPT_IU : List Nat := [1, 0, 0, 0, 0xfa, 1, 0, 0, 0x80, 0x02, 0, 1, 0, 0, 0, 0, 0, 0, 0, 7]

/-- A reject CT_IU (code 0x8001) with reason `rc` and explanation `expl`. -/
def REJECT_IU (rc expl : Nat) : List Nat :=
  [1, 0, 0, 0, 0xfa, 1, 0, 0, 0x80, 0x01, 0, 0, 0, rc, expl, 0]

/-- A CT_IU whose code 0x8003 is neither accept nor reject. -/
def ODD_IU : List Nat := [1, 0, 0, 0, 0xfa, 1, 0, 0, 0x80, 0x03, 0, 0, 0, 0, 0, 0]

/-- A fabric on which one ping token is in use: a ping request addressed by
N_Port id whose token (request bytes 28..31) equals `busy` is rejected with
Logical error / Processing request, every other request is accepted. -/
def token_in_use_fabric (e : Endian) (busy : Nat) : Platform Nat where
  endian := e
  HBA_SendCTPassThru := fun st _ req _ =>
    if load e req 28 4 = busy then ⟨0, REJECT_IU RC_LOGICAL_ERROR RCE_PROCESSING_REQUEST, st + 1⟩
    else ⟨0, ACCEPT_IU, st + 1⟩
  gettimeofday := fun st => (⟨st, 0⟩, st)
  sleep := fun _ st => st

/-- An accept CT_IU whose payload is `00 00 00 03 "IBM" 00 "M1" 00 "R2" 00`: a
length byte 3 that counts the vendor string only. -/
def INFO_IU_VENDOR_LENGTH : List Nat :=
  [1, 0, 0, 0, 0xfa, 1, 0, 0, 0x80, 0x02, 0, 0, 0, 0, 0, 0,
   0, 0, 0, 3, 73, 66, 77, 0, 77, 49, 0, 82, 50, 0]

/-- An accept CT_IU whose payload is `00 00 00 09 "IBM" 00 "M1" 00 "R2"`: a
length byte 9 that counts the three strings and the two NULs between them. -/
def INFO_IU_LIST_LENGTH : List Nat :=
  [1, 0, 0, 0, 0xfa, 1, 0, 0, 0x80, 0x02, 0, 0, 0, 0, 0, 0,
   0, 0, 0, 9, 73, 66, 77, 0, 77, 49, 0, 82, 50, 0]

/-- An accept CT_IU with payload `ff ff ff ff`. -/
def ALL_ONES_IU : List Nat :=
  [1, 0, 0, 0, 0xfa, 1, 0, 0, 0x80, 0x02, 0, 1, 0, 0, 0, 0, 0xff, 0xff, 0xff, 0xff]

/-- An accept CT_IU with payload `00 00 00 00`. -/
def ALL_ZERO_IU : List Nat :=
  [1, 0, 0, 0, 0xfa, 1, 0, 0, 0x80, 0x02, 0, 1, 0, 0, 0, 0, 0, 0, 0, 0]

/-- An accept CT_IU of a name server get-next: port type `ty`, port id `id`
(3 bytes), port name `20 00 00 05 1e 00 00 id`, as a big-endian host reads it. -/
def GA_NXT_IU (ty id : Nat) : List Nat :=
  [1, 0, 0, 0, 0xfc, 2, 0, 0, 0x80, 0x02, 0, 0, 0, 0, 0, 0,
   ty, id / 65536 % 256, id / 256 % 256, id % 256, 0x20, 0, 0, 5, 0x1e, 0, 0, id % 256]

/-- A name server with the ports 100 and 200: get-next after 0 gives 100, after
100 gives 200 and after anything else 100 again (big-endian requests). -/
def name_server : Platform Nat where
  endian := Endian.big
  HBA_SendCTPassThru := fun st _ req _ =>
    if load Endian.big req 16 4 = 0 then ⟨0, GA_NXT_IU 1 100, st + 1⟩
    else if load Endian.big req 16 4 = 100 then ⟨0, GA_NXT_IU 1 200, st + 1⟩
    else ⟨0, GA_NXT_IU 1 100, st + 1⟩
  gettimeofday := fun st => (⟨st, 0⟩, st)
  sleep := fun _ st => st

/-- The answers of a small fabric with one interconnect element that has one
online E_Port with one attached port (big-endian host): by command code, an
accept CT_IU whose payload is the list `00 00 00 01 | 10 00 00 05 1e 00 00 01 00
08 03 84` for the three list queries, domain id 1, port state 1 (online),
physical port number 5 and destination id 0x010203. -/
def fabric_reply (cmd : Nat) : List Nat :=
  [1, 0, 0, 0, 0xfa, 1, 0, 0, 0x80, 0x02, 0, 0, 0, 0, 0, 0] ++
    (if cmd = FCS_RCC_GDID then [0, 1, 0, 0]
    else if cmd = FCS_RCC_GPS then [0, 0, 0, 0, 0, 0, 0, 1]
    else if cmd = FCS_RCC_GPPN then [0, 0, 0, 5]
    else if cmd = NS_RCC_GID_PN then [0, 1, 2, 3]
    else [0, 0, 0, 1, 0x10, 0, 0, 5, 0x1e, 0, 0, 1, 0, 8, 3, 0x84])

/-- The small fabric as a platform; the query with command code `failing` gets no
response (nonzero status), every other query its `fabric_reply`. -/
def fabric (failing : Nat) : Platform Nat where
  endian := Endian.big
  HBA_SendCTPassThru := fun st _ req _ =>
    if load Endian.big req CT_IU_CODE_OFFSET 2 = failing then ⟨1, [], st + 1⟩
    else ⟨0, fabric_reply (load Endian.big req CT_IU_CODE_OFFSET 2), st + 1⟩
  gettimeofday := fun st => (⟨st, 0⟩, st)
  sleep := fun _ st => st

/-! ## Test doubles of the C library and of the HBA library -/

/-- Value of a string of hexadecimal digits, read up to the first other character. -/
def hex_value : List Char → Nat → Nat
  | [], acc => acc
  | c :: cs, acc =>
    if '0' ≤ c ∧ c ≤ '9' then hex_value cs (acc * 16 + (c.toNat - '0'.toNat))
    else if 'a' ≤ c ∧ c ≤ 'f' then hex_value cs (acc * 16 + (c.toNat - 'a'.toNat + 10))
    else acc

/-- Value of a string of decimal digits, read up to the first other character. -/
def dec_value : List Char → Nat → Nat
  | [], acc => acc
  | c :: cs, acc =>
    if '0' ≤ c ∧ c ≤ '9' then dec_value cs (acc * 10 + (c.toNat - '0'.toNat))
    else acc

/-- Value of an unsigned number without sign or white space: hexadecimal after
"0x" or in base 16, decimal otherwise. -/
def plain_value (s : List Char) (base : Nat) : Nat :=
  match s with
  | '0' :: 'x' :: cs => hex_value cs 0
  | cs => if base = 16 then hex_value cs 0 else dec_value cs 0

/-- A C library that reads unsigned numbers without sign or white space. -/
def plain_libc : Libc where
  atoi := fun s => dec_value s.toList 0
  strtoul := fun s base => plain_value s.toList base
  strtoull := fun s base => plain_value s.toList base

/-- An HBA library with one adapter, bus id 0.0.1900. -/
def one_adapter : List hba_adapter :=
  [⟨0, 7, 0, 0x1900, 0x5005076401a0b3c5, 0x010100, 0, "/sys/class/fc_host/host0"⟩]

/-- The small fabric with its port in state `ps`: as `fabric`, but the port state
query is answered with `ps`. -/
def fabric_in_state (ps : Nat) : Platform Nat where
  endian := Endian.big
  HBA_SendCTPassThru := fun st _ req _ =>
    if load Endian.big req CT_IU_CODE_OFFSET 2 = FCS_RCC_GPS then
      ⟨0, [1, 0, 0, 0, 0xfa, 1, 0, 0, 0x80, 0x02, 0, 0, 0, 0, 0, 0, 0, 0, 0, 0, 0, 0, 0, ps], st + 1⟩
    else ⟨0, fabric_reply (load Endian.big req CT_IU_CODE_OFFSET 2), st + 1⟩
  gettimeofday := fun st => (⟨st, 0⟩, st)
  sleep := fun _ st => st

/-! ## Test doubles of the repository -/

/-- A sysfs in which nothing new is found: every function reports success and
leaves the structure as it is. -/
def quiet_sysfs : Sysfs := ⟨fun d => (0, d), fun adapter => (0, adapter), fun port => (0, port)⟩

/-- A unit with SCSI address 0:0:1:`lun`. -/
def sample_unit (isInvalid lun : Nat) : vlib_unit :=
  ⟨isInvalid, 0, 0, 1, lun, 0x4010400000000000 + lun, "sg0"⟩

/-- A port "rport-0:0-1" with the units of LUN 5, 6 and 7, the second of them invalid. -/
def sample_port (isInvalid : Nat) : vlib_port :=
  ⟨isInvalid, 0x500507630300c562, 0x5005076303ffc562, 0x010203,
    ⟨[sample_unit 0 5, sample_unit 1 6, sample_unit 0 7, vlib_unit.zero, vlib_unit.zero,
      vlib_unit.zero, vlib_unit.zero, vlib_unit.zero], 3, 8⟩,
    "rport-0:0-1", 0, 0, 1⟩

/-- An open adapter (handle 1) with the given ports in a block of four. -/
def sample_adapter (ports : List vlib_port) : vlib_adapter :=
  ⟨0, ⟨0, 0x5005076401a0b3c5, 0x5005076401e0b3c5, 0, 0x010100, "0.0.5923", "host0",
      "/sys/devices/css0/0.0.0010/0.0.5923"⟩, 1,
    ⟨ports ++ List.replicate (4 - ports.length) vlib_port.zero, ports.length, 4⟩⟩

/-- A loaded, valid repository with one adapter. -/
def sample_repository (adapter : vlib_adapter) : vlib_data :=
  ⟨1, 1, ⟨[adapter, vlib_adapter.zero], 1, 2⟩⟩

/-- An entry of the caller's array before the call. -/
def blank_entry : HBA_FCPSCSIENTRY := ⟨⟨"", 0, 0, 0⟩, ⟨0, 0, 0, 0⟩⟩

/-- The operations append 1, append 2, pop, append 3, ..., append 12, pop, pop. -/
def overrun_ops : List event_op :=
  [event_op.append (link_up 1), event_op.append (link_up 2), event_op.pop] ++
    (List.range 10).map (fun i => event_op.append (link_up (3 + i))) ++
    [event_op.pop, event_op.pop]

/-! # Theorems -/

/-! ## Buffers -/

theorem poke_length (bs : List Nat) :
    ∀ (buf : List Nat) (off : Nat), (poke buf off bs).length = buf.length := by
  induction bs with
  | nil => intro buf off; rfl
  | cons b bs ih => intro buf off; simp [poke, ih]

theorem poke_cons_succ (bs : List Nat) : ∀ (a : Nat) (l : List Nat) (off : Nat),
    poke (a :: l) (off + 1) bs = a :: poke l off bs := by
  induction bs with
  | nil => intro a l off; rfl
  | cons b bs ih => intro a l off; simp [poke, ih]

theorem poke_cons_zero (a b : Nat) (l bs : List Nat) :
    poke (a :: l) 0 (b :: bs) = b :: poke l 0 bs := by
  simp [poke, poke_cons_succ]

theorem poke_zero_all (bs : List Nat) : ∀ (l : List Nat), l.length = bs.length →
    poke l 0 bs = bs := by
  induction bs with
  | nil => intro l h; simp at h; simp [h, poke]
  | cons b bs ih =>
    intro l h
    cases l with
    | nil => simp at h
    | cons a l => rw [poke_cons_zero, ih l (by simpa using h)]

theorem load_two (e : Endian) (buf : List Nat) (off : Nat) :
    load e buf off 2 =
      match e with
      | Endian.big => peek buf off * 256 + peek buf (off + 1)
      | Endian.little => peek buf (off + 1) * 256 + peek buf off := by
  cases e <;> simp [load, field_bytes, be_value, List.range_succ]

theorem host_bytes_two (e : Endian) (v : Nat) :
    host_bytes e 2 v =
      match e with
      | Endian.big => [v / 256 % 256, v % 256]
      | Endian.little => [v % 256, v / 256 % 256] := by
  cases e <;> simp [host_bytes, be_bytes]

/-! ## The request of send_ct_pt -/

/-- The request of `send_ct_pt`, field by field. -/
theorem send_ct_pt_req_eq (e : Endian) (req_s resp_s cmd : Nat) (c_param : List Nat)
    (gs_subtype gs_type : Nat) (hreq : 16 ≤ req_s) (hreq32 : req_s < 2 ^ 32)
    (hlen : req_s - 16 ≤ c_param.length) :
    send_ct_pt_req e req_s resp_s cmd c_param gs_subtype gs_type =
      [3, 0, 0, 0, gs_type % 256, gs_subtype % 256, 0, 0]
        ++ host_bytes e 2 (cmd % 65536)
        ++ host_bytes e 2 ((resp_s + 2 ^ 64 - 16) % 2 ^ 64 / 4 % 65536)
        ++ [0, 0, 0, 0] ++ c_param.take (req_s - 16) := by
  have hn : (req_s + 2 ^ 64 - 16) % 2 ^ 64 = req_s - 16 := by omega
  obtain ⟨m, rfl⟩ : ∃ m, req_s = 16 + m := ⟨req_s - 16, by omega⟩
  have hm : 16 + m - 16 = m := by omega
  rw [hm] at hlen
  have hr : List.replicate (16 + m) 0 =
      [0, 0, 0, 0, 0, 0, 0, 0, 0, 0, 0, 0, 0, 0, 0, 0] ++ List.replicate m 0 := by
    rw [List.replicate_add]; rfl
  have hp : poke (List.replicate m 0) 0 (c_param.take m) = c_param.take m :=
    poke_zero_all _ _ (by simp [hlen])
  simp only [send_ct_pt_req, memcpy, store, CT_IU_PREAMBLE_SIZE, hn, hm, hr,
    host_bytes_two]
  cases e <;> simp [poke, poke_cons_succ, hp]

/-- C1. For every command code, service type and subtype (in the range of their
C types), every request size `req_s >= 16` and every payload of `req_s - 16`
bytes, the request that `send_ct_pt` builds has `req_s` bytes, byte 0 = 3,
byte 4 = gs_type, byte 5 = gs_subtype, the 16-bit field at offset 8 = cmd, every
other preamble byte outside the size field (10..11) = 0, and bytes 16.. equal to
the payload; reading back the command field and the bytes after the preamble
gives `(cmd, payload)`. -/
theorem send_ct_pt_request_layout (e : Endian) (req_s resp_s cmd : Nat) (c_param : List Nat)
    (gs_subtype gs_type : Nat) (hreq : 16 ≤ req_s) (hreq32 : req_s < 2 ^ 32)
    (hcmd : cmd < 65536) (hsub : gs_subtype < 256) (hty : gs_type < 256)
    (hlen : c_param.length = req_s - 16) :
    (send_ct_pt_req e req_s resp_s cmd c_param gs_subtype gs_type).length = req_s ∧
    peek (send_ct_pt_req e req_s resp_s cmd c_param gs_subtype gs_type) 0 = 3 ∧
    peek (send_ct_pt_req e req_s resp_s cmd c_param gs_subtype gs_type) 4 = gs_type ∧
    peek (send_ct_pt_req e req_s resp_s cmd c_param gs_subtype gs_type) 5 = gs_subtype ∧
    load e (send_ct_pt_req e req_s resp_s cmd c_param gs_subtype gs_type)
      CT_IU_CODE_OFFSET 2 = cmd ∧
    (∀ i, i < CT_IU_PREAMBLE_SIZE → i ∉ [0, 4, 5, 8, 9, 10, 11] →
      peek (send_ct_pt_req e req_s resp_s cmd c_param gs_subtype gs_type) i = 0) ∧
    (∀ j, j < req_s - CT_IU_PREAMBLE_SIZE →
      peek (send_ct_pt_req e req_s resp_s cmd c_param gs_subtype gs_type)
        (CT_IU_PREAMBLE_SIZE + j) = peek c_param j) ∧
    (load e (send_ct_pt_req e req_s resp_s cmd c_param gs_subtype gs_type) CT_IU_CODE_OFFSET 2,
      (send_ct_pt_req e req_s resp_s cmd c_param gs_subtype gs_type).drop CT_IU_PREAMBLE_SIZE)
      = (cmd, c_param) := by
  have htake : c_param.take (req_s - 16) = c_param := List.take_of_length_le (by omega)
  have hle : req_s - 16 ≤ c_param.length := by omega
  have hcode : ∀ rest : List Nat,
      load e ([3, 0, 0, 0, gs_type % 256, gs_subtype % 256, 0, 0]
        ++ host_bytes e 2 (cmd % 65536) ++ rest) CT_IU_CODE_OFFSET 2 = cmd := by
    intro rest
    rw [load_two, host_bytes_two]
    cases e <;> simp [peek, CT_IU_CODE_OFFSET] <;> omega
  have hcode2 : load e (send_ct_pt_req e req_s resp_s cmd c_param gs_subtype gs_type)
      CT_IU_CODE_OFFSET 2 = cmd := by
    rw [send_ct_pt_req_eq e req_s resp_s cmd c_param gs_subtype gs_type hreq hreq32 hle, htake]
    simp only [List.append_assoc]
    simpa only [List.append_assoc] using hcode _
  have hdrop : (send_ct_pt_req e req_s resp_s cmd c_param gs_subtype gs_type).drop
      CT_IU_PREAMBLE_SIZE = c_param := by
    rw [send_ct_pt_req_eq e req_s resp_s cmd c_param gs_subtype gs_type hreq hreq32 hle, htake,
      host_bytes_two, host_bytes_two]
    cases e <;> simp [CT_IU_PREAMBLE_SIZE]
  refine ⟨?_, ?_, ?_, ?_, hcode2, ?_, ?_, ?_⟩
  · simp [send_ct_pt_req, memcpy, store, poke_length]
  · rw [send_ct_pt_req_eq e req_s resp_s cmd c_param gs_subtype gs_type hreq hreq32 hle, htake]
    simp [peek]
  · rw [send_ct_pt_req_eq e req_s resp_s cmd c_param gs_subtype gs_type hreq hreq32 hle, htake]
    simp [peek, Nat.mod_eq_of_lt hty]
  · rw [send_ct_pt_req_eq e req_s resp_s cmd c_param gs_subtype gs_type hreq hreq32 hle, htake]
    simp [peek, Nat.mod_eq_of_lt hsub]
  · intro i hi hni
    rw [send_ct_pt_req_eq e req_s resp_s cmd c_param gs_subtype gs_type hreq hreq32 hle, htake,
      host_bytes_two, host_bytes_two]
    simp only [CT_IU_PREAMBLE_SIZE] at hi
    interval_cases i <;> first | (exfalso; revert hni; decide) | (cases e <;> simp [peek])
  · intro j hj
    have h := congrArg (fun l => peek l j) hdrop
    simp only [peek, List.getD_eq_getElem?_getD, List.getElem?_drop] at h ⊢
    exact h
  · rw [hcode2, hdrop]

/-- C1, at a Get Port List request. -/
theorem send_ct_pt_request_layout_witness :
    (load Endian.big
        (send_ct_pt_req Endian.big 24 6020 0x0118 [16, 0, 0, 5, 30, 1, 2, 3] 0x01 0xfa)
        CT_IU_CODE_OFFSET 2,
      (send_ct_pt_req Endian.big 24 6020 0x0118 [16, 0, 0, 5, 30, 1, 2, 3] 0x01 0xfa).drop
        CT_IU_PREAMBLE_SIZE) = (0x0118, [16, 0, 0, 5, 30, 1, 2, 3]) :=
  (send_ct_pt_request_layout Endian.big 24 6020 0x0118 [16, 0, 0, 5, 30, 1, 2, 3] 0x01 0xfa
    (by decide) (by decide) (by decide) (by decide) (by decide) (by decide)).2.2.2.2.2.2.2

/-- C2 as stated fails: with a response capacity of 17 bytes the size field is 0,
and with a capacity of 16 + 4 * 65536 bytes it is 0 again (the field has 16 bits). -/
theorem send_ct_pt_size_counterexample :
    load Endian.big (send_ct_pt_req Endian.big 16 17 0x0101 [] 0x01 0xfa) 10 2 * 4 ≠ 17 - 16 ∧
    load Endian.big (send_ct_pt_req Endian.big 16 262160 0x0101 [] 0x01 0xfa) 10 2 * 4
      ≠ 262160 - 16 := by
  decide

/-- C2, amended. For every request of `send_ct_pt` with a response capacity
`resp_s >= 16`, the 16-bit size field of the preamble is
`((resp_s - 16) / 4) mod 2^16`; `size * 4 = resp_s - 16` holds exactly when
`resp_s - 16` is a multiple of 4 below `2^18`. -/
theorem send_ct_pt_size_field (e : Endian) (req_s resp_s cmd : Nat) (c_param : List Nat)
    (gs_subtype gs_type : Nat) (hreq : 16 ≤ req_s) (hreq32 : req_s < 2 ^ 32)
    (hlen : req_s - 16 ≤ c_param.length) (hresp : 16 ≤ resp_s) (hresp32 : resp_s < 2 ^ 32) :
    load e (send_ct_pt_req e req_s resp_s cmd c_param gs_subtype gs_type) 10 2
      = (resp_s - CT_IU_PREAMBLE_SIZE) / 4 % 65536 ∧
    (load e (send_ct_pt_req e req_s resp_s cmd c_param gs_subtype gs_type) 10 2 * 4
        = resp_s - CT_IU_PREAMBLE_SIZE ↔
      (resp_s - CT_IU_PREAMBLE_SIZE) % 4 = 0 ∧ resp_s - CT_IU_PREAMBLE_SIZE < 2 ^ 18) := by
  have hn : (resp_s + 2 ^ 64 - 16) % 2 ^ 64 = resp_s - 16 := by omega
  have hsize : load e (send_ct_pt_req e req_s resp_s cmd c_param gs_subtype gs_type) 10 2
      = (resp_s - 16) / 4 % 65536 := by
    rw [send_ct_pt_req_eq e req_s resp_s cmd c_param gs_subtype gs_type hreq hreq32 hlen, hn,
      load_two, host_bytes_two, host_bytes_two]
    cases e <;> simp [peek] <;> omega
  refine ⟨by simpa [CT_IU_PREAMBLE_SIZE] using hsize, ?_⟩
  rw [hsize]
  simp only [CT_IU_PREAMBLE_SIZE]
  constructor
  · intro h; omega
  · intro h; omega

/-- C2, amended, at the capacity that `get_ice_list` asks for. -/
theorem send_ct_pt_size_field_witness :
    load Endian.big (send_ct_pt_req Endian.big 16 1220 0x0101 [] 0x01 0xfa) 10 2 * 4
      = 1220 - CT_IU_PREAMBLE_SIZE :=
  (send_ct_pt_size_field Endian.big 16 1220 0x0101 [] 0x01 0xfa (by decide) (by decide)
    (by decide) (by decide) (by decide)).2.mpr (by decide)

/-! ## send_ct_pt and send_ct -/

theorem calls_append (a b : List Event) : calls (a ++ b) = calls a + calls b := by
  simp [calls, List.countP_append]

theorem sleeps_append (a b : List Event) : sleeps (a ++ b) = sleeps a + sleeps b := by
  simp [sleeps, List.countP_append]

theorem warnings_append (a b : List Event) : warnings (a ++ b) = warnings a + warnings b := by
  simp [warnings, List.count_append]

/-- The trace after one call of `send_ct_pt`. -/
theorem send_ct_pt_trace_eq {σ : Type} (P : Platform σ) (display_detail : Nat)
    (handle req_s resp_s cmd : Nat) (c_param : List Nat) (gs_subtype gs_type : Nat)
    (w : World σ) :
    (send_ct_pt P display_detail handle req_s resp_s cmd c_param gs_subtype gs_type w).2.trace
      = w.trace ++ Event.ct_pass_thru handle
          (send_ct_pt_req P.endian req_s resp_s cmd c_param gs_subtype gs_type) resp_s ::
        (if display_detail &&& DEBUG ≠ 0 then
          [Event.print (Msg.request_dump cmd
              (send_ct_pt_req P.endian req_s resp_s cmd c_param gs_subtype gs_type)),
            Event.print (Msg.response_dump
              (P.HBA_SendCTPassThru w.st handle
                (send_ct_pt_req P.endian req_s resp_s cmd c_param gs_subtype gs_type) resp_s).status
              (poke (List.replicate resp_s 0) 0 (P.HBA_SendCTPassThru w.st handle
                (send_ct_pt_req P.endian req_s resp_s cmd c_param gs_subtype gs_type)
                  resp_s).written))]
        else []) := by
  unfold send_ct_pt
  split_ifs <;> simp [World.printf]

/-- One call of `send_ct_pt` adds to the trace one pass-through call, no sleep
and no warning. -/
theorem send_ct_pt_trace {σ : Type} (P : Platform σ) (display_detail : Nat)
    (handle req_s resp_s cmd : Nat) (c_param : List Nat) (gs_subtype gs_type : Nat)
    (w : World σ) :
    ∃ evs, (send_ct_pt P display_detail handle req_s resp_s cmd c_param gs_subtype gs_type
        w).2.trace = w.trace ++ evs ∧ calls evs = 1 ∧ sleeps evs = 0 ∧ warnings evs = 0 := by
  refine ⟨_, send_ct_pt_trace_eq P display_detail handle req_s resp_s cmd c_param gs_subtype
    gs_type w, ?_, ?_, ?_⟩
  · split_ifs <;> simp [calls]
  · split_ifs <;> simp [sleeps]
  · split_ifs <;> simp [warnings]

theorem send_ct_pt_calls {σ : Type} (P : Platform σ) (display_detail : Nat)
    (handle req_s resp_s cmd : Nat) (c_param : List Nat) (gs_subtype gs_type : Nat)
    (w : World σ) :
    calls (send_ct_pt P display_detail handle req_s resp_s cmd c_param gs_subtype gs_type
      w).2.trace = calls w.trace + 1 := by
  obtain ⟨evs, h, hc, _, _⟩ :=
    send_ct_pt_trace P display_detail handle req_s resp_s cmd c_param gs_subtype gs_type w
  rw [h, calls_append, hc]

theorem calls_sleep {σ : Type} (P : Platform σ) (n : Nat) (w : World σ) :
    calls (w.sleep P n).trace = calls w.trace := by
  simp [World.sleep, calls_append, calls]

theorem calls_print_error_statement {σ : Type} (w : World σ) :
    calls (print_error_statement w).trace = calls w.trace := by
  simp [print_error_statement, World.printf, calls_append, calls]

/-- The loop of `send_ct` makes at most as many calls as it has iterations left. -/
theorem send_ct_loop_calls_le {σ : Type} (P : Platform σ) (display_detail : Nat)
    (handle req_s resp_s cmd : Nat) (c_param : List Nat) (gs_subtype gs_type : Nat) :
    ∀ (retries : Nat) (w : World σ),
      calls (send_ct_loop P display_detail handle req_s resp_s cmd c_param gs_subtype gs_type
        retries w).2.trace ≤ calls w.trace + retries := by
  intro retries
  induction retries with
  | zero => intro w; simp [send_ct_loop]
  | succ r ih =>
    intro w
    have hc := send_ct_pt_calls P display_detail handle req_s resp_s cmd c_param gs_subtype
      gs_type w
    unfold send_ct_loop
    rcases h : send_ct_pt P display_detail handle req_s resp_s cmd c_param gs_subtype gs_type w
      with ⟨_ | resp, w1⟩
    · rw [h] at hc
      simp only at hc ⊢
      have := ih (w1.sleep P 1)
      rw [calls_sleep] at this
      omega
    · rw [h] at hc
      simp only at hc ⊢
      split_ifs
      · simp only; omega
      · have := ih w1; omega
      · have := ih (print_error_statement w1)
        rw [calls_print_error_statement] at this
        omega
      · have := ih (w1.sleep P 1)
        rw [calls_sleep] at this
        omega

/-- One iteration of the loop of `send_ct` on which `send_ct_pt` gives no response. -/
theorem send_ct_loop_fail {σ : Type} (P : Platform σ) (display_detail : Nat)
    (handle req_s resp_s cmd : Nat) (c_param : List Nat) (gs_subtype gs_type : Nat)
    (retries : Nat) (w w1 : World σ)
    (h : send_ct_pt P display_detail handle req_s resp_s cmd c_param gs_subtype gs_type w
      = (none, w1)) :
    send_ct_loop P display_detail handle req_s resp_s cmd c_param gs_subtype gs_type
        (retries + 1) w
      = send_ct_loop P display_detail handle req_s resp_s cmd c_param gs_subtype gs_type
        retries (w1.sleep P 1) := by
  rw [send_ct_loop, h]

/-- One iteration of the loop of `send_ct` on which the response is an accept. -/
theorem send_ct_loop_accept {σ : Type} (P : Platform σ) (display_detail : Nat)
    (handle req_s resp_s cmd : Nat) (c_param : List Nat) (gs_subtype gs_type : Nat)
    (retries : Nat) (w w1 : World σ) (resp : List Nat)
    (h : send_ct_pt P display_detail handle req_s resp_s cmd c_param gs_subtype gs_type w
      = (some resp, w1))
    (hcode : load P.endian resp CT_IU_CODE_OFFSET 2 = GS_ACCEPT_RESPONSE_CT_IU) :
    send_ct_loop P display_detail handle req_s resp_s cmd c_param gs_subtype gs_type
        (retries + 1) w = (some resp, w1) := by
  rw [send_ct_loop, h]
  simp [hcode]

/-- One iteration of the loop of `send_ct` on which the response is a reject. -/
theorem send_ct_loop_reject {σ : Type} (P : Platform σ) (display_detail : Nat)
    (handle req_s resp_s cmd : Nat) (c_param : List Nat) (gs_subtype gs_type : Nat)
    (retries : Nat) (w w1 : World σ) (resp : List Nat)
    (h : send_ct_pt P display_detail handle req_s resp_s cmd c_param gs_subtype gs_type w
      = (some resp, w1))
    (hcode : load P.endian resp CT_IU_CODE_OFFSET 2 = GS_REJECT_RESPONSE_CT_IU) :
    send_ct_loop P display_detail handle req_s resp_s cmd c_param gs_subtype gs_type
        (retries + 1) w
      = send_ct_loop P display_detail handle req_s resp_s cmd c_param gs_subtype gs_type
        retries w1 := by
  rw [send_ct_loop, h]
  simp [hcode, GS_REJECT_RESPONSE_CT_IU, GS_ACCEPT_RESPONSE_CT_IU]

/-- One iteration of the loop of `send_ct` on which the response is neither. -/
theorem send_ct_loop_other {σ : Type} (P : Platform σ) (display_detail : Nat)
    (handle req_s resp_s cmd : Nat) (c_param : List Nat) (gs_subtype gs_type : Nat)
    (retries : Nat) (w w1 : World σ) (resp : List Nat)
    (h : send_ct_pt P display_detail handle req_s resp_s cmd c_param gs_subtype gs_type w
      = (some resp, w1))
    (ha : load P.endian resp CT_IU_CODE_OFFSET 2 ≠ GS_ACCEPT_RESPONSE_CT_IU)
    (hr : load P.endian resp CT_IU_CODE_OFFSET 2 ≠ GS_REJECT_RESPONSE_CT_IU) :
    send_ct_loop P display_detail handle req_s resp_s cmd c_param gs_subtype gs_type
        (retries + 1) w
      = send_ct_loop P display_detail handle req_s resp_s cmd c_param gs_subtype gs_type
        retries (if retries = 0 then print_error_statement w1 else w1.sleep P 1) := by
  rw [send_ct_loop, h]
  simp [ha, hr]


theorem send_ct_loop_all_fail {σ : Type} (P : Platform σ) (display_detail : Nat)
    (handle req_s resp_s cmd : Nat) (c_param : List Nat) (gs_subtype gs_type : Nat)
    (h : ∀ v : World σ, (send_ct_pt P display_detail handle req_s resp_s cmd c_param gs_subtype
      gs_type v).1 = none) :
    ∀ (retries : Nat) (w : World σ),
      (send_ct_loop P display_detail handle req_s resp_s cmd c_param gs_subtype gs_type
        retries w).1 = none ∧
      calls (send_ct_loop P display_detail handle req_s resp_s cmd c_param gs_subtype gs_type
        retries w).2.trace = calls w.trace + retries := by
  intro retries
  induction retries with
  | zero => intro w; simp [send_ct_loop]
  | succ r ih =>
    intro w
    have hc := send_ct_pt_calls P display_detail handle req_s resp_s cmd c_param gs_subtype
      gs_type w
    have hn := h w
    unfold send_ct_loop
    rcases hpt : send_ct_pt P display_detail handle req_s resp_s cmd c_param gs_subtype
      gs_type w with ⟨_ | resp, w1⟩
    · rw [hpt] at hc
      simp only at hc ⊢
      have := ih (w1.sleep P 1)
      rw [calls_sleep] at this
      exact ⟨this.1, by omega⟩
    · rw [hpt] at hn
      simp at hn

/-- C3. `send_ct` makes at most 3 transport calls whatever the transport does
(and, being a total function, always returns); if `send_ct_pt` reports no
response on every call, it makes exactly 3 calls and returns no data. -/
theorem send_ct_retry_bound {σ : Type} (P : Platform σ) (display_detail : Nat)
    (handle req_s resp_s cmd : Nat) (c_param : List Nat) (gs_subtype gs_type : Nat)
    (w : World σ) :
    calls (send_ct P display_detail handle req_s resp_s cmd c_param gs_subtype gs_type
      w).2.trace ≤ calls w.trace + 3 ∧
    ((∀ v : World σ, (send_ct_pt P display_detail handle req_s resp_s cmd c_param gs_subtype
        gs_type v).1 = none) →
      (send_ct P display_detail handle req_s resp_s cmd c_param gs_subtype gs_type w).1 = none ∧
      calls (send_ct P display_detail handle req_s resp_s cmd c_param gs_subtype gs_type
        w).2.trace = calls w.trace + 3) :=
  ⟨send_ct_loop_calls_le P display_detail handle req_s resp_s cmd c_param gs_subtype gs_type 3 w,
    fun h => send_ct_loop_all_fail P display_detail handle req_s resp_s cmd c_param gs_subtype
      gs_type h 3 w⟩

/-- C3, at a transport that fails every call. -/
theorem send_ct_retry_bound_witness :
    (send_ct (constant_reply Endian.big 1 []) 0 7 16 1220 FCS_RCC_GIEL [] 0x01 0xfa
      ⟨0, []⟩).1 = none ∧
    calls (send_ct (constant_reply Endian.big 1 []) 0 7 16 1220 FCS_RCC_GIEL [] 0x01 0xfa
      ⟨0, []⟩).2.trace = calls [] + 3 :=
  (send_ct_retry_bound (constant_reply Endian.big 1 []) 0 7 16 1220 FCS_RCC_GIEL [] 0x01 0xfa
    ⟨0, []⟩).2 (fun _ => rfl)

theorem calls_after_failures {σ : Type} (P : Platform σ) (display_detail : Nat)
    (handle req_s resp_s cmd : Nat) (c_param : List Nat) (gs_subtype gs_type : Nat) :
    ∀ (k : Nat) (w : World σ),
      calls (after_failures P display_detail handle req_s resp_s cmd c_param gs_subtype gs_type
        k w).trace = calls w.trace + k := by
  intro k
  induction k with
  | zero => intro w; rfl
  | succ k ih =>
    intro w
    unfold after_failures
    rw [ih, calls_sleep, send_ct_pt_calls]
    omega

theorem send_ct_loop_skip_failures {σ : Type} (P : Platform σ) (display_detail : Nat)
    (handle req_s resp_s cmd : Nat) (c_param : List Nat) (gs_subtype gs_type : Nat) :
    ∀ (k r : Nat) (w : World σ),
      all_fail P display_detail handle req_s resp_s cmd c_param gs_subtype gs_type k w = true →
      send_ct_loop P display_detail handle req_s resp_s cmd c_param gs_subtype gs_type (k + r) w
        = send_ct_loop P display_detail handle req_s resp_s cmd c_param gs_subtype gs_type r
          (after_failures P display_detail handle req_s resp_s cmd c_param gs_subtype gs_type
            k w) := by
  intro k
  induction k with
  | zero => intro r w _; simp [after_failures]
  | succ k ih =>
    intro r w h
    unfold all_fail at h
    rw [Bool.and_eq_true] at h
    have hk : k + 1 + r = (k + r) + 1 := by omega
    rw [hk]
    rcases hpt : send_ct_pt P display_detail handle req_s resp_s cmd c_param gs_subtype
      gs_type w with ⟨_ | resp, w1⟩
    · rw [hpt] at h
      rw [send_ct_loop_fail P display_detail handle req_s resp_s cmd c_param gs_subtype gs_type
        _ w w1 hpt, after_failures, hpt]
      exact ih r _ h.2
    · rw [hpt] at h
      simp at h

/-- C4. If attempt `k` (1 <= k <= 3) is the first on which `send_ct_pt` delivers a
response, the `k - 1` attempts before it having been transport failures, and
that response has code 0x8002, then `send_ct` returns exactly that response (in
the world right after that call) and has made exactly `k` transport calls. -/
theorem send_ct_accept_on_attempt {σ : Type} (P : Platform σ) (display_detail : Nat)
    (handle req_s resp_s cmd : Nat) (c_param : List Nat) (gs_subtype gs_type : Nat)
    (k : Nat) (w : World σ) (resp : List Nat) (w1 : World σ) (hk1 : 1 ≤ k) (hk3 : k ≤ 3)
    (hfail : all_fail P display_detail handle req_s resp_s cmd c_param gs_subtype gs_type
      (k - 1) w = true)
    (hresp : send_ct_pt P display_detail handle req_s resp_s cmd c_param gs_subtype gs_type
      (after_failures P display_detail handle req_s resp_s cmd c_param gs_subtype gs_type
        (k - 1) w) = (some resp, w1))
    (hacc : load P.endian resp CT_IU_CODE_OFFSET 2 = GS_ACCEPT_RESPONSE_CT_IU) :
    send_ct P display_detail handle req_s resp_s cmd c_param gs_subtype gs_type w
      = (some resp, w1) ∧
    calls w1.trace = calls w.trace + k := by
  have h3 : 3 = (k - 1) + ((3 - k) + 1) := by omega
  constructor
  · unfold send_ct
    rw [h3, send_ct_loop_skip_failures P display_detail handle req_s resp_s cmd c_param
      gs_subtype gs_type (k - 1) _ w hfail]
    exact send_ct_loop_accept P display_detail handle req_s resp_s cmd c_param gs_subtype
      gs_type _ _ w1 resp hresp hacc
  · have hc := send_ct_pt_calls P display_detail handle req_s resp_s cmd c_param gs_subtype
      gs_type (after_failures P display_detail handle req_s resp_s cmd c_param gs_subtype
        gs_type (k - 1) w)
    rw [hresp, calls_after_failures] at hc
    simp only at hc
    omega

/-- C4, at a transport that fails once and then accepts: the response comes
back from attempt 2. -/
theorem send_ct_accept_on_attempt_witness :
    send_ct (scripted Endian.big [(1, []), (0, ACCEPT_IU)]) 0 7 24 20 0x0122
        [0, 0, 0, 0, 0, 0, 0, 9] 0x01 0xfa ⟨0, []⟩
      = (some ACCEPT_IU,
          ⟨2, [Event.ct_pass_thru 7 (send_ct_pt_req Endian.big 24 20 0x0122
                [0, 0, 0, 0, 0, 0, 0, 9] 0x01 0xfa) 20,
              Event.sleep 1,
              Event.ct_pass_thru 7 (send_ct_pt_req Endian.big 24 20 0x0122
                [0, 0, 0, 0, 0, 0, 0, 9] 0x01 0xfa) 20]⟩) ∧
    calls [Event.ct_pass_thru 7 (send_ct_pt_req Endian.big 24 20 0x0122
                [0, 0, 0, 0, 0, 0, 0, 9] 0x01 0xfa) 20,
              Event.sleep 1,
              Event.ct_pass_thru 7 (send_ct_pt_req Endian.big 24 20 0x0122
                [0, 0, 0, 0, 0, 0, 0, 9] 0x01 0xfa) 20] = calls [] + 2 :=
  send_ct_accept_on_attempt (scripted Endian.big [(1, []), (0, ACCEPT_IU)]) 0 7 24 20 0x0122
    [0, 0, 0, 0, 0, 0, 0, 9] 0x01 0xfa 2 ⟨0, []⟩ ACCEPT_IU _ (by decide) (by decide)
    rfl rfl rfl

/-- C5 as stated fails: the first call returns a reject (code 0x8001), and
`send_ct` goes on to a second call and returns the data of its accept. -/
theorem send_ct_reject_counterexample :
    (send_ct_pt (scripted Endian.big [(0, REJECT_IU 9 0x16), (0, ACCEPT_IU)]) 0 7 24 20 0x0122
        [0, 0, 0, 0, 0, 0, 0, 9] 0x01 0xfa ⟨0, []⟩).1.map
      (fun resp => load Endian.big resp CT_IU_CODE_OFFSET 2) = some GS_REJECT_RESPONSE_CT_IU ∧
    (send_ct (scripted Endian.big [(0, REJECT_IU 9 0x16), (0, ACCEPT_IU)]) 0 7 24 20 0x0122
        [0, 0, 0, 0, 0, 0, 0, 9] 0x01 0xfa ⟨0, []⟩).1 = some ACCEPT_IU ∧
    calls (send_ct (scripted Endian.big [(0, REJECT_IU 9 0x16), (0, ACCEPT_IU)]) 0 7 24 20
        0x0122 [0, 0, 0, 0, 0, 0, 0, 9] 0x01 0xfa ⟨0, []⟩).2.trace = 2 := by
  refine ⟨?_, ?_, ?_⟩ <;> rfl

theorem send_ct_loop_all_reject {σ : Type} (P : Platform σ) (display_detail : Nat)
    (handle req_s resp_s cmd : Nat) (c_param : List Nat) (gs_subtype gs_type : Nat)
    (h : ∀ v : World σ, ∃ resp v1,
      send_ct_pt P display_detail handle req_s resp_s cmd c_param gs_subtype gs_type v
        = (some resp, v1) ∧
      load P.endian resp CT_IU_CODE_OFFSET 2 = GS_REJECT_RESPONSE_CT_IU) :
    ∀ (retries : Nat) (w : World σ),
      (send_ct_loop P display_detail handle req_s resp_s cmd c_param gs_subtype gs_type
        retries w).1 = none ∧
      ∃ evs, (send_ct_loop P display_detail handle req_s resp_s cmd c_param gs_subtype gs_type
          retries w).2.trace = w.trace ++ evs ∧
        calls evs = retries ∧ sleeps evs = 0 ∧ warnings evs = 0 := by
  intro retries
  induction retries with
  | zero =>
    intro w
    exact ⟨rfl, [], by simp [send_ct_loop], rfl, rfl, rfl⟩
  | succ r ih =>
    intro w
    obtain ⟨resp, w1, hpt, hcode⟩ := h w
    obtain ⟨evs, ht, hc, hs, hw⟩ :=
      send_ct_pt_trace P display_detail handle req_s resp_s cmd c_param gs_subtype gs_type w
    rw [hpt] at ht
    simp only at ht
    rw [send_ct_loop_reject P display_detail handle req_s resp_s cmd c_param gs_subtype gs_type
      r w w1 resp hpt hcode]
    obtain ⟨hnone, evs', ht', hc', hs', hw'⟩ := ih w1
    refine ⟨hnone, evs ++ evs', ?_, ?_, ?_, ?_⟩
    · rw [ht', ht, List.append_assoc]
    · rw [calls_append, hc, hc']; omega
    · rw [sleeps_append, hs, hs']
    · rw [warnings_append, hw, hw']

/-- C5, amended. A reject is never returned and uses up one attempt: when a call
of `send_ct_pt` made by the loop of `send_ct` returns a response with code
0x8001, the loop goes on from the world right after that call (no sleep, nothing
printed) with the attempts that are left; on the last attempt the result is no
data in that very world, so without a further call.  If every call is rejected,
`send_ct` returns no data after exactly 3 calls, no sleep and no warning. -/
theorem send_ct_reject_consumes_attempt {σ : Type} (P : Platform σ) (display_detail : Nat)
    (handle req_s resp_s cmd : Nat) (c_param : List Nat) (gs_subtype gs_type : Nat) :
    (∀ (retries : Nat) (w w1 : World σ) (resp : List Nat),
      send_ct_pt P display_detail handle req_s resp_s cmd c_param gs_subtype gs_type w
        = (some resp, w1) →
      load P.endian resp CT_IU_CODE_OFFSET 2 = GS_REJECT_RESPONSE_CT_IU →
      send_ct_loop P display_detail handle req_s resp_s cmd c_param gs_subtype gs_type
          (retries + 1) w
        = send_ct_loop P display_detail handle req_s resp_s cmd c_param gs_subtype gs_type
          retries w1 ∧
      (retries = 0 →
        send_ct_loop P display_detail handle req_s resp_s cmd c_param gs_subtype gs_type
          (retries + 1) w = (none, w1))) ∧
    ((∀ v : World σ, ∃ resp v1,
        send_ct_pt P display_detail handle req_s resp_s cmd c_param gs_subtype gs_type v
          = (some resp, v1) ∧
        load P.endian resp CT_IU_CODE_OFFSET 2 = GS_REJECT_RESPONSE_CT_IU) →
      ∀ w : World σ,
        (send_ct P display_detail handle req_s resp_s cmd c_param gs_subtype gs_type w).1
          = none ∧
        ∃ evs, (send_ct P display_detail handle req_s resp_s cmd c_param gs_subtype gs_type
            w).2.trace = w.trace ++ evs ∧
          calls evs = 3 ∧ sleeps evs = 0 ∧ warnings evs = 0) := by
  refine ⟨?_, ?_⟩
  · intro retries w w1 resp hpt hcode
    have hstep := send_ct_loop_reject P display_detail handle req_s resp_s cmd c_param
      gs_subtype gs_type retries w w1 resp hpt hcode
    refine ⟨hstep, ?_⟩
    intro h0
    subst h0
    rw [hstep]
    rfl
  · intro h w
    exact send_ct_loop_all_reject P display_detail handle req_s resp_s cmd c_param gs_subtype
      gs_type h 3 w

/-- C5, amended, at a transport that rejects every call. -/
theorem send_ct_reject_consumes_attempt_witness :
    (send_ct (constant_reply Endian.big 0 (REJECT_IU 9 0x16)) 0 7 24 20 0x0122
        [0, 0, 0, 0, 0, 0, 0, 9] 0x01 0xfa ⟨0, []⟩).1 = none ∧
    ∃ evs, (send_ct (constant_reply Endian.big 0 (REJECT_IU 9 0x16)) 0 7 24 20 0x0122
        [0, 0, 0, 0, 0, 0, 0, 9] 0x01 0xfa ⟨0, []⟩).2.trace = [] ++ evs ∧
      calls evs = 3 ∧ sleeps evs = 0 ∧ warnings evs = 0 :=
  (send_ct_reject_consumes_attempt (constant_reply Endian.big 0 (REJECT_IU 9 0x16)) 0 7 24 20
    0x0122 [0, 0, 0, 0, 0, 0, 0, 9] 0x01 0xfa).2
    (fun _ => ⟨poke (List.replicate 20 0) 0 (REJECT_IU 9 0x16), _, rfl, by decide⟩) ⟨0, []⟩

theorem send_ct_loop_all_other {σ : Type} (P : Platform σ) (display_detail : Nat)
    (handle req_s resp_s cmd : Nat) (c_param : List Nat) (gs_subtype gs_type : Nat)
    (h : ∀ v : World σ, ∃ resp v1,
      send_ct_pt P display_detail handle req_s resp_s cmd c_param gs_subtype gs_type v
        = (some resp, v1) ∧
      load P.endian resp CT_IU_CODE_OFFSET 2 ≠ GS_ACCEPT_RESPONSE_CT_IU ∧
      load P.endian resp CT_IU_CODE_OFFSET 2 ≠ GS_REJECT_RESPONSE_CT_IU) :
    ∀ (retries : Nat) (w : World σ),
      (send_ct_loop P display_detail handle req_s resp_s cmd c_param gs_subtype gs_type
        (retries + 1) w).1 = none ∧
      ∃ pre, (send_ct_loop P display_detail handle req_s resp_s cmd c_param gs_subtype gs_type
          (retries + 1) w).2.trace = w.trace ++ pre ++
            [Event.print (Msg.text NON_CONFORMING), Event.print (Msg.text CONTACT_SUPPLIER)] ∧
        calls pre = retries + 1 ∧ sleeps pre = retries ∧ warnings pre = 0 := by
  intro retries
  induction retries with
  | zero =>
    intro w
    obtain ⟨resp, w1, hpt, ha, hr⟩ := h w
    obtain ⟨evs, ht, hc, hs, hw⟩ :=
      send_ct_pt_trace P display_detail handle req_s resp_s cmd c_param gs_subtype gs_type w
    rw [hpt] at ht
    simp only at ht
    rw [send_ct_loop_other P display_detail handle req_s resp_s cmd c_param gs_subtype gs_type
      0 w w1 resp hpt ha hr]
    refine ⟨rfl, evs, ?_, hc, hs, hw⟩
    simp [send_ct_loop, print_error_statement, World.printf, ht]
  | succ r ih =>
    intro w
    obtain ⟨resp, w1, hpt, ha, hr⟩ := h w
    obtain ⟨evs, ht, hc, hs, hw⟩ :=
      send_ct_pt_trace P display_detail handle req_s resp_s cmd c_param gs_subtype gs_type w
    rw [hpt] at ht
    simp only at ht
    rw [send_ct_loop_other P display_detail handle req_s resp_s cmd c_param gs_subtype gs_type
      (r + 1) w w1 resp hpt ha hr]
    simp only [Nat.add_one_ne_zero, if_false]
    obtain ⟨hnone, pre, ht', hc', hs', hw'⟩ := ih (w1.sleep P 1)
    refine ⟨hnone, evs ++ [Event.sleep 1] ++ pre, ?_, ?_, ?_, ?_⟩
    · rw [ht']
      simp [World.sleep, ht]
    · rw [calls_append, calls_append, hc, hc']; simp [calls]; omega
    · rw [sleeps_append, sleeps_append, hs, hs']; simp [sleeps]; omega
    · rw [warnings_append, warnings_append, hw, hw']; simp [warnings]

/-- C6. If every call of `send_ct_pt` delivers a response whose code is neither
0x8002 nor 0x8001, `send_ct` returns no data, and what it adds to the trace is 3
transport calls and 2 sleeps without any warning, followed by the two lines of
the non-conforming warning: the warning is printed once, after the third call. -/
theorem send_ct_non_conforming {σ : Type} (P : Platform σ) (display_detail : Nat)
    (handle req_s resp_s cmd : Nat) (c_param : List Nat) (gs_subtype gs_type : Nat)
    (w : World σ)
    (h : ∀ v : World σ, ∃ resp v1,
      send_ct_pt P display_detail handle req_s resp_s cmd c_param gs_subtype gs_type v
        = (some resp, v1) ∧
      load P.endian resp CT_IU_CODE_OFFSET 2 ≠ GS_ACCEPT_RESPONSE_CT_IU ∧
      load P.endian resp CT_IU_CODE_OFFSET 2 ≠ GS_REJECT_RESPONSE_CT_IU) :
    (send_ct P display_detail handle req_s resp_s cmd c_param gs_subtype gs_type w).1 = none ∧
    ∃ pre, (send_ct P display_detail handle req_s resp_s cmd c_param gs_subtype gs_type
        w).2.trace = w.trace ++ pre ++
          [Event.print (Msg.text NON_CONFORMING), Event.print (Msg.text CONTACT_SUPPLIER)] ∧
      calls pre = 3 ∧ sleeps pre = 2 ∧ warnings pre = 0 ∧
      warnings (send_ct P display_detail handle req_s resp_s cmd c_param gs_subtype gs_type
        w).2.trace = warnings w.trace + 1 := by
  obtain ⟨hnone, pre, ht, hc, hs, hw⟩ :=
    send_ct_loop_all_other P display_detail handle req_s resp_s cmd c_param gs_subtype gs_type
      h 2 w
  refine ⟨hnone, pre, ht, hc, hs, hw, ?_⟩
  unfold send_ct
  rw [ht, warnings_append, warnings_append, hw]
  simp [warnings, NON_CONFORMING, CONTACT_SUPPLIER]

/-- C6, at a transport that answers every call with code 0x8003. -/
theorem send_ct_non_conforming_witness :
    (send_ct (constant_reply Endian.big 0 ODD_IU) 0 7 24 20 0x0122
        [0, 0, 0, 0, 0, 0, 0, 9] 0x01 0xfa ⟨0, []⟩).1 = none ∧
    ∃ pre, (send_ct (constant_reply Endian.big 0 ODD_IU) 0 7 24 20 0x0122
        [0, 0, 0, 0, 0, 0, 0, 9] 0x01 0xfa ⟨0, []⟩).2.trace = [] ++ pre ++
          [Event.print (Msg.text NON_CONFORMING), Event.print (Msg.text CONTACT_SUPPLIER)] ∧
      calls pre = 3 ∧ sleeps pre = 2 ∧ warnings pre = 0 ∧
      warnings (send_ct (constant_reply Endian.big 0 ODD_IU) 0 7 24 20 0x0122
        [0, 0, 0, 0, 0, 0, 0, 9] 0x01 0xfa ⟨0, []⟩).2.trace = warnings [] + 1 :=
  send_ct_non_conforming (constant_reply Endian.big 0 ODD_IU) 0 7 24 20 0x0122
    [0, 0, 0, 0, 0, 0, 0, 9] 0x01 0xfa ⟨0, []⟩
    (fun _ => ⟨poke (List.replicate 20 0) 0 ODD_IU, _, rfl, by decide, by decide⟩)

/-! ## send_fc_ping -/

theorem echoes_append (a b : List Event) : echoes (a ++ b) = echoes a ++ echoes b := by
  simp [echoes, List.filterMap_append]

theorem send_ct_pt_echoes {σ : Type} (P : Platform σ) (display_detail : Nat)
    (handle req_s resp_s cmd : Nat) (c_param : List Nat) (gs_subtype gs_type : Nat)
    (w : World σ) :
    echoes (send_ct_pt P display_detail handle req_s resp_s cmd c_param gs_subtype gs_type
      w).2.trace = echoes w.trace := by
  rw [send_ct_pt_trace_eq, echoes_append]
  split_ifs <;> simp [echoes]

/-- The loop of `send_fc_ping` with nothing left to send. -/
theorem send_fc_ping_loop_done {σ : Type} (P : Platform σ) (display_detail : Nat)
    (aa : adapter_attr) (dest_val size fuel : Nat) (p : fpng) (retry : Nat) (ts : time_stat)
    (w : World σ) :
    send_fc_ping_loop P display_detail aa dest_val size (fuel + 1) p retry 0 ts w
      = some (HBA_STATUS_OK, ts, w) := by
  simp [send_fc_ping_loop]

/-- One iteration of the loop of `send_fc_ping` that meets a token collision. -/
theorem send_fc_ping_loop_collision {σ : Type} (P : Platform σ) (display_detail : Nat)
    (aa : adapter_attr) (dest_val size fuel : Nat) (p : fpng) (retry count : Nat)
    (ts : time_stat) (w v1 : World σ) (resp : List Nat) (hcount : count ≠ 0)
    (h : send_ct_pt P display_detail aa.handle size (CT_IU_PREAMBLE_SIZE + 4) FCS_RCC_FPNG
      (fpng_bytes P.endian p) SUBTYPE_FABRIC_CONFIGURATION_SERVER GS_TYPE_MANAGEMENT_SERVICE
      (w.gettimeofday P).2 = (some resp, v1))
    (hcode : load P.endian resp CT_IU_CODE_OFFSET 2 = GS_REJECT_RESPONSE_CT_IU)
    (hrc : peek resp 13 = RC_LOGICAL_ERROR) (hexp : peek resp 14 = RCE_PROCESSING_REQUEST) :
    send_fc_ping_loop P display_detail aa dest_val size (fuel + 1) p retry count ts w
      = send_fc_ping_loop P display_detail aa dest_val size fuel
          { p with token := (p.token + 1) % 2 ^ 32 } 2 count ts
          (if display_detail &&& VERBOSE ≠ 0 then
            (v1.gettimeofday P).2.printf (Msg.token_in_use p.token)
          else (v1.gettimeofday P).2) := by
  rw [send_fc_ping_loop]
  simp only [hcount, if_false, h, hcode, hrc, hexp, and_self, if_true]

/-- One iteration of the loop of `send_fc_ping` that receives an echo. -/
theorem send_fc_ping_loop_echo {σ : Type} (P : Platform σ) (display_detail : Nat)
    (aa : adapter_attr) (dest_val size fuel : Nat) (p : fpng) (retry count : Nat)
    (ts : time_stat) (w v1 : World σ) (resp : List Nat) (hcount : count ≠ 0)
    (h : send_ct_pt P display_detail aa.handle size (CT_IU_PREAMBLE_SIZE + 4) FCS_RCC_FPNG
      (fpng_bytes P.endian p) SUBTYPE_FABRIC_CONFIGURATION_SERVER GS_TYPE_MANAGEMENT_SERVICE
      (w.gettimeofday P).2 = (some resp, v1))
    (hcode : load P.endian resp CT_IU_CODE_OFFSET 2 = GS_ACCEPT_RESPONSE_CT_IU) :
    send_fc_ping_loop P display_detail aa dest_val size (fuel + 1) p retry count ts w
      = send_fc_ping_loop P display_detail aa dest_val size fuel
          { p with token := (p.token + 1) % 2 ^ 32 } 2 (count - 1)
          (update_ts ts (w.gettimeofday P).1 (v1.gettimeofday P).1).2
          (((v1.gettimeofday P).2.printf (Msg.echo p.tag dest_val p.token
            (update_ts ts (w.gettimeofday P).1 (v1.gettimeofday P).1).1)).sleep P 1) := by
  rw [send_fc_ping_loop]
  simp [hcount, h, hcode, GS_REJECT_RESPONSE_CT_IU, GS_ACCEPT_RESPONSE_CT_IU]

theorem send_fc_ping_setup_size (dest_val t t2 : Nat) :
    (send_fc_ping_setup dest_val t).2 = (send_fc_ping_setup dest_val t2).2 := by
  unfold send_fc_ping_setup
  split_ifs <;> rfl

theorem send_fc_ping_setup_token (dest_val t t2 : Nat) :
    { (send_fc_ping_setup dest_val t).1 with token := t2 } = (send_fc_ping_setup dest_val t2).1 := by
  unfold send_fc_ping_setup
  split_ifs <;> rfl

theorem send_fc_ping_setup_token_eq (dest_val t : Nat) :
    (send_fc_ping_setup dest_val t).1.token = t := by
  unfold send_fc_ping_setup
  split_ifs <;> rfl

theorem trace_gettimeofday {σ : Type} (P : Platform σ) (w : World σ) :
    (w.gettimeofday P).2.trace = w.trace := rfl

theorem trace_printf {σ : Type} (m : Msg) (w : World σ) :
    (w.printf m).trace = w.trace ++ [Event.print m] := rfl

theorem trace_sleep {σ : Type} (P : Platform σ) (n : Nat) (w : World σ) :
    (w.sleep P n).trace = w.trace ++ [Event.sleep n] := rfl

/-- C7. `send_fc_ping` with count = 1 and initial token `T`, on a transport that
answers the request carrying token `T` with a reject (reason Logical error,
explanation Processing request) and the request carrying token `T + 1` with an
accept: with fuel for 3 loop tests it returns HBA_STATUS_OK, it has sent exactly
2 requests, and the one echo it reports carries token `T + 1`. -/
theorem send_fc_ping_token_collision {σ : Type} (P : Platform σ) (display_detail : Nat)
    (aa : adapter_attr) (dest_val T fuel : Nat) (ts : time_stat) (w : World σ)
    (hdest : dest_val ≠ 0) (hT : T + 1 < 2 ^ 32) (hfuel : 3 ≤ fuel)
    (hrej : ∀ v : World σ, ∃ resp v1,
      send_ct_pt P display_detail aa.handle (send_fc_ping_setup dest_val T).2
        (CT_IU_PREAMBLE_SIZE + 4) FCS_RCC_FPNG
        (fpng_bytes P.endian (send_fc_ping_setup dest_val T).1)
        SUBTYPE_FABRIC_CONFIGURATION_SERVER GS_TYPE_MANAGEMENT_SERVICE v = (some resp, v1) ∧
      load P.endian resp CT_IU_CODE_OFFSET 2 = GS_REJECT_RESPONSE_CT_IU ∧
      peek resp 13 = RC_LOGICAL_ERROR ∧ peek resp 14 = RCE_PROCESSING_REQUEST)
    (hacc : ∀ v : World σ, ∃ resp v1,
      send_ct_pt P display_detail aa.handle (send_fc_ping_setup dest_val (T + 1)).2
        (CT_IU_PREAMBLE_SIZE + 4) FCS_RCC_FPNG
        (fpng_bytes P.endian (send_fc_ping_setup dest_val (T + 1)).1)
        SUBTYPE_FABRIC_CONFIGURATION_SERVER GS_TYPE_MANAGEMENT_SERVICE v = (some resp, v1) ∧
      load P.endian resp CT_IU_CODE_OFFSET 2 = GS_ACCEPT_RESPONSE_CT_IU) :
    ∃ ts1 w1, send_fc_ping P display_detail aa dest_val T 1 fuel ts w
        = some (HBA_STATUS_OK, ts1, w1) ∧
      calls w1.trace = calls w.trace + 2 ∧
      echoes w1.trace = echoes w.trace ++ [T + 1] := by
  obtain ⟨f, rfl⟩ : ∃ f, fuel = f + 1 + 1 + 1 := ⟨fuel - 3, by omega⟩
  unfold send_fc_ping
  rw [if_neg hdest]
  simp only []
  generalize hw0 : w.printf (Msg.sending_png (decide (display_detail &&& VERBOSE ≠ 0)) aa) = w0
  have hw0t : w0.trace = w.trace ++ [Event.print
      (Msg.sending_png (decide (display_detail &&& VERBOSE ≠ 0)) aa)] := by
    rw [← hw0]; rfl
  obtain ⟨resp, v1, h1, hc1, hrc, hexp⟩ := hrej (w0.gettimeofday P).2
  rw [send_fc_ping_loop_collision P display_detail aa dest_val _ (f + 1 + 1) _ 2 1 ts w0 v1 resp
    (by decide) h1 hc1 hrc hexp]
  have hv1c := send_ct_pt_calls P display_detail aa.handle (send_fc_ping_setup dest_val T).2
    (CT_IU_PREAMBLE_SIZE + 4) FCS_RCC_FPNG (fpng_bytes P.endian (send_fc_ping_setup dest_val T).1)
    SUBTYPE_FABRIC_CONFIGURATION_SERVER GS_TYPE_MANAGEMENT_SERVICE (w0.gettimeofday P).2
  have hv1e := send_ct_pt_echoes P display_detail aa.handle (send_fc_ping_setup dest_val T).2
    (CT_IU_PREAMBLE_SIZE + 4) FCS_RCC_FPNG (fpng_bytes P.endian (send_fc_ping_setup dest_val T).1)
    SUBTYPE_FABRIC_CONFIGURATION_SERVER GS_TYPE_MANAGEMENT_SERVICE (w0.gettimeofday P).2
  rw [h1] at hv1c hv1e
  simp only [trace_gettimeofday] at hv1c hv1e
  generalize hw2 : (if display_detail &&& VERBOSE ≠ 0 then
      (v1.gettimeofday P).2.printf (Msg.token_in_use (send_fc_ping_setup dest_val T).1.token)
    else (v1.gettimeofday P).2) = w2
  have hw2c : calls w2.trace = calls v1.trace := by
    rw [← hw2]; split_ifs <;> simp [trace_gettimeofday, trace_printf, calls_append, calls]
  have hw2e : echoes w2.trace = echoes v1.trace := by
    rw [← hw2]; split_ifs <;> simp [trace_gettimeofday, trace_printf, echoes_append, echoes]
  rw [send_fc_ping_setup_token_eq, Nat.mod_eq_of_lt hT, send_fc_ping_setup_token,
    send_fc_ping_setup_size dest_val T (T + 1)]
  obtain ⟨resp2, v2, h2, hc2⟩ := hacc (w2.gettimeofday P).2
  rw [send_fc_ping_loop_echo P display_detail aa dest_val _ (f + 1) _ 2 1 _ w2 v2 resp2
    (by decide) h2 hc2, send_fc_ping_loop_done]
  have hv2c := send_ct_pt_calls P display_detail aa.handle
    (send_fc_ping_setup dest_val (T + 1)).2
    (CT_IU_PREAMBLE_SIZE + 4) FCS_RCC_FPNG
    (fpng_bytes P.endian (send_fc_ping_setup dest_val (T + 1)).1)
    SUBTYPE_FABRIC_CONFIGURATION_SERVER GS_TYPE_MANAGEMENT_SERVICE (w2.gettimeofday P).2
  have hv2e := send_ct_pt_echoes P display_detail aa.handle
    (send_fc_ping_setup dest_val (T + 1)).2
    (CT_IU_PREAMBLE_SIZE + 4) FCS_RCC_FPNG
    (fpng_bytes P.endian (send_fc_ping_setup dest_val (T + 1)).1)
    SUBTYPE_FABRIC_CONFIGURATION_SERVER GS_TYPE_MANAGEMENT_SERVICE (w2.gettimeofday P).2
  rw [h2] at hv2c hv2e
  simp only [trace_gettimeofday] at hv2c hv2e
  refine ⟨_, _, rfl, ?_, ?_⟩
  · simp only [trace_sleep, trace_printf, trace_gettimeofday, calls_append, hv2c, hw2c, hv1c,
      hw0t]
    simp [calls]
  · simp only [trace_sleep, trace_printf, trace_gettimeofday, echoes_append, hv2e, hw2e, hv1e,
      hw0t, send_fc_ping_setup_token_eq]
    simp [echoes]

/-- C7, at an N_Port destination with token 5 in use: the ping succeeds with
token 6 after 2 requests. -/
theorem send_fc_ping_token_collision_witness :
    ∃ ts1 w1, send_fc_ping (token_in_use_fabric Endian.big 5) 0 ⟨7, 0x1900, 0, 0, "", 0⟩
        0x010203 5 1 3 ⟨0, 0, 0⟩ ⟨0, []⟩ = some (HBA_STATUS_OK, ts1, w1) ∧
      calls w1.trace = calls [] + 2 ∧
      echoes w1.trace = echoes [] ++ [5 + 1] :=
  send_fc_ping_token_collision (token_in_use_fabric Endian.big 5) 0 ⟨7, 0x1900, 0, 0, "", 0⟩
    0x010203 5 3 ⟨0, 0, 0⟩ ⟨0, []⟩ (by decide) (by decide) (by decide)
    (fun _ => ⟨poke (List.replicate 20 0) 0 (REJECT_IU RC_LOGICAL_ERROR RCE_PROCESSING_REQUEST),
      _, rfl, by decide, by decide, by decide⟩)
    (fun _ => ⟨poke (List.replicate 20 0) 0 ACCEPT_IU, _, rfl, by decide⟩)

/-! ## The list queries of zfcp_show.c -/

theorem take_succ_set {α : Type} (v : α) : ∀ (l : List α) (i : Nat), i < l.length →
    (l.set i v).take (i + 1) = l.take i ++ [v] := by
  intro l
  induction l with
  | nil => intro i h; simp at h
  | cons a l ih =>
    intro i h
    cases i with
    | zero => simp
    | succ i =>
      simp only [List.length_cons, Nat.add_lt_add_iff_right] at h
      simp [ih i h]

/-- The loop of `get_ice_list` from entry `i` on fills in the entries `i .. n - 1`. -/
theorem get_ice_list_loop_spec (e : Endian) (payload : List Nat) (n : Nat)
    (hn : 4 + 12 * n < 65536) :
    ∀ (fuel i : Nat) (ice : List interconnect_element), i ≤ n → ice.length = n → n - i < fuel →
      get_ice_list_loop e payload n fuel i (4 + 12 * i) ice
        = some (ice.take i ++ (List.range' i (n - i)).map (ice_entry e payload)) := by
  intro fuel
  induction fuel with
  | zero => intro i ice _ _ h; omega
  | succ fuel ih =>
    intro i ice hi hlen hfuel
    unfold get_ice_list_loop
    by_cases hlt : i < n
    · have h1 : (4 + 12 * i + 11) % 65536 = 4 + 12 * i + 11 := Nat.mod_eq_of_lt (by omega)
      have h2 : (4 + 12 * i + 11 + 1) % 65536 = 4 + 12 * (i + 1) := by
        rw [Nat.mod_eq_of_lt (by omega)]; ring
      have h3 : (i + 1) % 65536 = i + 1 := Nat.mod_eq_of_lt (by omega)
      have h4 : n - i = (n - (i + 1)) + 1 := by omega
      simp only [hlt, if_true, h1, h2, h3]
      rw [ih (i + 1) _ (by omega) (by simp [hlen]) (by omega),
        take_succ_set _ _ _ (by omega), h4, List.range'_succ]
      simp [ice_entry]
    · have hin : i = n := by omega
      subst hin
      simp [hlt, ← hlen]

/-- C8. For every accepted Get Interconnect Element List response whose payload
starts with an entry count `n` with `4 + 12 * n` at most the 1204 payload bytes,
`get_ice_list` returns `n` and an array of `n` elements in which element `i` has
port_name = the 8-byte value at payload offset `4 + 12 * i` and port_type = the
byte at payload offset `4 + 12 * i + 11`. -/
theorem get_ice_list_decodes {σ : Type} (P : Platform σ) (display_detail handle : Nat)
    (w w1 : World σ) (resp : List Nat)
    (hsend : send_ct P display_detail handle CT_IU_PREAMBLE_SIZE
      (CT_IU_PREAMBLE_SIZE + PL_SIZE 100) FCS_RCC_GIEL [] SUBTYPE_FABRIC_CONFIGURATION_SERVER
      GS_TYPE_MANAGEMENT_SERVICE w = (some resp, w1))
    (hn : 4 + 12 * load P.endian (resp.drop CT_IU_PREAMBLE_SIZE) 0 4 ≤ 1204) :
    ∃ ice, get_ice_list P display_detail handle w
        = (some (load P.endian (resp.drop CT_IU_PREAMBLE_SIZE) 0 4, some ice), w1) ∧
      ice.length = load P.endian (resp.drop CT_IU_PREAMBLE_SIZE) 0 4 ∧
      ∀ i, i < load P.endian (resp.drop CT_IU_PREAMBLE_SIZE) 0 4 →
        ice[i]? = some
          ⟨load P.endian (resp.drop CT_IU_PREAMBLE_SIZE) (4 + 12 * i) 8,
            peek (resp.drop CT_IU_PREAMBLE_SIZE) (4 + 12 * i + 11)⟩ := by
  refine ⟨(List.range (load P.endian (resp.drop CT_IU_PREAMBLE_SIZE) 0 4)).map
    (ice_entry P.endian (resp.drop CT_IU_PREAMBLE_SIZE)), ?_, by simp, ?_⟩
  · unfold get_ice_list
    rw [hsend]
    simp only []
    have h := get_ice_list_loop_spec P.endian (resp.drop CT_IU_PREAMBLE_SIZE)
      (load P.endian (resp.drop CT_IU_PREAMBLE_SIZE) 0 4) (by omega) UINT16_RANGE 0
      (List.replicate (load P.endian (resp.drop CT_IU_PREAMBLE_SIZE) 0 4) ⟨0, 0⟩)
      (by omega) (by simp) (by unfold UINT16_RANGE; omega)
    simp only [Nat.mul_zero, Nat.add_zero, Nat.sub_zero, List.take_zero, List.nil_append] at h
    rw [h, List.range_eq_range']
    rfl
  · intro i hi
    simp [List.getElem?_map, List.getElem?_range hi, ice_entry]

/-- C8, at a response with two entries. -/
theorem get_ice_list_decodes_witness :
    ∃ ice, get_ice_list (constant_reply Endian.big 0 LIST_IU) 0 7 ⟨0, []⟩
        = (some (load Endian.big ((poke (List.replicate 1220 0) 0 LIST_IU).drop
            CT_IU_PREAMBLE_SIZE) 0 4, some ice),
          ⟨1, [Event.ct_pass_thru 7 (send_ct_pt_req Endian.big 16 1220 FCS_RCC_GIEL [] 0x01 0xfa)
            1220]⟩) ∧
      ice.length = load Endian.big ((poke (List.replicate 1220 0) 0 LIST_IU).drop
        CT_IU_PREAMBLE_SIZE) 0 4 ∧
      ∀ i, i < load Endian.big ((poke (List.replicate 1220 0) 0 LIST_IU).drop
          CT_IU_PREAMBLE_SIZE) 0 4 →
        ice[i]? = some
          ⟨load Endian.big ((poke (List.replicate 1220 0) 0 LIST_IU).drop CT_IU_PREAMBLE_SIZE)
              (4 + 12 * i) 8,
            peek ((poke (List.replicate 1220 0) 0 LIST_IU).drop CT_IU_PREAMBLE_SIZE)
              (4 + 12 * i + 11)⟩ :=
  get_ice_list_decodes (constant_reply Endian.big 0 LIST_IU) 0 7 ⟨0, []⟩ _
    (poke (List.replicate 1220 0) 0 LIST_IU) rfl (by decide)

/-- The loop of `get_port_list` from entry `i` on fills in the entries `i .. n - 1`. -/
theorem get_port_list_loop_spec (e : Endian) (payload : List Nat) (n : Nat)
    (hn : 4 + 12 * n < 65536) :
    ∀ (fuel i : Nat) (ple : List port_list_entry), i ≤ n → ple.length = n → n - i < fuel →
      get_port_list_loop e payload n fuel i (4 + 12 * i) ple
        = some (ple.take i ++ (List.range' i (n - i)).map (ple_entry e payload)) := by
  intro fuel
  induction fuel with
  | zero => intro i ple _ _ h; omega
  | succ fuel ih =>
    intro i ple hi hlen hfuel
    unfold get_port_list_loop
    by_cases hlt : i < n
    · have h1 : (4 + 12 * i + 9) % 65536 = 4 + 12 * i + 9 := Nat.mod_eq_of_lt (by omega)
      have h2 : (4 + 12 * i + 9 + 1) % 65536 = 4 + 12 * i + 10 := Nat.mod_eq_of_lt (by omega)
      have h3 : (4 + 12 * i + 10 + 1) % 65536 = 4 + 12 * i + 11 := Nat.mod_eq_of_lt (by omega)
      have h4 : (4 + 12 * i + 11 + 1) % 65536 = 4 + 12 * (i + 1) := by
        rw [Nat.mod_eq_of_lt (by omega)]; ring
      have h5 : (i + 1) % 65536 = i + 1 := Nat.mod_eq_of_lt (by omega)
      have h6 : n - i = (n - (i + 1)) + 1 := by omega
      simp only [hlt, if_true, h1, h2, h3, h4, h5]
      rw [ih (i + 1) _ (by omega) (by simp [hlen]) (by omega),
        take_succ_set _ _ _ (by omega), h6, List.range'_succ]
      simp [ple_entry]
    · have hin : i = n := by omega
      subst hin
      simp [hlt, ← hlen]

/-- C9 as stated fails: in a Get Port List response with two entries,
`get_port_list` takes the port name of entry 1 from payload offset 16 = 4 + 12,
which is not the value at offset 17 = 4 + 13. -/
theorem get_port_list_stride_counterexample :
    (get_port_list (constant_reply Endian.big 0 LIST_IU) 0 7 0x1000000533445566 ⟨0, []⟩).1
      = some (2, some [⟨0x100000051e000001, 0xa2, 0xa3, 0xa4⟩,
          ⟨0x200000051e000002, 0xb2, 0xb3, 0xb4⟩]) ∧
    load Endian.big (LIST_IU.drop CT_IU_PREAMBLE_SIZE) (4 + 12 * 1) 8 = 0x200000051e000002 ∧
    load Endian.big (LIST_IU.drop CT_IU_PREAMBLE_SIZE) (4 + 13 * 1) 8 ≠ 0x200000051e000002 := by
  refine ⟨?_, ?_, ?_⟩
  · rfl
  · decide
  · decide

/-- C9, amended. For every accepted Get Port List response whose payload starts
with an entry count `n` with `4 + 12 * n` at most the 6004 payload bytes,
`get_port_list` returns `n` and decodes 12 bytes per entry: element `i` has its
port name from the 8 bytes at payload offset `4 + 12 * i`, and its module type,
tx type and port type from the bytes at offsets `4 + 12 * i + 9`, `+ 10`, `+ 11`
of the same entry. -/
theorem get_port_list_decodes {σ : Type} (P : Platform σ)
    (display_detail handle ice_name : Nat) (w w1 : World σ) (resp : List Nat)
    (hsend : send_ct P display_detail handle (CT_IU_PREAMBLE_SIZE + 8)
      (CT_IU_PREAMBLE_SIZE + PL_SIZE 500) FCS_RCC_GPL (host_bytes P.endian 8 ice_name)
      SUBTYPE_FABRIC_CONFIGURATION_SERVER GS_TYPE_MANAGEMENT_SERVICE w = (some resp, w1))
    (hn : 4 + 12 * load P.endian (resp.drop CT_IU_PREAMBLE_SIZE) 0 4 ≤ 6004) :
    ∃ ple, get_port_list P display_detail handle ice_name w
        = (some (load P.endian (resp.drop CT_IU_PREAMBLE_SIZE) 0 4, some ple), w1) ∧
      ple.length = load P.endian (resp.drop CT_IU_PREAMBLE_SIZE) 0 4 ∧
      ∀ i, i < load P.endian (resp.drop CT_IU_PREAMBLE_SIZE) 0 4 →
        ple[i]? = some
          ⟨load P.endian (resp.drop CT_IU_PREAMBLE_SIZE) (4 + 12 * i) 8,
            peek (resp.drop CT_IU_PREAMBLE_SIZE) (4 + 12 * i + 9),
            peek (resp.drop CT_IU_PREAMBLE_SIZE) (4 + 12 * i + 10),
            peek (resp.drop CT_IU_PREAMBLE_SIZE) (4 + 12 * i + 11)⟩ := by
  refine ⟨(List.range (load P.endian (resp.drop CT_IU_PREAMBLE_SIZE) 0 4)).map
    (ple_entry P.endian (resp.drop CT_IU_PREAMBLE_SIZE)), ?_, by simp, ?_⟩
  · unfold get_port_list
    rw [hsend]
    simp only []
    have h := get_port_list_loop_spec P.endian (resp.drop CT_IU_PREAMBLE_SIZE)
      (load P.endian (resp.drop CT_IU_PREAMBLE_SIZE) 0 4) (by omega) UINT16_RANGE 0
      (List.replicate (load P.endian (resp.drop CT_IU_PREAMBLE_SIZE) 0 4) ⟨0, 0, 0, 0⟩)
      (by omega) (by simp) (by unfold UINT16_RANGE; omega)
    simp only [Nat.mul_zero, Nat.add_zero, Nat.sub_zero, List.take_zero, List.nil_append] at h
    rw [h, List.range_eq_range']
    rfl
  · intro i hi
    simp [List.getElem?_map, List.getElem?_range hi, ple_entry]

/-- C9, amended, at a response with two entries. -/
theorem get_port_list_decodes_witness :
    ∃ ple, get_port_list (constant_reply Endian.big 0 LIST_IU) 0 7 0x1000000533445566 ⟨0, []⟩
        = (some (load Endian.big ((poke (List.replicate 6020 0) 0 LIST_IU).drop
            CT_IU_PREAMBLE_SIZE) 0 4, some ple),
          ⟨1, [Event.ct_pass_thru 7 (send_ct_pt_req Endian.big 24 6020 FCS_RCC_GPL
            (host_bytes Endian.big 8 0x1000000533445566) 0x01 0xfa) 6020]⟩) ∧
      ple.length = load Endian.big ((poke (List.replicate 6020 0) 0 LIST_IU).drop
        CT_IU_PREAMBLE_SIZE) 0 4 ∧
      ∀ i, i < load Endian.big ((poke (List.replicate 6020 0) 0 LIST_IU).drop
          CT_IU_PREAMBLE_SIZE) 0 4 →
        ple[i]? = some
          ⟨load Endian.big ((poke (List.replicate 6020 0) 0 LIST_IU).drop CT_IU_PREAMBLE_SIZE)
              (4 + 12 * i) 8,
            peek ((poke (List.replicate 6020 0) 0 LIST_IU).drop CT_IU_PREAMBLE_SIZE)
              (4 + 12 * i + 9),
            peek ((poke (List.replicate 6020 0) 0 LIST_IU).drop CT_IU_PREAMBLE_SIZE)
              (4 + 12 * i + 10),
            peek ((poke (List.replicate 6020 0) 0 LIST_IU).drop CT_IU_PREAMBLE_SIZE)
              (4 + 12 * i + 11)⟩ :=
  get_port_list_decodes (constant_reply Endian.big 0 LIST_IU) 0 7 0x1000000533445566 ⟨0, []⟩ _
    (poke (List.replicate 6020 0) 0 LIST_IU) rfl (by decide)

/-- The loop of `get_att_port_list` from entry `i` on fills in the entries `i .. n - 1`. -/
theorem get_att_port_list_loop_spec (e : Endian) (payload : List Nat) (n : Nat)
    (hn : 4 + 12 * n < 65536) :
    ∀ (fuel i : Nat) (apn : List att_port_name), i ≤ n → apn.length = n → n - i < fuel →
      get_att_port_list_loop e payload n fuel i (4 + 12 * i) apn
        = some (apn.take i ++ (List.range' i (n - i)).map (apn_entry e payload)) := by
  intro fuel
  induction fuel with
  | zero => intro i apn _ _ h; omega
  | succ fuel ih =>
    intro i apn hi hlen hfuel
    unfold get_att_port_list_loop
    by_cases hlt : i < n
    · have h1 : (4 + 12 * i + 10) % 2 ^ 32 = 4 + 12 * i + 10 := Nat.mod_eq_of_lt (by omega)
      have h2 : (4 + 12 * i + 10 + 1) % 2 ^ 32 = 4 + 12 * i + 11 := Nat.mod_eq_of_lt (by omega)
      have h3 : (4 + 12 * i + 11 + 1) % 2 ^ 32 = 4 + 12 * (i + 1) := by
        rw [Nat.mod_eq_of_lt (by omega)]; ring
      have h4 : (i + 1) % 65536 = i + 1 := Nat.mod_eq_of_lt (by omega)
      have h5 : n - i = (n - (i + 1)) + 1 := by omega
      simp only [hlt, if_true, h1, h2, h3, h4]
      rw [ih (i + 1) _ (by omega) (by simp [hlen]) (by omega),
        take_succ_set _ _ _ (by omega), h5, List.range'_succ]
      simp [apn_entry]
    · have hin : i = n := by omega
      subst hin
      simp [hlt, ← hlen]

/-- C10. For every accepted Get Attached Port List response whose payload starts
with an entry count `n` with `4 + 12 * n` at most the 1204 payload bytes,
`get_att_port_list` returns `n` and an array of `n` elements in which element
`i` has port_name = the 8-byte value at payload offset `4 + 12 * i`,
port_flags = the byte at offset `4 + 12 * i + 10` and port_type = the byte at
offset `4 + 12 * i + 11`. -/
theorem get_att_port_list_decodes {σ : Type} (P : Platform σ)
    (display_detail handle icep_name : Nat) (w w1 : World σ) (resp : List Nat)
    (hsend : send_ct P display_detail handle (CT_IU_PREAMBLE_SIZE + 8)
      (CT_IU_PREAMBLE_SIZE + PL_SIZE 100) FCS_RCC_GAPNL (host_bytes P.endian 8 icep_name)
      SUBTYPE_FABRIC_CONFIGURATION_SERVER GS_TYPE_MANAGEMENT_SERVICE w = (some resp, w1))
    (hn : 4 + 12 * load P.endian (resp.drop CT_IU_PREAMBLE_SIZE) 0 4 ≤ 1204) :
    ∃ apn, get_att_port_list P display_detail handle icep_name w
        = (some (load P.endian (resp.drop CT_IU_PREAMBLE_SIZE) 0 4, some apn), w1) ∧
      apn.length = load P.endian (resp.drop CT_IU_PREAMBLE_SIZE) 0 4 ∧
      ∀ i, i < load P.endian (resp.drop CT_IU_PREAMBLE_SIZE) 0 4 →
        apn[i]? = some
          ⟨load P.endian (resp.drop CT_IU_PREAMBLE_SIZE) (4 + 12 * i) 8,
            peek (resp.drop CT_IU_PREAMBLE_SIZE) (4 + 12 * i + 10),
            peek (resp.drop CT_IU_PREAMBLE_SIZE) (4 + 12 * i + 11)⟩ := by
  refine ⟨(List.range (load P.endian (resp.drop CT_IU_PREAMBLE_SIZE) 0 4)).map
    (apn_entry P.endian (resp.drop CT_IU_PREAMBLE_SIZE)), ?_, by simp, ?_⟩
  · unfold get_att_port_list
    rw [hsend]
    simp only []
    have h := get_att_port_list_loop_spec P.endian (resp.drop CT_IU_PREAMBLE_SIZE)
      (load P.endian (resp.drop CT_IU_PREAMBLE_SIZE) 0 4) (by omega) UINT16_RANGE 0
      (List.replicate (load P.endian (resp.drop CT_IU_PREAMBLE_SIZE) 0 4) ⟨0, 0, 0⟩)
      (by omega) (by simp) (by unfold UINT16_RANGE; omega)
    simp only [Nat.mul_zero, Nat.add_zero, Nat.sub_zero, List.take_zero, List.nil_append] at h
    rw [h, List.range_eq_range']
    rfl
  · intro i hi
    simp [List.getElem?_map, List.getElem?_range hi, apn_entry]

/-- C10, at a response with two entries. -/
theorem get_att_port_list_decodes_witness :
    ∃ apn, get_att_port_list (constant_reply Endian.big 0 LIST_IU) 0 7 0x200000051e000001
          ⟨0, []⟩
        = (some (load Endian.big ((poke (List.replicate 1220 0) 0 LIST_IU).drop
            CT_IU_PREAMBLE_SIZE) 0 4, some apn),
          ⟨1, [Event.ct_pass_thru 7 (send_ct_pt_req Endian.big 24 1220 FCS_RCC_GAPNL
            (host_bytes Endian.big 8 0x200000051e000001) 0x01 0xfa) 1220]⟩) ∧
      apn.length = load Endian.big ((poke (List.replicate 1220 0) 0 LIST_IU).drop
        CT_IU_PREAMBLE_SIZE) 0 4 ∧
      ∀ i, i < load Endian.big ((poke (List.replicate 1220 0) 0 LIST_IU).drop
          CT_IU_PREAMBLE_SIZE) 0 4 →
        apn[i]? = some
          ⟨load Endian.big ((poke (List.replicate 1220 0) 0 LIST_IU).drop CT_IU_PREAMBLE_SIZE)
              (4 + 12 * i) 8,
            peek ((poke (List.replicate 1220 0) 0 LIST_IU).drop CT_IU_PREAMBLE_SIZE)
              (4 + 12 * i + 10),
            peek ((poke (List.replicate 1220 0) 0 LIST_IU).drop CT_IU_PREAMBLE_SIZE)
              (4 + 12 * i + 11)⟩ :=
  get_att_port_list_decodes (constant_reply Endian.big 0 LIST_IU) 0 7 0x200000051e000001
    ⟨0, []⟩ _ (poke (List.replicate 1220 0) 0 LIST_IU) rfl (by decide)

/-! ## get_ppn -/

theorem load_four (e : Endian) (buf : List Nat) (off : Nat) :
    load e buf off 4 =
      match e with
      | Endian.big => ((peek buf off * 256 + peek buf (off + 1)) * 256 + peek buf (off + 2)) * 256
          + peek buf (off + 3)
      | Endian.little => ((peek buf (off + 3) * 256 + peek buf (off + 2)) * 256
          + peek buf (off + 1)) * 256 + peek buf off := by
  cases e <;> simp [load, field_bytes, be_value, List.range_succ]

/-- C11. `get_ppn` returns the 4 payload bytes of an accepted response as they
stand (read as a host-order `uint32_t`) and 0xFFFFFFFF when `send_ct` yields no
data; so a payload of `ff ff ff ff` and a failed query both give 0xFFFFFFFF,
while a payload of `00 00 00 00` gives 0, which is a different value. -/
theorem get_ppn_sentinel {σ : Type} (P : Platform σ) (display_detail handle port_name : Nat)
    (w : World σ) :
    (∀ resp w1,
      send_ct P display_detail handle (CT_IU_PREAMBLE_SIZE + 8) (CT_IU_PREAMBLE_SIZE + 4)
        FCS_RCC_GPPN (host_bytes P.endian 8 port_name) SUBTYPE_FABRIC_CONFIGURATION_SERVER
        GS_TYPE_MANAGEMENT_SERVICE w = (some resp, w1) →
      get_ppn P display_detail handle port_name w
        = (load P.endian resp CT_IU_PREAMBLE_SIZE 4, w1) ∧
      ((∀ i, i < 4 → peek resp (CT_IU_PREAMBLE_SIZE + i) = 0xff) →
        get_ppn P display_detail handle port_name w = (0xFFFFFFFF, w1)) ∧
      ((∀ i, i < 4 → peek resp (CT_IU_PREAMBLE_SIZE + i) = 0) →
        get_ppn P display_detail handle port_name w = (0, w1))) ∧
    (∀ w1,
      send_ct P display_detail handle (CT_IU_PREAMBLE_SIZE + 8) (CT_IU_PREAMBLE_SIZE + 4)
        FCS_RCC_GPPN (host_bytes P.endian 8 port_name) SUBTYPE_FABRIC_CONFIGURATION_SERVER
        GS_TYPE_MANAGEMENT_SERVICE w = (none, w1) →
      get_ppn P display_detail handle port_name w = (0xFFFFFFFF, w1)) ∧
    (0 : Nat) ≠ 0xFFFFFFFF := by
  refine ⟨?_, ?_, by decide⟩
  · intro resp w1 h
    have hget : get_ppn P display_detail handle port_name w
        = (load P.endian resp CT_IU_PREAMBLE_SIZE 4, w1) := by
      unfold get_ppn; rw [h]
    refine ⟨hget, ?_, ?_⟩
    · intro hb
      rw [hget, load_four]
      have h0 := hb 0 (by decide)
      have h1 := hb 1 (by decide)
      have h2 := hb 2 (by decide)
      have h3 := hb 3 (by decide)
      simp only [Nat.add_zero] at h0
      cases P.endian <;> simp [h0, h1, h2, h3]
    · intro hb
      rw [hget, load_four]
      have h0 := hb 0 (by decide)
      have h1 := hb 1 (by decide)
      have h2 := hb 2 (by decide)
      have h3 := hb 3 (by decide)
      simp only [Nat.add_zero] at h0
      cases P.endian <;> simp [h0, h1, h2, h3]
  · intro w1 h
    unfold get_ppn; rw [h]

/-- C11, at a transport that answers `ff ff ff ff`: the result is the not-found
value. -/
theorem get_ppn_sentinel_witness :
    get_ppn (constant_reply Endian.big 0 ALL_ONES_IU) 0 7 0x200000051e000001 ⟨0, []⟩
      = (0xFFFFFFFF, ⟨1, [Event.ct_pass_thru 7 (send_ct_pt_req Endian.big 24 20 FCS_RCC_GPPN
          (host_bytes Endian.big 8 0x200000051e000001) 0x01 0xfa) 20]⟩) :=
  ((get_ppn_sentinel (constant_reply Endian.big 0 ALL_ONES_IU) 0 7 0x200000051e000001
    ⟨0, []⟩).1 ALL_ONES_IU _ rfl).2.1 (by decide)

/-! ## print_error -/

/-- C20. For each of the known reason codes `print_error` prints "Error: %s"
with exactly the documented string (and the explanation only for 0x09). -/
theorem print_error_reason_strings {σ : Type} (expl : Nat) (w : World σ) :
    ∀ p ∈ [(0x01, "Invalid command code"), (0x02, "Invalid version level"),
        (0x03, "Logical error"), (0x04, "Invalid CT_IU size"), (0x05, "Logical busy"),
        (0x07, "Protocol error"), (0x09, "Unable to perform command request"),
        (0x0b, "Command not supported"), (0x0d, "Server not available"),
        (0x0e, "Session could not be established"), (0xff, "Vendor specific error")],
      (print_error p.1 expl w).trace = w.trace ++
        [Event.print (Msg.error (some p.2) (if p.1 = 0x09 then some (RC_EXPL expl) else none))] ∧
      RET_CODES p.1 = some p.2 := by
  intro p hp
  simp only [List.mem_cons, List.mem_singleton, List.not_mem_nil, or_false] at hp
  rcases hp with h | h | h | h | h | h | h | h | h | h | h <;> subst h <;>
    exact ⟨rfl, rfl⟩

/-- C20, at reason code 0x03. -/
theorem print_error_reason_strings_witness :
    (print_error 0x03 0xf4 (⟨0, []⟩ : World Nat)).trace = [] ++
        [Event.print (Msg.error (some "Logical error")
          (if (0x03 : Nat) = 0x09 then some (RC_EXPL 0xf4) else none))] ∧
      RET_CODES 0x03 = some "Logical error" :=
  print_error_reason_strings 0xf4 ⟨0, []⟩ (0x03, "Logical error") (by simp)

/-! ## get_information_list and the strings of print_ice_info -/

theorem poke_zero_front (bs : List Nat) : ∀ (l : List Nat), bs.length ≤ l.length →
    poke l 0 bs = bs ++ l.drop bs.length := by
  induction bs with
  | nil => intro l _; simp [poke]
  | cons b bs ih =>
    intro l h
    cases l with
    | nil => simp at h
    | cons a l =>
      rw [poke_cons_zero, ih l (by simpa using h)]
      simp

theorem cstr_zero_of_not_mem (v rest : List Nat) (hv : ∀ b ∈ v, b ≠ 0) :
    cstr (v ++ 0 :: rest) 0 = some v := by
  unfold cstr
  simp only [List.drop_zero]
  have hany : (v ++ 0 :: rest).any (fun b => decide (b = 0)) = true := by simp
  rw [if_pos hany]
  congr 1
  clear hany
  induction v with
  | nil => simp
  | cons a v ih =>
    have ha : a ≠ 0 := hv a (by simp)
    simp only [List.cons_append, List.takeWhile_cons, ne_eq, ha, not_false_eq_true,
      decide_True, if_true]
    rw [ih (fun b hb => hv b (by simp [hb]))]

theorem cstr_skip (v rest : List Nat) (k : Nat) :
    cstr (v ++ rest) (v.length + k) = cstr rest k := by
  unfold cstr
  rw [List.drop_append]

/-- C12 as stated fails: when the length byte counts the vendor string only, the
buffer that `get_information_list` returns is the vendor string and its NUL, and
the model and release-code strings of `print_ice_info` start outside it. -/
theorem get_information_list_counterexample :
    (get_information_list (constant_reply Endian.big 0 INFO_IU_VENDOR_LENGTH) 0 7
      0x100000051e000001 ⟨0, []⟩).1 = some [73, 66, 77, 0] ∧
    ice_info_strings [73, 66, 77, 0] = (some [73, 66, 77], none, none) := by
  refine ⟨?_, ?_⟩ <;> rfl

/-- C12, amended. For every accepted Get Information List response whose payload
holds at offset 3 a length byte `L` and, in the `L` bytes that follow, the
NUL-free vendor, model and release-code strings with one NUL after the vendor
and one after the model, `get_information_list` returns those `L` bytes and a
final NUL, and the NUL-scanning split of `print_ice_info` yields exactly the
three strings, every read staying inside that buffer. -/
theorem get_information_list_strings {σ : Type} (P : Platform σ)
    (display_detail handle name : Nat) (w w1 : World σ) (resp vendor model release : List Nat)
    (hsend : send_ct P display_detail handle (CT_IU_PREAMBLE_SIZE + 8)
      (CT_IU_PREAMBLE_SIZE + 256) FCS_RCC_GIEIL (host_bytes P.endian 8 name)
      SUBTYPE_FABRIC_CONFIGURATION_SERVER GS_TYPE_MANAGEMENT_SERVICE w = (some resp, w1))
    (hL : peek (resp.drop CT_IU_PREAMBLE_SIZE) 3
      = vendor.length + model.length + release.length + 2)
    (hL8 : vendor.length + model.length + release.length + 2 < 256)
    (hbytes : ((resp.drop CT_IU_PREAMBLE_SIZE).drop 4).take
        (vendor.length + model.length + release.length + 2)
      = vendor ++ 0 :: (model ++ 0 :: release))
    (hv : ∀ b ∈ vendor, b ≠ 0) (hm : ∀ b ∈ model, b ≠ 0) (hr : ∀ b ∈ release, b ≠ 0) :
    get_information_list P display_detail handle name w
      = (some (vendor ++ 0 :: (model ++ 0 :: (release ++ [0]))), w1) ∧
    ice_info_strings (vendor ++ 0 :: (model ++ 0 :: (release ++ [0])))
      = (some vendor, some model, some release) := by
  constructor
  · unfold get_information_list
    rw [hsend]
    simp only [hL, Nat.mod_eq_of_lt hL8, memcpy, hbytes]
    rw [poke_zero_front _ _ (by simp; omega)]
    have hlen : (vendor ++ 0 :: (model ++ 0 :: release)).length
        = vendor.length + model.length + release.length + 2 := by
      simp; omega
    rw [hlen, List.drop_replicate]
    simp
  · have h1 : cstr (vendor ++ 0 :: (model ++ 0 :: (release ++ [0]))) 0 = some vendor :=
      cstr_zero_of_not_mem vendor _ hv
    have h2 : cstr (vendor ++ 0 :: (model ++ 0 :: (release ++ [0]))) (vendor.length + 1)
        = some model := by
      rw [cstr_skip]
      have : cstr (0 :: (model ++ 0 :: (release ++ [0]))) 1
          = cstr (model ++ 0 :: (release ++ [0])) 0 := by
        simp [cstr]
      rw [this]
      exact cstr_zero_of_not_mem model _ hm
    have h3 : cstr (vendor ++ 0 :: (model ++ 0 :: (release ++ [0])))
        (vendor.length + 1 + model.length + 1) = some release := by
      have e1 : vendor.length + 1 + model.length + 1 = vendor.length + (model.length + 2) := by
        omega
      rw [e1, cstr_skip]
      have : cstr (0 :: (model ++ 0 :: (release ++ [0]))) (model.length + 2)
          = cstr (model ++ 0 :: (release ++ [0])) (model.length + 1) := by
        simp [cstr]
      rw [this, cstr_skip]
      have : cstr (0 :: (release ++ [0])) 1 = cstr (release ++ [0]) 0 := by
        simp [cstr]
      rw [this]
      exact cstr_zero_of_not_mem release [] hr
    simp only [ice_info_strings, h1, Option.map_some', Option.some_bind, h2, h3]

/-- C12, amended, at a response whose length byte 9 covers `"IBM" 00 "M1" 00 "R2"`. -/
theorem get_information_list_strings_witness :
    get_information_list (constant_reply Endian.big 0 INFO_IU_LIST_LENGTH) 0 7
        0x100000051e000001 ⟨0, []⟩
      = (some ([73, 66, 77] ++ 0 :: ([77, 49] ++ 0 :: ([82, 50] ++ [0]))),
          ⟨1, [Event.ct_pass_thru 7 (send_ct_pt_req Endian.big 24 272 FCS_RCC_GIEIL
            (host_bytes Endian.big 8 0x100000051e000001) 0x01 0xfa) 272]⟩) ∧
    ice_info_strings ([73, 66, 77] ++ 0 :: ([77, 49] ++ 0 :: ([82, 50] ++ [0])))
      = (some [73, 66, 77], some [77, 49], some [82, 50]) :=
  get_information_list_strings (constant_reply Endian.big 0 INFO_IU_LIST_LENGTH) 0 7
    0x100000051e000001 ⟨0, []⟩ _ (poke (List.replicate 272 0) 0 INFO_IU_LIST_LENGTH)
    [73, 66, 77] [77, 49] [82, 50] rfl (by decide) (by decide) (by decide) (by decide)
    (by decide) (by decide)

/-! ## The reads of the decoders -/

/-- The recording loop computes what the loop of `get_ice_list` computes. -/
theorem get_ice_list_loop_reads_fst (e : Endian) (payload : List Nat) (entries : Nat) :
    ∀ (fuel i offset : Nat) (ice : List interconnect_element) (rd : List Nat),
      (get_ice_list_loop_reads e payload entries fuel i offset ice rd).map Prod.fst
        = get_ice_list_loop e payload entries fuel i offset ice := by
  intro fuel
  induction fuel with
  | zero => intro i offset ice rd; rfl
  | succ fuel ih =>
    intro i offset ice rd
    unfold get_ice_list_loop_reads get_ice_list_loop
    by_cases h : i < entries
    · simp only [h, if_true]; exact ih _ _ _ _
    · simp [h]

/-- The recording loop computes what the loop of `get_port_list` computes. -/
theorem get_port_list_loop_reads_fst (e : Endian) (payload : List Nat) (entries : Nat) :
    ∀ (fuel i offset : Nat) (ple : List port_list_entry) (rd : List Nat),
      (get_port_list_loop_reads e payload entries fuel i offset ple rd).map Prod.fst
        = get_port_list_loop e payload entries fuel i offset ple := by
  intro fuel
  induction fuel with
  | zero => intro i offset ple rd; rfl
  | succ fuel ih =>
    intro i offset ple rd
    unfold get_port_list_loop_reads get_port_list_loop
    by_cases h : i < entries
    · simp only [h, if_true]; exact ih _ _ _ _
    · simp [h]

/-- The recording loop computes what the loop of `get_att_port_list` computes. -/
theorem get_att_port_list_loop_reads_fst (e : Endian) (payload : List Nat) (entries : Nat) :
    ∀ (fuel i offset : Nat) (apn : List att_port_name) (rd : List Nat),
      (get_att_port_list_loop_reads e payload entries fuel i offset apn rd).map Prod.fst
        = get_att_port_list_loop e payload entries fuel i offset apn := by
  intro fuel
  induction fuel with
  | zero => intro i offset apn rd; rfl
  | succ fuel ih =>
    intro i offset apn rd
    unfold get_att_port_list_loop_reads get_att_port_list_loop
    by_cases h : i < entries
    · simp only [h, if_true]; exact ih _ _ _ _
    · simp [h]

theorem mem_field_offsets (off n o : Nat) : o ∈ field_offsets off n ↔ off ≤ o ∧ o < off + n := by
  unfold field_offsets
  simp only [List.mem_map, List.mem_range]
  constructor
  · rintro ⟨i, hi, rfl⟩; omega
  · intro h; exact ⟨o - off, by omega, by omega⟩

/-- The reads of the loop of `get_ice_list` stay below the end of the last
declared entry. -/
theorem get_ice_list_loop_reads_bound (e : Endian) (payload : List Nat) (n : Nat)
    (hn : 4 + 12 * n < 65536) :
    ∀ (fuel i : Nat) (ice : List interconnect_element) (rd : List Nat), i ≤ n → n - i < fuel →
      (∀ o ∈ rd, o < 4 + 12 * n) →
      ∃ r, get_ice_list_loop_reads e payload n fuel i (4 + 12 * i) ice rd = some r ∧
        ∀ o ∈ r.2, o < 4 + 12 * n := by
  intro fuel
  induction fuel with
  | zero => intro i ice rd _ h; omega
  | succ fuel ih =>
    intro i ice rd hi hfuel hrd
    unfold get_ice_list_loop_reads
    by_cases hlt : i < n
    · have h1 : (4 + 12 * i + 11) % 65536 = 4 + 12 * i + 11 := Nat.mod_eq_of_lt (by omega)
      have h2 : (4 + 12 * i + 11 + 1) % 65536 = 4 + 12 * (i + 1) := by
        rw [Nat.mod_eq_of_lt (by omega)]; ring
      have h3 : (i + 1) % 65536 = i + 1 := Nat.mod_eq_of_lt (by omega)
      simp only [hlt, if_true, h1, h2, h3]
      apply ih (i + 1) _ _ (by omega) (by omega)
      intro o ho
      simp only [List.mem_append, List.mem_singleton, mem_field_offsets] at ho
      rcases ho with (ho | ho) | ho
      · exact hrd o ho
      · omega
      · omega
    · simp only [hlt, if_false]
      exact ⟨_, rfl, hrd⟩

/-- The reads of the loop of `get_port_list` stay below the end of the last
declared entry. -/
theorem get_port_list_loop_reads_bound (e : Endian) (payload : List Nat) (n : Nat)
    (hn : 4 + 12 * n < 65536) :
    ∀ (fuel i : Nat) (ple : List port_list_entry) (rd : List Nat), i ≤ n → n - i < fuel →
      (∀ o ∈ rd, o < 4 + 12 * n) →
      ∃ r, get_port_list_loop_reads e payload n fuel i (4 + 12 * i) ple rd = some r ∧
        ∀ o ∈ r.2, o < 4 + 12 * n := by
  intro fuel
  induction fuel with
  | zero => intro i ple rd _ h; omega
  | succ fuel ih =>
    intro i ple rd hi hfuel hrd
    unfold get_port_list_loop_reads
    by_cases hlt : i < n
    · have h1 : (4 + 12 * i + 9) % 65536 = 4 + 12 * i + 9 := Nat.mod_eq_of_lt (by omega)
      have h2 : (4 + 12 * i + 9 + 1) % 65536 = 4 + 12 * i + 10 := Nat.mod_eq_of_lt (by omega)
      have h3 : (4 + 12 * i + 10 + 1) % 65536 = 4 + 12 * i + 11 := Nat.mod_eq_of_lt (by omega)
      have h4 : (4 + 12 * i + 11 + 1) % 65536 = 4 + 12 * (i + 1) := by
        rw [Nat.mod_eq_of_lt (by omega)]; ring
      have h5 : (i + 1) % 65536 = i + 1 := Nat.mod_eq_of_lt (by omega)
      simp only [hlt, if_true, h1, h2, h3, h4, h5]
      apply ih (i + 1) _ _ (by omega) (by omega)
      intro o ho
      simp only [List.mem_append, List.mem_singleton, mem_field_offsets] at ho
      rcases ho with (((ho | ho) | ho) | ho) | ho
      · exact hrd o ho
      · omega
      · omega
      · omega
      · omega
    · simp only [hlt, if_false]
      exact ⟨_, rfl, hrd⟩

/-- The reads of the loop of `get_att_port_list` stay below the end of the last
declared entry. -/
theorem get_att_port_list_loop_reads_bound (e : Endian) (payload : List Nat) (n : Nat)
    (hn : 4 + 12 * n < 65536) :
    ∀ (fuel i : Nat) (apn : List att_port_name) (rd : List Nat), i ≤ n → n - i < fuel →
      (∀ o ∈ rd, o < 4 + 12 * n) →
      ∃ r, get_att_port_list_loop_reads e payload n fuel i (4 + 12 * i) apn rd = some r ∧
        ∀ o ∈ r.2, o < 4 + 12 * n := by
  intro fuel
  induction fuel with
  | zero => intro i apn rd _ h; omega
  | succ fuel ih =>
    intro i apn rd hi hfuel hrd
    unfold get_att_port_list_loop_reads
    by_cases hlt : i < n
    · have h1 : (4 + 12 * i + 10) % 2 ^ 32 = 4 + 12 * i + 10 := Nat.mod_eq_of_lt (by omega)
      have h2 : (4 + 12 * i + 10 + 1) % 2 ^ 32 = 4 + 12 * i + 11 := Nat.mod_eq_of_lt (by omega)
      have h3 : (4 + 12 * i + 11 + 1) % 2 ^ 32 = 4 + 12 * (i + 1) := by
        rw [Nat.mod_eq_of_lt (by omega)]; ring
      have h4 : (i + 1) % 65536 = i + 1 := Nat.mod_eq_of_lt (by omega)
      simp only [hlt, if_true, h1, h2, h3, h4]
      apply ih (i + 1) _ _ (by omega) (by omega)
      intro o ho
      simp only [List.mem_append, List.mem_singleton, mem_field_offsets] at ho
      rcases ho with ((ho | ho) | ho) | ho
      · exact hrd o ho
      · omega
      · omega
      · omega
    · simp only [hlt, if_false]
      exact ⟨_, rfl, hrd⟩

set_option maxRecDepth 100000 in
/-- C13 as stated fails: the decoders trust the count and the length byte.  With
an entry count of 101 the last byte that `get_ice_list` reads is payload offset
1215, past the 1204 payload bytes it asked for, and with a length byte of 255
`get_information_list` reads payload offset 258, past its 256. -/
theorem decoder_reads_counterexample :
    (get_ice_list_reads Endian.big [0, 0, 0, 101]).map (fun r => r.getLast?)
      = some (some 1215) ∧
    (get_information_list_reads [0, 0, 0, 255]).getLast? = some 258 := by
  refine ⟨?_, ?_⟩ <;> rfl

/-- C13, amended. A decoder stays inside the response capacity it requested
whenever the count or length that the payload declares fits that capacity:
`get_ice_list` and `get_att_port_list` read only payload offsets below 1204 when
the entry count `n` has `4 + 12 * n <= 1204`, `get_port_list` only offsets below
6004 when `4 + 12 * n <= 6004`, and `get_information_list` only offsets below 256
when the length byte is at most 252. -/
theorem decoder_reads_within_capacity (e : Endian) (payload : List Nat) :
    (4 + 12 * load e payload 0 4 ≤ 1204 →
      ∃ r, get_ice_list_reads e payload = some r ∧ ∀ o ∈ r, o < 1204) ∧
    (4 + 12 * load e payload 0 4 ≤ 1204 →
      ∃ r, get_att_port_list_reads e payload = some r ∧ ∀ o ∈ r, o < 1204) ∧
    (4 + 12 * load e payload 0 4 ≤ 6004 →
      ∃ r, get_port_list_reads e payload = some r ∧ ∀ o ∈ r, o < 6004) ∧
    (peek payload 3 % 256 ≤ 252 → ∀ o ∈ get_information_list_reads payload, o < 256) := by
  have hhead : ∀ n : Nat, ∀ o ∈ field_offsets 0 4, o < 4 + 12 * n := by
    intro n o ho
    rw [mem_field_offsets] at ho
    omega
  refine ⟨?_, ?_, ?_, ?_⟩
  · intro hn
    obtain ⟨r, hr, hb⟩ := get_ice_list_loop_reads_bound e payload (load e payload 0 4)
      (by omega) UINT16_RANGE 0 (List.replicate (load e payload 0 4) ⟨0, 0⟩) (field_offsets 0 4)
      (by omega) (by unfold UINT16_RANGE; omega) (hhead _)
    refine ⟨r.2, ?_, fun o ho => by have := hb o ho; omega⟩
    unfold get_ice_list_reads
    simp only [Nat.mul_zero, Nat.add_zero] at hr
    rw [hr]; rfl
  · intro hn
    obtain ⟨r, hr, hb⟩ := get_att_port_list_loop_reads_bound e payload (load e payload 0 4)
      (by omega) UINT16_RANGE 0 (List.replicate (load e payload 0 4) ⟨0, 0, 0⟩)
      (field_offsets 0 4) (by omega) (by unfold UINT16_RANGE; omega) (hhead _)
    refine ⟨r.2, ?_, fun o ho => by have := hb o ho; omega⟩
    unfold get_att_port_list_reads
    simp only [Nat.mul_zero, Nat.add_zero] at hr
    rw [hr]; rfl
  · intro hn
    obtain ⟨r, hr, hb⟩ := get_port_list_loop_reads_bound e payload (load e payload 0 4)
      (by omega) UINT16_RANGE 0 (List.replicate (load e payload 0 4) ⟨0, 0, 0, 0⟩)
      (field_offsets 0 4) (by omega) (by unfold UINT16_RANGE; omega) (hhead _)
    refine ⟨r.2, ?_, fun o ho => by have := hb o ho; omega⟩
    unfold get_port_list_reads
    simp only [Nat.mul_zero, Nat.add_zero] at hr
    rw [hr]; rfl
  · intro hL o ho
    unfold get_information_list_reads at ho
    simp only [List.mem_cons, mem_field_offsets] at ho
    omega

/-- C13, amended, at a list payload with two entries. -/
theorem decoder_reads_within_capacity_witness :
    ∃ r, get_ice_list_reads Endian.big (LIST_IU.drop CT_IU_PREAMBLE_SIZE) = some r ∧
      ∀ o ∈ r, o < 1204 :=
  (decoder_reads_within_capacity Endian.big (LIST_IU.drop CT_IU_PREAMBLE_SIZE)).1 (by decide)

/-! ## The topology list -/

theorem find_local_port_eq_find (port_name : Nat) (L : List ice_conn) :
    find_local_port port_name L = L.find? (fun t => t.local_port = port_name) := by
  induction L with
  | nil => rfl
  | cons t L ih =>
    unfold find_local_port
    by_cases h : t.local_port = port_name
    · simp [h]
    · simp [h, ih]

theorem link_lines_domain (d : Nat) (rest : List Event) :
    link_lines (Event.print (Msg.fmt DOMAIN_FORMAT [Arg.num d]) :: rest) = link_lines rest := by
  simp [link_lines]

theorem link_lines_link (a b c : Nat) (rest : List Event) :
    link_lines (Event.print (Msg.fmt LINK_FORMAT [Arg.num a, Arg.num b, Arg.num c]) :: rest)
      = (a, b, c) :: link_lines rest := by
  simp [link_lines]

theorem headed_link_lines_domain (h : Option Nat) (d : Nat) (rest : List Event) :
    headed_link_lines h (Event.print (Msg.fmt DOMAIN_FORMAT [Arg.num d]) :: rest)
      = headed_link_lines (some d) rest := by
  simp [headed_link_lines]

theorem headed_link_lines_link (h : Option Nat) (a b c : Nat) (rest : List Event) :
    headed_link_lines h
        (Event.print (Msg.fmt LINK_FORMAT [Arg.num a, Arg.num b, Arg.num c]) :: rest)
      = (h, a, b, c) :: headed_link_lines h rest := by
  simp [headed_link_lines]

/-- What the loop of `print_topology` adds to the trace. -/
theorem print_topology_loop_spec {σ : Type} (ic : List ice_conn) :
    ∀ (rest : List ice_conn) (d : Nat) (w : World σ),
      ∃ evs, (print_topology_loop ic rest d w).trace = w.trace ++ evs ∧
        link_lines evs = rest.filterMap (fun e =>
          (find_local_port e.port_name ic).map (fun t => (e.ppn, t.ppn, t.domain_id))) ∧
        ((∀ e ∈ rest, e.domain_id < 0xff) →
          ∀ h : Option Nat, (h = none ∧ d = 0xff) ∨ (h = some d ∧ d < 0xff) →
            headed_link_lines h evs = rest.filterMap (fun e =>
              (find_local_port e.port_name ic).map
                (fun t => (some e.domain_id, e.ppn, t.ppn, t.domain_id)))) := by
  intro rest
  induction rest with
  | nil => intro d w; exact ⟨[], by simp [print_topology_loop], rfl, fun _ _ _ => rfl⟩
  | cons e rest ih =>
    intro d w
    unfold print_topology_loop
    cases hf : find_local_port e.port_name ic with
    | none =>
      obtain ⟨evs, ht, hl, hh⟩ := ih d w
      refine ⟨evs, ht, ?_, ?_⟩
      · simp [hl, hf]
      · intro hdom h hd
        rw [hh (fun x hx => hdom x (by simp [hx])) h hd]
        simp [hf]
    | some t =>
      simp only []
      by_cases hne : d ≠ e.domain_id
      · obtain ⟨evs, ht, hl, hh⟩ := ih (e.domain_id % 256)
          ((w.printf (Msg.fmt DOMAIN_FORMAT [Arg.num e.domain_id])).printf
            (Msg.fmt LINK_FORMAT [Arg.num e.ppn, Arg.num t.ppn, Arg.num t.domain_id]))
        refine ⟨Event.print (Msg.fmt DOMAIN_FORMAT [Arg.num e.domain_id]) ::
          Event.print (Msg.fmt LINK_FORMAT [Arg.num e.ppn, Arg.num t.ppn, Arg.num t.domain_id])
            :: evs, ?_, ?_, ?_⟩
        · rw [if_pos hne, ht]; simp [World.printf]
        · rw [link_lines_domain, link_lines_link, hl]; simp [hf]
        · intro hdom h _
          have he : e.domain_id < 0xff := hdom e (by simp)
          rw [headed_link_lines_domain, headed_link_lines_link,
            hh (fun x hx => hdom x (by simp [hx])) (some e.domain_id)
              (Or.inr ⟨by rw [Nat.mod_eq_of_lt (by omega)], by omega⟩)]
          simp [hf]
      · have heq : d = e.domain_id := by omega
        obtain ⟨evs, ht, hl, hh⟩ := ih (e.domain_id % 256)
          (w.printf (Msg.fmt LINK_FORMAT [Arg.num e.ppn, Arg.num t.ppn, Arg.num t.domain_id]))
        refine ⟨Event.print (Msg.fmt LINK_FORMAT
          [Arg.num e.ppn, Arg.num t.ppn, Arg.num t.domain_id]) :: evs, ?_, ?_, ?_⟩
        · rw [if_neg hne, ht]; simp [World.printf]
        · rw [link_lines_link, hl]; simp [hf]
        · intro hdom h hd
          have he : e.domain_id < 0xff := hdom e (by simp)
          have hh' : h = some e.domain_id := by
            rcases hd with ⟨_, h255⟩ | ⟨hs, _⟩
            · omega
            · rw [hs, heq]
          subst hh'
          rw [headed_link_lines_link,
            hh (fun x hx => hdom x (by simp [hx])) (some e.domain_id)
              (Or.inr ⟨by rw [Nat.mod_eq_of_lt (by omega)], by omega⟩)]
          simp [hf]

/-- An edge without a partner adds nothing to the output of `print_topology`. -/
theorem print_topology_loop_skip {σ : Type} (ic : List ice_conn) (e : ice_conn)
    (rest : List ice_conn) (d : Nat) (w : World σ)
    (h : ∀ t ∈ ic, t.local_port ≠ e.port_name) :
    print_topology_loop ic (e :: rest) d w = print_topology_loop ic rest d w := by
  have hf : find_local_port e.port_name ic = none := by
    rw [find_local_port_eq_find, List.find?_eq_none]
    intro t ht
    simpa using h t ht
  rw [print_topology_loop, hf]

/-- C14 as stated fails: with an edge of domain 0xff first, its link line is
printed without any domain line before it, so the output does not pair the link
with the domain of its edge. -/
theorem print_topology_domain_counterexample :
    (print_topology [⟨0xff, 5, 2, 1⟩, ⟨2, 7, 1, 2⟩] (⟨0, []⟩ : World Nat)).trace
      = [Event.print (Msg.fmt LINK_FORMAT [Arg.num 5, Arg.num 7, Arg.num 2]),
          Event.print (Msg.fmt DOMAIN_FORMAT [Arg.num 2]),
          Event.print (Msg.fmt LINK_FORMAT [Arg.num 7, Arg.num 5, Arg.num 0xff])] ∧
    headed_link_lines none
        (print_topology [⟨0xff, 5, 2, 1⟩, ⟨2, 7, 1, 2⟩] (⟨0, []⟩ : World Nat)).trace
      = [(none, 5, 7, 2), (some 2, 7, 5, 0xff)] := by
  refine ⟨?_, ?_⟩ <;> rfl

/-- C14, amended. For every edge list `L`, `print_topology` prints a link line
for an edge `e` exactly when `L` has an edge `t` with
`t.local_port = e.port_name`; the link lines come in the list order of `e`, each
giving `e.ppn` with `t.ppn` and `t.domain_id` of the first such `t`; an edge
without such a `t` adds nothing to the output.  The domain of `e` is given by
the domain line in force: when all domain ids are below 0xff, every link line
stands under the domain line of `e.domain_id`. -/
theorem print_topology_links {σ : Type} (L : List ice_conn) (w : World σ) :
    ∃ evs, (print_topology L w).trace = w.trace ++ evs ∧
      link_lines evs
        = (topology_links L).map (fun p => (p.1.ppn, p.2.ppn, p.2.domain_id)) ∧
      ((∀ e ∈ L, e.domain_id < 0xff) →
        headed_link_lines none evs = (topology_links L).map
          (fun p => (some p.1.domain_id, p.1.ppn, p.2.ppn, p.2.domain_id))) ∧
      (∀ (e : ice_conn) (rest : List ice_conn) (d : Nat) (v : World σ),
        (∀ t ∈ L, t.local_port ≠ e.port_name) →
        print_topology_loop L (e :: rest) d v = print_topology_loop L rest d v) := by
  obtain ⟨evs, ht, hl, hh⟩ := print_topology_loop_spec L L 0xff w
  refine ⟨evs, ht, ?_, ?_, ?_⟩
  · rw [hl]
    simp only [topology_links, List.map_filterMap, Option.map_map, find_local_port_eq_find]
    rfl
  · intro hdom
    rw [hh hdom none (Or.inl ⟨rfl, rfl⟩)]
    simp only [topology_links, List.map_filterMap, Option.map_map, find_local_port_eq_find]
    rfl
  · intro e rest d v h
    exact print_topology_loop_skip L e rest d v h

/-- C14, amended, at two edges that are attached to each other. -/
theorem print_topology_links_witness :
    headed_link_lines none
        [Event.print (Msg.fmt DOMAIN_FORMAT [Arg.num 1]),
          Event.print (Msg.fmt LINK_FORMAT [Arg.num 5, Arg.num 7, Arg.num 2]),
          Event.print (Msg.fmt DOMAIN_FORMAT [Arg.num 2]),
          Event.print (Msg.fmt LINK_FORMAT [Arg.num 7, Arg.num 5, Arg.num 1])]
      = (topology_links [⟨1, 5, 2, 1⟩, ⟨2, 7, 1, 2⟩]).map
          (fun p => (some p.1.domain_id, p.1.ppn, p.2.ppn, p.2.domain_id)) := by
  obtain ⟨evs, ht, _, hh, _⟩ :=
    print_topology_links [⟨1, 5, 2, 1⟩, ⟨2, 7, 1, 2⟩] (⟨0, []⟩ : World Nat)
  have hevs : evs = [Event.print (Msg.fmt DOMAIN_FORMAT [Arg.num 1]),
      Event.print (Msg.fmt LINK_FORMAT [Arg.num 5, Arg.num 7, Arg.num 2]),
      Event.print (Msg.fmt DOMAIN_FORMAT [Arg.num 2]),
      Event.print (Msg.fmt LINK_FORMAT [Arg.num 7, Arg.num 5, Arg.num 1])] := by
    have h2 : (print_topology [⟨1, 5, 2, 1⟩, ⟨2, 7, 1, 2⟩] (⟨0, []⟩ : World Nat)).trace
        = [Event.print (Msg.fmt DOMAIN_FORMAT [Arg.num 1]),
          Event.print (Msg.fmt LINK_FORMAT [Arg.num 5, Arg.num 7, Arg.num 2]),
          Event.print (Msg.fmt DOMAIN_FORMAT [Arg.num 2]),
          Event.print (Msg.fmt LINK_FORMAT [Arg.num 7, Arg.num 5, Arg.num 1])] := rfl
    rw [h2] at ht
    simpa using ht.symm
  rw [← hevs]
  exact hh (by decide)

/-- C15 as stated fails: for the two edges A and B (here with Pa = 1, Pb = 2)
`print_topology` prints two link lines, one from each end of the link. -/
theorem print_topology_two_edges_counterexample :
    link_lines (print_topology [⟨1, 5, 2, 1⟩, ⟨2, 7, 1, 2⟩] (⟨0, []⟩ : World Nat)).trace
      = [(5, 7, 2), (7, 5, 1)] := by
  rfl

/-- C15, amended. For the two-edge topology A = (domain 1, ppn 5, attached port
Pb, local port Pa) and B = (domain 2, ppn 7, attached port Pa, local port Pb)
with Pa and Pb different, `print_topology` prints exactly two links, each under
its domain line: domain 1 port 5 to port 7 of domain 2, then domain 2 port 7 to
port 5 of domain 1. -/
theorem print_topology_two_edges {σ : Type} (Pa Pb : Nat) (w : World σ) (hne : Pa ≠ Pb) :
    (print_topology [⟨1, 5, Pb, Pa⟩, ⟨2, 7, Pa, Pb⟩] w).trace = w.trace ++
      [Event.print (Msg.fmt DOMAIN_FORMAT [Arg.num 1]),
        Event.print (Msg.fmt LINK_FORMAT [Arg.num 5, Arg.num 7, Arg.num 2]),
        Event.print (Msg.fmt DOMAIN_FORMAT [Arg.num 2]),
        Event.print (Msg.fmt LINK_FORMAT [Arg.num 7, Arg.num 5, Arg.num 1])] := by
  simp [print_topology, print_topology_loop, find_local_port, hne, World.printf]

/-- C15, amended, at Pa = 1 and Pb = 2. -/
theorem print_topology_two_edges_witness :
    (print_topology [⟨1, 5, 2, 1⟩, ⟨2, 7, 1, 2⟩] (⟨0, []⟩ : World Nat)).trace = [] ++
      [Event.print (Msg.fmt DOMAIN_FORMAT [Arg.num 1]),
        Event.print (Msg.fmt LINK_FORMAT [Arg.num 5, Arg.num 7, Arg.num 2]),
        Event.print (Msg.fmt DOMAIN_FORMAT [Arg.num 2]),
        Event.print (Msg.fmt LINK_FORMAT [Arg.num 7, Arg.num 5, Arg.num 1])] :=
  print_topology_two_edges 1 2 ⟨0, []⟩ (by decide)

theorem append_tail_eq (icc_new : ice_conn) (l : List ice_conn) :
    append_tail icc_new l = l ++ [icc_new] := by
  induction l with
  | nil => rfl
  | cons a l ih => simp [append_tail, ih]

/-- C16. `gen_topology` returns the list unchanged when the port type of the
port-list entry is not E_Port (0x84); when it is E_Port (the attached-port
pointer being valid, allocation succeeding) it returns the list with one node
appended at the tail that holds the domain id, the ppn, the attached port's name
as port_name and the port-list entry's name as local_port; for the empty list
that is the one-node list. -/
theorem gen_topology_appends (icc_start : List ice_conn) (domain_id ppn : Nat)
    (apn : att_port_name) (ple : port_list_entry) :
    (ple.port_type ≠ E_PORT →
      ∀ a : Option att_port_name,
        gen_topology icc_start domain_id ppn a ple = some icc_start) ∧
    (ple.port_type = E_PORT →
      gen_topology icc_start domain_id ppn (some apn) ple
        = some (icc_start ++ [⟨domain_id, ppn, apn.port_name, ple.port_name⟩]) ∧
      gen_topology [] domain_id ppn (some apn) ple
        = some [⟨domain_id, ppn, apn.port_name, ple.port_name⟩]) := by
  constructor
  · intro h a
    simp [gen_topology, h]
  · intro h
    constructor
    · unfold gen_topology
      by_cases hs : icc_start = []
      · simp [h, hs]
      · simp [h, hs, append_tail_eq]
    · simp [gen_topology, h]

/-- C16, at an E_Port appended to a one-node list. -/
theorem gen_topology_appends_witness :
    gen_topology [⟨1, 5, 2, 1⟩] 2 7 (some ⟨1, 0, 0x84⟩) ⟨2, 8, 3, 0x84⟩
        = some ([⟨1, 5, 2, 1⟩] ++ [⟨2, 7, 1, 2⟩]) ∧
      gen_topology [] 2 7 (some ⟨1, 0, 0x84⟩) ⟨2, 8, 3, 0x84⟩ = some [⟨2, 7, 1, 2⟩] :=
  (gen_topology_appends [⟨1, 5, 2, 1⟩] 2 7 ⟨1, 0, 0x84⟩ ⟨2, 8, 3, 0x84⟩).2 (by decide)

/-! ## show_ns_info -/

theorem ns_entries_append (a b : List Event) :
    ns_entries (a ++ b) = ns_entries a ++ ns_entries b := by
  simp [ns_entries, List.filterMap_append]

theorem send_ct_pt_ns_entries {σ : Type} (P : Platform σ) (display_detail : Nat)
    (handle req_s resp_s cmd : Nat) (c_param : List Nat) (gs_subtype gs_type : Nat)
    (w : World σ) :
    ns_entries (send_ct_pt P display_detail handle req_s resp_s cmd c_param gs_subtype gs_type
      w).2.trace = ns_entries w.trace := by
  rw [send_ct_pt_trace_eq, ns_entries_append]
  split_ifs <;> simp [ns_entries, ns_entry]

/-- One iteration of the loop of `show_ns_info` that prints an entry. -/
theorem show_ns_info_loop_entry {σ : Type} (P : Platform σ)
    (display_detail handle value fuel tmp port_id : Nat) (w w1 : World σ) (resp : List Nat)
    (hsend : send_ct P display_detail handle (CT_IU_PREAMBLE_SIZE + 4)
      (CT_IU_PREAMBLE_SIZE + 640) NS_RCC_GA_NXT (host_bytes P.endian 4 port_id)
      SUBTYPE_NAME_SERVER GS_TYPE_DIRECTORY_SERVICE w = (some resp, w1))
    (hatt : display_detail &&& ATTACHMENT = 0)
    (hne : (if tmp = 0 then port_id else tmp)
      ≠ load P.endian (resp.drop CT_IU_PREAMBLE_SIZE) 1 4 / 256) :
    ∃ w3, show_ns_info_loop P display_detail handle value (fuel + 1) tmp port_id w
        = show_ns_info_loop P display_detail handle value fuel
            (if tmp = 0 then port_id else tmp)
            (load P.endian (resp.drop CT_IU_PREAMBLE_SIZE) 1 4 / 256) w3 ∧
      calls w3.trace = calls w1.trace ∧
      ns_entries w3.trace = ns_entries w1.trace
        ++ [load P.endian (resp.drop CT_IU_PREAMBLE_SIZE) 1 4 / 256] := by
  rw [show_ns_info_loop, hsend]
  simp only [hne, if_false, hatt, ne_eq, not_true_eq_false, false_and]
  refine ⟨_, rfl, ?_, ?_⟩
  · split_ifs <;> simp [World.printf, calls_append, calls]
  · split_ifs <;> simp [World.printf, ns_entries, ns_entry]

/-- One iteration of the loop of `show_ns_info` that sees the port id `tmp` again. -/
theorem show_ns_info_loop_stop {σ : Type} (P : Platform σ)
    (display_detail handle value fuel tmp port_id : Nat) (w w1 : World σ) (resp : List Nat)
    (hsend : send_ct P display_detail handle (CT_IU_PREAMBLE_SIZE + 4)
      (CT_IU_PREAMBLE_SIZE + 640) NS_RCC_GA_NXT (host_bytes P.endian 4 port_id)
      SUBTYPE_NAME_SERVER GS_TYPE_DIRECTORY_SERVICE w = (some resp, w1))
    (heq : (if tmp = 0 then port_id else tmp)
      = load P.endian (resp.drop CT_IU_PREAMBLE_SIZE) 1 4 / 256) :
    show_ns_info_loop P display_detail handle value (fuel + 1) tmp port_id w = some w1 := by
  rw [show_ns_info_loop, hsend]
  simp only [heq, if_true]

set_option maxRecDepth 100000 in
/-- C17 as stated fails: on a name server that returns the port ids 100, 200,
100 the loop of `show_ns_info` ends with its third call and has printed two
entries, 100 and 200. -/
theorem show_ns_info_counterexample :
    (show_ns_info name_server 0xff 7 0 3 ⟨0, []⟩).map
      (fun w => (calls w.trace, ns_entries w.trace)) = some (3, [100, 200]) := by
  rfl

/-- C17, amended. On a name server whose get-next is accepted and returns port
id 100 after 0, 200 after 100 and 100 after 200, with no attachment filter, the
loop of `show_ns_info` ends with the third call, on which the first port id
comes back, and has printed exactly two entries, 100 and 200. -/
theorem show_ns_info_wraparound {σ : Type} (P : Platform σ)
    (display_detail handle value fuel : Nat) (w : World σ)
    (hatt : display_detail &&& ATTACHMENT = 0) (hfuel : 3 ≤ fuel)
    (h0 : ∀ v : World σ, ∃ resp v1,
      send_ct_pt P display_detail handle (CT_IU_PREAMBLE_SIZE + 4) (CT_IU_PREAMBLE_SIZE + 640)
        NS_RCC_GA_NXT (host_bytes P.endian 4 0) SUBTYPE_NAME_SERVER GS_TYPE_DIRECTORY_SERVICE v
        = (some resp, v1) ∧
      load P.endian resp CT_IU_CODE_OFFSET 2 = GS_ACCEPT_RESPONSE_CT_IU ∧
      load P.endian (resp.drop CT_IU_PREAMBLE_SIZE) 1 4 / 256 = 100)
    (h100 : ∀ v : World σ, ∃ resp v1,
      send_ct_pt P display_detail handle (CT_IU_PREAMBLE_SIZE + 4) (CT_IU_PREAMBLE_SIZE + 640)
        NS_RCC_GA_NXT (host_bytes P.endian 4 100) SUBTYPE_NAME_SERVER
        GS_TYPE_DIRECTORY_SERVICE v = (some resp, v1) ∧
      load P.endian resp CT_IU_CODE_OFFSET 2 = GS_ACCEPT_RESPONSE_CT_IU ∧
      load P.endian (resp.drop CT_IU_PREAMBLE_SIZE) 1 4 / 256 = 200)
    (h200 : ∀ v : World σ, ∃ resp v1,
      send_ct_pt P display_detail handle (CT_IU_PREAMBLE_SIZE + 4) (CT_IU_PREAMBLE_SIZE + 640)
        NS_RCC_GA_NXT (host_bytes P.endian 4 200) SUBTYPE_NAME_SERVER
        GS_TYPE_DIRECTORY_SERVICE v = (some resp, v1) ∧
      load P.endian resp CT_IU_CODE_OFFSET 2 = GS_ACCEPT_RESPONSE_CT_IU ∧
      load P.endian (resp.drop CT_IU_PREAMBLE_SIZE) 1 4 / 256 = 100) :
    ∃ w1, show_ns_info P display_detail handle value fuel w = some w1 ∧
      calls w1.trace = calls w.trace + 3 ∧
      ns_entries w1.trace = ns_entries w.trace ++ [100, 200] := by
  obtain ⟨f, rfl⟩ : ∃ f, fuel = f + 1 + 1 + 1 := ⟨fuel - 3, by omega⟩
  unfold show_ns_info
  generalize hw0 : w.printf (Msg.text "\nLocal Port List:\n") = w0
  have hw0c : calls w0.trace = calls w.trace := by
    rw [← hw0]; simp [World.printf, calls_append, calls]
  have hw0e : ns_entries w0.trace = ns_entries w.trace := by
    rw [← hw0]; simp [World.printf, ns_entries, ns_entry]
  -- first call: after 0 comes 100
  obtain ⟨r1, v1, hp1, ha1, hid1⟩ := h0 w0
  have hs1 := send_ct_loop_accept P display_detail handle (CT_IU_PREAMBLE_SIZE + 4)
    (CT_IU_PREAMBLE_SIZE + 640) NS_RCC_GA_NXT (host_bytes P.endian 4 0) SUBTYPE_NAME_SERVER
    GS_TYPE_DIRECTORY_SERVICE 2 w0 v1 r1 hp1 ha1
  have hc1 := send_ct_pt_calls P display_detail handle (CT_IU_PREAMBLE_SIZE + 4)
    (CT_IU_PREAMBLE_SIZE + 640) NS_RCC_GA_NXT (host_bytes P.endian 4 0) SUBTYPE_NAME_SERVER
    GS_TYPE_DIRECTORY_SERVICE w0
  have he1 := send_ct_pt_ns_entries P display_detail handle (CT_IU_PREAMBLE_SIZE + 4)
    (CT_IU_PREAMBLE_SIZE + 640) NS_RCC_GA_NXT (host_bytes P.endian 4 0) SUBTYPE_NAME_SERVER
    GS_TYPE_DIRECTORY_SERVICE w0
  rw [hp1] at hc1 he1
  obtain ⟨w3, hl1, hc3, he3⟩ := show_ns_info_loop_entry P display_detail handle value
    (f + 1 + 1) 0 0 w0 v1 r1 hs1 hatt (by rw [hid1]; decide)
  rw [hl1, hid1]
  simp only [if_true]
  -- second call: after 100 comes 200
  obtain ⟨r2, v2, hp2, ha2, hid2⟩ := h100 w3
  have hs2 := send_ct_loop_accept P display_detail handle (CT_IU_PREAMBLE_SIZE + 4)
    (CT_IU_PREAMBLE_SIZE + 640) NS_RCC_GA_NXT (host_bytes P.endian 4 100) SUBTYPE_NAME_SERVER
    GS_TYPE_DIRECTORY_SERVICE 2 w3 v2 r2 hp2 ha2
  have hc2 := send_ct_pt_calls P display_detail handle (CT_IU_PREAMBLE_SIZE + 4)
    (CT_IU_PREAMBLE_SIZE + 640) NS_RCC_GA_NXT (host_bytes P.endian 4 100) SUBTYPE_NAME_SERVER
    GS_TYPE_DIRECTORY_SERVICE w3
  have he2 := send_ct_pt_ns_entries P display_detail handle (CT_IU_PREAMBLE_SIZE + 4)
    (CT_IU_PREAMBLE_SIZE + 640) NS_RCC_GA_NXT (host_bytes P.endian 4 100) SUBTYPE_NAME_SERVER
    GS_TYPE_DIRECTORY_SERVICE w3
  rw [hp2] at hc2 he2
  obtain ⟨w5, hl2, hc5, he5⟩ := show_ns_info_loop_entry P display_detail handle value
    (f + 1) 0 100 w3 v2 r2 hs2 hatt (by rw [hid2]; decide)
  rw [hl2, hid2]
  simp only [if_true]
  -- third call: after 200 comes 100 again
  obtain ⟨r3, v3, hp3, ha3, hid3⟩ := h200 w5
  have hs3 := send_ct_loop_accept P display_detail handle (CT_IU_PREAMBLE_SIZE + 4)
    (CT_IU_PREAMBLE_SIZE + 640) NS_RCC_GA_NXT (host_bytes P.endian 4 200) SUBTYPE_NAME_SERVER
    GS_TYPE_DIRECTORY_SERVICE 2 w5 v3 r3 hp3 ha3
  have hc3' := send_ct_pt_calls P display_detail handle (CT_IU_PREAMBLE_SIZE + 4)
    (CT_IU_PREAMBLE_SIZE + 640) NS_RCC_GA_NXT (host_bytes P.endian 4 200) SUBTYPE_NAME_SERVER
    GS_TYPE_DIRECTORY_SERVICE w5
  have he3' := send_ct_pt_ns_entries P display_detail handle (CT_IU_PREAMBLE_SIZE + 4)
    (CT_IU_PREAMBLE_SIZE + 640) NS_RCC_GA_NXT (host_bytes P.endian 4 200) SUBTYPE_NAME_SERVER
    GS_TYPE_DIRECTORY_SERVICE w5
  rw [hp3] at hc3' he3'
  rw [show_ns_info_loop_stop P display_detail handle value f 100 200 w5 v3 r3 hs3
    (by rw [hid3]; decide)]
  refine ⟨v3, rfl, ?_, ?_⟩
  · simp only at hc1 hc2 hc3'
    omega
  · simp only at he1 he2 he3'
    rw [he3', he5, hid2, he2, he3, hid1, he1, hw0e]
    simp

set_option maxRecDepth 100000 in
/-- C17, amended, at the name server with the ports 100 and 200. -/
theorem show_ns_info_wraparound_witness :
    ∃ w1, show_ns_info name_server 0xff 7 0 3 ⟨0, []⟩ = some w1 ∧
      calls w1.trace = calls [] + 3 ∧
      ns_entries w1.trace = ns_entries [] ++ [100, 200] :=
  show_ns_info_wraparound name_server 0xff 7 0 3 ⟨0, []⟩ (by decide) (by decide)
    (fun _ => ⟨poke (List.replicate 656 0) 0 (GA_NXT_IU 1 100), _, rfl, by decide, by decide⟩)
    (fun _ => ⟨poke (List.replicate 656 0) 0 (GA_NXT_IU 1 200), _, rfl, by decide, by decide⟩)
    (fun _ => ⟨poke (List.replicate 656 0) 0 (GA_NXT_IU 1 100), _, rfl, by decide, by decide⟩)


/-! ## Display filters and the CT queries of do_something -/

theorem queries_append (a b : List Event) : queries (a ++ b) = queries a ++ queries b := by
  simp [queries, List.filter_append]

theorem same_queries_refl {σ : Type} (w : World σ) : same_queries w w := ⟨rfl, rfl⟩

theorem same_queries_symm {σ : Type} {w v : World σ} (h : same_queries w v) :
    same_queries v w := ⟨h.1.symm, h.2.symm⟩

theorem same_queries_trans {σ : Type} {w v u : World σ} (h : same_queries w v)
    (h2 : same_queries v u) : same_queries w u := ⟨h.1.trans h2.1, h.2.trans h2.2⟩

theorem same_queries_printf {σ : Type} (m : Msg) (w : World σ) :
    same_queries (w.printf m) w := by
  refine ⟨rfl, ?_⟩
  simp [World.printf, queries_append, queries]

theorem same_queries_sleep {σ : Type} (P : Platform σ) (n : Nat) {w v : World σ}
    (h : same_queries w v) : same_queries (w.sleep P n) (v.sleep P n) := by
  refine ⟨?_, ?_⟩
  · simp [World.sleep, h.1]
  · have h2 := h.2
    simp only [World.sleep, queries_append, h2]

theorem same_queries_print_error_statement {σ : Type} (w : World σ) :
    same_queries (print_error_statement w) w :=
  same_queries_trans (same_queries_printf _ _) (same_queries_printf _ _)

/-- The result of `send_ct_pt` and the queries issued do not depend on
`display_detail` nor on what was printed before. -/
theorem send_ct_pt_same_queries {σ : Type} (P : Platform σ) (dd dd2 : Nat)
    (handle req_s resp_s cmd : Nat) (c_param : List Nat) (gs_subtype gs_type : Nat)
    {w v : World σ} (h : same_queries w v) :
    (send_ct_pt P dd handle req_s resp_s cmd c_param gs_subtype gs_type w).1
      = (send_ct_pt P dd2 handle req_s resp_s cmd c_param gs_subtype gs_type v).1 ∧
    same_queries (send_ct_pt P dd handle req_s resp_s cmd c_param gs_subtype gs_type w).2
      (send_ct_pt P dd2 handle req_s resp_s cmd c_param gs_subtype gs_type v).2 := by
  obtain ⟨hst, hq⟩ := h
  refine ⟨?_, ?_, ?_⟩
  · simp only [send_ct_pt, hst]
  · simp only [send_ct_pt, hst]
    split_ifs <;> rfl
  · rw [send_ct_pt_trace_eq, send_ct_pt_trace_eq, queries_append, queries_append, hq]
    congr 1
    split_ifs <;> simp [queries]

/-- The result of the loop of `send_ct` and the queries issued do not depend on
`display_detail` nor on what was printed before. -/
theorem send_ct_loop_same_queries {σ : Type} (P : Platform σ) (dd dd2 : Nat)
    (handle req_s resp_s cmd : Nat) (c_param : List Nat) (gs_subtype gs_type : Nat) :
    ∀ (retries : Nat) (w v : World σ), same_queries w v →
      (send_ct_loop P dd handle req_s resp_s cmd c_param gs_subtype gs_type retries w).1
        = (send_ct_loop P dd2 handle req_s resp_s cmd c_param gs_subtype gs_type retries v).1 ∧
      same_queries
        (send_ct_loop P dd handle req_s resp_s cmd c_param gs_subtype gs_type retries w).2
        (send_ct_loop P dd2 handle req_s resp_s cmd c_param gs_subtype gs_type retries v).2 := by
  intro retries
  induction retries with
  | zero => intro w v h; exact ⟨rfl, h⟩
  | succ r ih =>
    intro w v h
    have hpt := send_ct_pt_same_queries P dd dd2 handle req_s resp_s cmd c_param gs_subtype
      gs_type h
    rw [send_ct_loop, send_ct_loop]
    rcases h1 : send_ct_pt P dd handle req_s resp_s cmd c_param gs_subtype gs_type w
      with ⟨o1, w1⟩
    rcases h2 : send_ct_pt P dd2 handle req_s resp_s cmd c_param gs_subtype gs_type v
      with ⟨o2, v1⟩
    rw [h1, h2] at hpt
    obtain ⟨ho, hsq⟩ := hpt
    simp only at ho hsq
    subst ho
    cases o1 with
    | none => exact ih _ _ (same_queries_sleep P 1 hsq)
    | some resp =>
      simp only []
      split_ifs with ha hr h0
      · exact ⟨rfl, hsq⟩
      · exact ih _ _ hsq
      · exact ih _ _ (same_queries_trans (same_queries_print_error_statement w1)
          (same_queries_trans hsq (same_queries_symm (same_queries_print_error_statement v1))))
      · exact ih _ _ (same_queries_sleep P 1 hsq)

theorem send_ct_same_queries {σ : Type} (P : Platform σ) (dd dd2 : Nat)
    (handle req_s resp_s cmd : Nat) (c_param : List Nat) (gs_subtype gs_type : Nat)
    {w v : World σ} (h : same_queries w v) :
    (send_ct P dd handle req_s resp_s cmd c_param gs_subtype gs_type w).1
      = (send_ct P dd2 handle req_s resp_s cmd c_param gs_subtype gs_type v).1 ∧
    same_queries (send_ct P dd handle req_s resp_s cmd c_param gs_subtype gs_type w).2
      (send_ct P dd2 handle req_s resp_s cmd c_param gs_subtype gs_type v).2 :=
  send_ct_loop_same_queries P dd dd2 handle req_s resp_s cmd c_param gs_subtype gs_type 3 w v h

/-- The value of `get_domain_id` and the queries issued do not depend on
`display_detail` nor on what was printed before. -/
theorem get_domain_id_same_queries {σ : Type} (P : Platform σ) (dd dd2 handle icep_name : Nat)
    {w v : World σ} (h : same_queries w v) :
    (get_domain_id P dd handle icep_name w).1 = (get_domain_id P dd2 handle icep_name v).1 ∧
    same_queries (get_domain_id P dd handle icep_name w).2 (get_domain_id P dd2 handle icep_name v).2 := by
  have hs := send_ct_same_queries P dd dd2 handle (CT_IU_PREAMBLE_SIZE + 8) (CT_IU_PREAMBLE_SIZE + 4)
      FCS_RCC_GDID (host_bytes P.endian 8 icep_name) SUBTYPE_FABRIC_CONFIGURATION_SERVER
      GS_TYPE_MANAGEMENT_SERVICE h
  unfold get_domain_id
  rcases h1 : send_ct P dd handle (CT_IU_PREAMBLE_SIZE + 8) (CT_IU_PREAMBLE_SIZE + 4)
      FCS_RCC_GDID (host_bytes P.endian 8 icep_name) SUBTYPE_FABRIC_CONFIGURATION_SERVER
      GS_TYPE_MANAGEMENT_SERVICE w with ⟨o1, w1⟩
  rcases h2 : send_ct P dd2 handle (CT_IU_PREAMBLE_SIZE + 8) (CT_IU_PREAMBLE_SIZE + 4)
      FCS_RCC_GDID (host_bytes P.endian 8 icep_name) SUBTYPE_FABRIC_CONFIGURATION_SERVER
      GS_TYPE_MANAGEMENT_SERVICE v with ⟨o2, v1⟩
  rw [h1, h2] at hs
  obtain ⟨ho, hsq⟩ := hs
  simp only at ho hsq
  subst ho
  cases o1 <;> exact ⟨rfl, hsq⟩

/-- The value of `get_port_state` and the queries issued do not depend on
`display_detail` nor on what was printed before. -/
theorem get_port_state_same_queries {σ : Type} (P : Platform σ) (dd dd2 handle port_name : Nat)
    {w v : World σ} (h : same_queries w v) :
    (get_port_state P dd handle port_name w).1 = (get_port_state P dd2 handle port_name v).1 ∧
    same_queries (get_port_state P dd handle port_name w).2 (get_port_state P dd2 handle port_name v).2 := by
  have hs := send_ct_same_queries P dd dd2 handle (CT_IU_PREAMBLE_SIZE + 8) (CT_IU_PREAMBLE_SIZE + 8)
      FCS_RCC_GPS (host_bytes P.endian 8 port_name) SUBTYPE_FABRIC_CONFIGURATION_SERVER
      GS_TYPE_MANAGEMENT_SERVICE h
  unfold get_port_state
  rcases h1 : send_ct P dd handle (CT_IU_PREAMBLE_SIZE + 8) (CT_IU_PREAMBLE_SIZE + 8)
      FCS_RCC_GPS (host_bytes P.endian 8 port_name) SUBTYPE_FABRIC_CONFIGURATION_SERVER
      GS_TYPE_MANAGEMENT_SERVICE w with ⟨o1, w1⟩
  rcases h2 : send_ct P dd2 handle (CT_IU_PREAMBLE_SIZE + 8) (CT_IU_PREAMBLE_SIZE + 8)
      FCS_RCC_GPS (host_bytes P.endian 8 port_name) SUBTYPE_FABRIC_CONFIGURATION_SERVER
      GS_TYPE_MANAGEMENT_SERVICE v with ⟨o2, v1⟩
  rw [h1, h2] at hs
  obtain ⟨ho, hsq⟩ := hs
  simp only at ho hsq
  subst ho
  cases o1 <;> exact ⟨rfl, hsq⟩

/-- The value of `get_ppn` and the queries issued do not depend on
`display_detail` nor on what was printed before. -/
theorem get_ppn_same_queries {σ : Type} (P : Platform σ) (dd dd2 handle port_name : Nat)
    {w v : World σ} (h : same_queries w v) :
    (get_ppn P dd handle port_name w).1 = (get_ppn P dd2 handle port_name v).1 ∧
    same_queries (get_ppn P dd handle port_name w).2 (get_ppn P dd2 handle port_name v).2 := by
  have hs := send_ct_same_queries P dd dd2 handle (CT_IU_PREAMBLE_SIZE + 8) (CT_IU_PREAMBLE_SIZE + 4)
      FCS_RCC_GPPN (host_bytes P.endian 8 port_name) SUBTYPE_FABRIC_CONFIGURATION_SERVER
      GS_TYPE_MANAGEMENT_SERVICE h
  unfold get_ppn
  rcases h1 : send_ct P dd handle (CT_IU_PREAMBLE_SIZE + 8) (CT_IU_PREAMBLE_SIZE + 4)
      FCS_RCC_GPPN (host_bytes P.endian 8 port_name) SUBTYPE_FABRIC_CONFIGURATION_SERVER
      GS_TYPE_MANAGEMENT_SERVICE w with ⟨o1, w1⟩
  rcases h2 : send_ct P dd2 handle (CT_IU_PREAMBLE_SIZE + 8) (CT_IU_PREAMBLE_SIZE + 4)
      FCS_RCC_GPPN (host_bytes P.endian 8 port_name) SUBTYPE_FABRIC_CONFIGURATION_SERVER
      GS_TYPE_MANAGEMENT_SERVICE v with ⟨o2, v1⟩
  rw [h1, h2] at hs
  obtain ⟨ho, hsq⟩ := hs
  simp only at ho hsq
  subst ho
  cases o1 <;> exact ⟨rfl, hsq⟩

/-- The value of `get_destination_id` and the queries issued do not depend on
`display_detail` nor on what was printed before. -/
theorem get_destination_id_same_queries {σ : Type} (P : Platform σ) (dd dd2 handle port_name : Nat)
    {w v : World σ} (h : same_queries w v) :
    (get_destination_id P dd handle port_name w).1 = (get_destination_id P dd2 handle port_name v).1 ∧
    same_queries (get_destination_id P dd handle port_name w).2 (get_destination_id P dd2 handle port_name v).2 := by
  have hs := send_ct_same_queries P dd dd2 handle (CT_IU_PREAMBLE_SIZE + 8) (CT_IU_PREAMBLE_SIZE + 4)
      NS_RCC_GID_PN (host_bytes P.endian 8 port_name) SUBTYPE_NAME_SERVER
      GS_TYPE_MANAGEMENT_SERVICE h
  unfold get_destination_id
  rcases h1 : send_ct P dd handle (CT_IU_PREAMBLE_SIZE + 8) (CT_IU_PREAMBLE_SIZE + 4)
      NS_RCC_GID_PN (host_bytes P.endian 8 port_name) SUBTYPE_NAME_SERVER
      GS_TYPE_MANAGEMENT_SERVICE w with ⟨o1, w1⟩
  rcases h2 : send_ct P dd2 handle (CT_IU_PREAMBLE_SIZE + 8) (CT_IU_PREAMBLE_SIZE + 4)
      NS_RCC_GID_PN (host_bytes P.endian 8 port_name) SUBTYPE_NAME_SERVER
      GS_TYPE_MANAGEMENT_SERVICE v with ⟨o2, v1⟩
  rw [h1, h2] at hs
  obtain ⟨ho, hsq⟩ := hs
  simp only at ho hsq
  subst ho
  cases o1 <;> exact ⟨rfl, hsq⟩

/-- The value of `get_port_list` and the queries issued do not depend on
`display_detail` nor on what was printed before. -/
theorem get_port_list_same_queries {σ : Type} (P : Platform σ) (dd dd2 handle ice_name : Nat)
    {w v : World σ} (h : same_queries w v) :
    (get_port_list P dd handle ice_name w).1 = (get_port_list P dd2 handle ice_name v).1 ∧
    same_queries (get_port_list P dd handle ice_name w).2 (get_port_list P dd2 handle ice_name v).2 := by
  have hs := send_ct_same_queries P dd dd2 handle (CT_IU_PREAMBLE_SIZE + 8)
      (CT_IU_PREAMBLE_SIZE + PL_SIZE 500) FCS_RCC_GPL (host_bytes P.endian 8 ice_name)
      SUBTYPE_FABRIC_CONFIGURATION_SERVER GS_TYPE_MANAGEMENT_SERVICE h
  unfold get_port_list
  rcases h1 : send_ct P dd handle (CT_IU_PREAMBLE_SIZE + 8)
      (CT_IU_PREAMBLE_SIZE + PL_SIZE 500) FCS_RCC_GPL (host_bytes P.endian 8 ice_name)
      SUBTYPE_FABRIC_CONFIGURATION_SERVER GS_TYPE_MANAGEMENT_SERVICE w with ⟨o1, w1⟩
  rcases h2 : send_ct P dd2 handle (CT_IU_PREAMBLE_SIZE + 8)
      (CT_IU_PREAMBLE_SIZE + PL_SIZE 500) FCS_RCC_GPL (host_bytes P.endian 8 ice_name)
      SUBTYPE_FABRIC_CONFIGURATION_SERVER GS_TYPE_MANAGEMENT_SERVICE v with ⟨o2, v1⟩
  rw [h1, h2] at hs
  obtain ⟨ho, hsq⟩ := hs
  simp only at ho hsq
  subst ho
  cases o1 <;> exact ⟨rfl, hsq⟩

/-- The value of `get_att_port_list` and the queries issued do not depend on
`display_detail` nor on what was printed before. -/
theorem get_att_port_list_same_queries {σ : Type} (P : Platform σ) (dd dd2 handle icep_name : Nat)
    {w v : World σ} (h : same_queries w v) :
    (get_att_port_list P dd handle icep_name w).1 = (get_att_port_list P dd2 handle icep_name v).1 ∧
    same_queries (get_att_port_list P dd handle icep_name w).2 (get_att_port_list P dd2 handle icep_name v).2 := by
  have hs := send_ct_same_queries P dd dd2 handle (CT_IU_PREAMBLE_SIZE + 8)
      (CT_IU_PREAMBLE_SIZE + PL_SIZE 100) FCS_RCC_GAPNL (host_bytes P.endian 8 icep_name)
      SUBTYPE_FABRIC_CONFIGURATION_SERVER GS_TYPE_MANAGEMENT_SERVICE h
  unfold get_att_port_list
  rcases h1 : send_ct P dd handle (CT_IU_PREAMBLE_SIZE + 8)
      (CT_IU_PREAMBLE_SIZE + PL_SIZE 100) FCS_RCC_GAPNL (host_bytes P.endian 8 icep_name)
      SUBTYPE_FABRIC_CONFIGURATION_SERVER GS_TYPE_MANAGEMENT_SERVICE w with ⟨o1, w1⟩
  rcases h2 : send_ct P dd2 handle (CT_IU_PREAMBLE_SIZE + 8)
      (CT_IU_PREAMBLE_SIZE + PL_SIZE 100) FCS_RCC_GAPNL (host_bytes P.endian 8 icep_name)
      SUBTYPE_FABRIC_CONFIGURATION_SERVER GS_TYPE_MANAGEMENT_SERVICE v with ⟨o2, v1⟩
  rw [h1, h2] at hs
  obtain ⟨ho, hsq⟩ := hs
  simp only at ho hsq
  subst ho
  cases o1 <;> exact ⟨rfl, hsq⟩

/-- The value of `get_ice_list` and the queries issued do not depend on
`display_detail` nor on what was printed before. -/
theorem get_ice_list_same_queries {σ : Type} (P : Platform σ) (dd dd2 handle : Nat)
    {w v : World σ} (h : same_queries w v) :
    (get_ice_list P dd handle w).1 = (get_ice_list P dd2 handle v).1 ∧
    same_queries (get_ice_list P dd handle w).2 (get_ice_list P dd2 handle v).2 := by
  have hs := send_ct_same_queries P dd dd2 handle CT_IU_PREAMBLE_SIZE
    (CT_IU_PREAMBLE_SIZE + PL_SIZE 100) FCS_RCC_GIEL [] SUBTYPE_FABRIC_CONFIGURATION_SERVER
    GS_TYPE_MANAGEMENT_SERVICE h
  unfold get_ice_list
  rcases h1 : send_ct P dd handle CT_IU_PREAMBLE_SIZE
    (CT_IU_PREAMBLE_SIZE + PL_SIZE 100) FCS_RCC_GIEL [] SUBTYPE_FABRIC_CONFIGURATION_SERVER
    GS_TYPE_MANAGEMENT_SERVICE w with ⟨o1, w1⟩
  rcases h2 : send_ct P dd2 handle CT_IU_PREAMBLE_SIZE
    (CT_IU_PREAMBLE_SIZE + PL_SIZE 100) FCS_RCC_GIEL [] SUBTYPE_FABRIC_CONFIGURATION_SERVER
    GS_TYPE_MANAGEMENT_SERVICE v with ⟨o2, v1⟩
  rw [h1, h2] at hs
  obtain ⟨ho, hsq⟩ := hs
  simp only at ho hsq
  subst ho
  cases o1 <;> exact ⟨rfl, hsq⟩

theorem same_queries_print_ple_info {σ : Type} (dd : Nat) (ple : port_list_entry)
    (ps ppn : Nat) (w : World σ) : same_queries (print_ple_info dd ple ps ppn w) w := by
  unfold print_ple_info
  split_ifs
  · exact same_queries_trans (same_queries_printf _ _) (same_queries_printf _ _)
  · exact same_queries_printf _ _
  · exact same_queries_printf _ _

theorem same_queries_print_apn_info {σ : Type} (apn : att_port_name) (d_id : Nat)
    (w : World σ) : same_queries (print_apn_info apn d_id w) w :=
  same_queries_printf _ _

theorem same_queries_print_csv {σ : Type} (ice : interconnect_element) (domain_id : Nat)
    (ple : port_list_entry) (ps ppn : Nat) (apn : Option att_port_name) (d_id : Nat)
    (w : World σ) : same_queries (print_csv ice domain_id ple ps ppn apn d_id w) w := by
  unfold print_csv
  cases apn with
  | none => exact same_queries_trans (same_queries_printf _ _) (same_queries_printf _ _)
  | some a =>
    simp only []
    split_ifs <;> exact same_queries_trans (same_queries_printf _ _) (same_queries_printf _ _)

/-- Without VERBOSE, `print_ice_info` only prints. -/
theorem same_queries_print_ice_info {σ : Type} (P : Platform σ) (dd handle : Nat)
    (ice : interconnect_element) (domain_id pl_entries : Nat) (w : World σ)
    (hv : dd &&& VERBOSE = 0) :
    same_queries (print_ice_info P dd handle ice domain_id pl_entries w) w := by
  unfold print_ice_info
  simp only [hv, if_true]
  exact same_queries_trans (same_queries_printf _ _)
    (same_queries_trans (same_queries_printf _ _)
      (same_queries_trans (same_queries_printf _ _)
        (same_queries_trans (same_queries_printf _ _) (same_queries_printf _ _))))

theorem same_queries_print_topology_loop {σ : Type} (ic : List ice_conn) :
    ∀ (rest : List ice_conn) (d : Nat) (w : World σ),
      same_queries (print_topology_loop ic rest d w) w := by
  intro rest
  induction rest with
  | nil => intro d w; exact same_queries_refl w
  | cons e rest ih =>
    intro d w
    unfold print_topology_loop
    cases find_local_port e.port_name ic with
    | none => exact ih d w
    | some t =>
      simp only []
      refine same_queries_trans (ih _ _) (same_queries_trans (same_queries_printf _ _) ?_)
      split_ifs
      · exact same_queries_printf _ _
      · exact same_queries_refl w

theorem same_queries_ite {σ : Type} (c : Prop) [Decidable c] {a b w : World σ}
    (h1 : same_queries a w) (h2 : same_queries b w) :
    same_queries (if c then a else b) w := by
  split_ifs
  · exact h1
  · exact h2

theorem same_queries_printf_both {σ : Type} (m m2 : Msg) {w v : World σ}
    (h : same_queries w v) : same_queries (w.printf m) (v.printf m2) :=
  same_queries_trans (same_queries_printf m w)
    (same_queries_trans h (same_queries_symm (same_queries_printf m2 v)))

/-- The value of `get_information_list` and the queries issued do not depend on
`display_detail` nor on what was printed before. -/
theorem get_information_list_same_queries {σ : Type} (P : Platform σ)
    (dd dd2 handle name : Nat) {w v : World σ} (h : same_queries w v) :
    (get_information_list P dd handle name w).1 = (get_information_list P dd2 handle name v).1 ∧
    same_queries (get_information_list P dd handle name w).2
      (get_information_list P dd2 handle name v).2 := by
  have hs := send_ct_same_queries P dd dd2 handle (CT_IU_PREAMBLE_SIZE + 8)
      (CT_IU_PREAMBLE_SIZE + 256) FCS_RCC_GIEIL (host_bytes P.endian 8 name)
      SUBTYPE_FABRIC_CONFIGURATION_SERVER GS_TYPE_MANAGEMENT_SERVICE h
  unfold get_information_list
  rcases h1 : send_ct P dd handle (CT_IU_PREAMBLE_SIZE + 8) (CT_IU_PREAMBLE_SIZE + 256)
      FCS_RCC_GIEIL (host_bytes P.endian 8 name) SUBTYPE_FABRIC_CONFIGURATION_SERVER
      GS_TYPE_MANAGEMENT_SERVICE w with ⟨o1, w1⟩
  rcases h2 : send_ct P dd2 handle (CT_IU_PREAMBLE_SIZE + 8) (CT_IU_PREAMBLE_SIZE + 256)
      FCS_RCC_GIEIL (host_bytes P.endian 8 name) SUBTYPE_FABRIC_CONFIGURATION_SERVER
      GS_TYPE_MANAGEMENT_SERVICE v with ⟨o2, v1⟩
  rw [h1, h2] at hs
  obtain ⟨ho, hsq⟩ := hs
  simp only at ho hsq
  subst ho
  cases o1 <;> exact ⟨rfl, hsq⟩

/-- The value of `get_ice_logical_name` and the queries issued do not depend on
`display_detail` nor on what was printed before. -/
theorem get_ice_logical_name_same_queries {σ : Type} (P : Platform σ)
    (dd dd2 handle name : Nat) {w v : World σ} (h : same_queries w v) :
    (get_ice_logical_name P dd handle name w).1 = (get_ice_logical_name P dd2 handle name v).1 ∧
    same_queries (get_ice_logical_name P dd handle name w).2
      (get_ice_logical_name P dd2 handle name v).2 := by
  have hs := send_ct_same_queries P dd dd2 handle (CT_IU_PREAMBLE_SIZE + 8)
      (CT_IU_PREAMBLE_SIZE + 256) FCS_RCC_GIELN (host_bytes P.endian 8 name)
      SUBTYPE_FABRIC_CONFIGURATION_SERVER GS_TYPE_MANAGEMENT_SERVICE h
  unfold get_ice_logical_name
  rcases h1 : send_ct P dd handle (CT_IU_PREAMBLE_SIZE + 8) (CT_IU_PREAMBLE_SIZE + 256)
      FCS_RCC_GIELN (host_bytes P.endian 8 name) SUBTYPE_FABRIC_CONFIGURATION_SERVER
      GS_TYPE_MANAGEMENT_SERVICE w with ⟨o1, w1⟩
  rcases h2 : send_ct P dd2 handle (CT_IU_PREAMBLE_SIZE + 8) (CT_IU_PREAMBLE_SIZE + 256)
      FCS_RCC_GIELN (host_bytes P.endian 8 name) SUBTYPE_FABRIC_CONFIGURATION_SERVER
      GS_TYPE_MANAGEMENT_SERVICE v with ⟨o2, v1⟩
  rw [h1, h2] at hs
  obtain ⟨ho, hsq⟩ := hs
  simp only at ho hsq
  subst ho
  cases o1 <;> exact ⟨rfl, hsq⟩

/-- With VERBOSE in both runs, `print_ice_info` issues the same queries in both. -/
theorem print_ice_info_same_queries {σ : Type} (P : Platform σ) (dd dd2 handle : Nat)
    (ice : interconnect_element) (domain_id pl_entries : Nat) {w v : World σ}
    (hv : dd &&& VERBOSE ≠ 0) (hv2 : dd2 &&& VERBOSE ≠ 0) (h : same_queries w v) :
    same_queries (print_ice_info P dd handle ice domain_id pl_entries w)
      (print_ice_info P dd2 handle ice domain_id pl_entries v) := by
  unfold print_ice_info
  simp only [hv, hv2, if_false]
  have h5 := same_queries_printf_both
    (Msg.fmt "Interconnect Element Ports      %03d\n" [Arg.num pl_entries])
    (Msg.fmt "Interconnect Element Ports      %03d\n" [Arg.num pl_entries])
    (same_queries_printf_both
      (Msg.fmt "Interconnect Element Type       %s\n" [Arg.tab "element_type" ice.port_type])
      (Msg.fmt "Interconnect Element Type       %s\n" [Arg.tab "element_type" ice.port_type])
      (same_queries_printf_both
        (Msg.fmt "Interconnect Element Domain ID  %03d\n" [Arg.num domain_id])
        (Msg.fmt "Interconnect Element Domain ID  %03d\n" [Arg.num domain_id])
        (same_queries_printf_both
          (Msg.fmt "Interconnect Element Name       0x%lx\n" [Arg.num ice.port_name])
          (Msg.fmt "Interconnect Element Name       0x%lx\n" [Arg.num ice.port_name])
          (same_queries_printf_both (Msg.text "\n") (Msg.text "\n") h))))
  have hi := get_information_list_same_queries P dd dd2 handle ice.port_name h5
  rcases h1 : get_information_list P dd handle ice.port_name
      ((((((w.printf (Msg.text "\n")).printf
        (Msg.fmt "Interconnect Element Name       0x%lx\n" [Arg.num ice.port_name])).printf
        (Msg.fmt "Interconnect Element Domain ID  %03d\n" [Arg.num domain_id])).printf
        (Msg.fmt "Interconnect Element Type       %s\n"
          [Arg.tab "element_type" ice.port_type])).printf
        (Msg.fmt "Interconnect Element Ports      %03d\n" [Arg.num pl_entries]))) with ⟨o1, w1⟩
  rcases h2 : get_information_list P dd2 handle ice.port_name
      ((((((v.printf (Msg.text "\n")).printf
        (Msg.fmt "Interconnect Element Name       0x%lx\n" [Arg.num ice.port_name])).printf
        (Msg.fmt "Interconnect Element Domain ID  %03d\n" [Arg.num domain_id])).printf
        (Msg.fmt "Interconnect Element Type       %s\n"
          [Arg.tab "element_type" ice.port_type])).printf
        (Msg.fmt "Interconnect Element Ports      %03d\n" [Arg.num pl_entries]))) with ⟨o2, v1⟩
  rw [h1, h2] at hi
  obtain ⟨ho, hsq⟩ := hi
  simp only at ho hsq
  subst ho
  simp only []
  clear h1 h2
  cases o1 with
  | none =>
    simp only []
    have hn := get_ice_logical_name_same_queries P dd dd2 handle ice.port_name
      (same_queries_printf_both (Msg.text "Interconnect Element Rel. Code  Error\n")
        (Msg.text "Interconnect Element Rel. Code  Error\n")
        (same_queries_printf_both (Msg.text "Interconnect Element Model      Error\n")
          (Msg.text "Interconnect Element Model      Error\n")
          (same_queries_printf_both (Msg.text "Interconnect Element Vendor     Error\n")
            (Msg.text "Interconnect Element Vendor     Error\n") hsq)))
    generalize get_ice_logical_name P dd handle ice.port_name _ = a at hn ⊢
    generalize get_ice_logical_name P dd2 handle ice.port_name _ = b at hn ⊢
    obtain ⟨n1, w2⟩ := a
    obtain ⟨n2, v2⟩ := b
    obtain ⟨hne, hsq2⟩ := hn
    simp only at hne hsq2 ⊢
    subst hne
    cases n1 <;> exact same_queries_printf_both _ _ hsq2
  | some ice_info =>
    simp only []
    have hn := get_ice_logical_name_same_queries P dd dd2 handle ice.port_name
      (same_queries_printf_both
        (Msg.fmt "Interconnect Element Rel. Code  %s\n" [Arg.str (ice_info_strings ice_info).2.2])
        (Msg.fmt "Interconnect Element Rel. Code  %s\n" [Arg.str (ice_info_strings ice_info).2.2])
        (same_queries_printf_both
          (Msg.fmt "Interconnect Element Model      %s\n"
            [Arg.str (ice_info_strings ice_info).2.1])
          (Msg.fmt "Interconnect Element Model      %s\n"
            [Arg.str (ice_info_strings ice_info).2.1])
          (same_queries_printf_both
            (Msg.fmt "Interconnect Element Vendor     %s\n"
              [Arg.str (ice_info_strings ice_info).1])
            (Msg.fmt "Interconnect Element Vendor     %s\n"
              [Arg.str (ice_info_strings ice_info).1]) hsq)))
    generalize get_ice_logical_name P dd handle ice.port_name _ = a at hn ⊢
    generalize get_ice_logical_name P dd2 handle ice.port_name _ = b at hn ⊢
    obtain ⟨n1, w2⟩ := a
    obtain ⟨n2, v2⟩ := b
    obtain ⟨hne, hsq2⟩ := hn
    simp only at hne hsq2 ⊢
    subst hne
    cases n1 <;> exact same_queries_printf_both _ _ hsq2

/-- A call of `print_ice_info` under a condition, wrapped in functions that only
print: when the two runs either both make the call with VERBOSE or neither
does, they issue the same queries. -/
theorem print_ice_info_gated {σ : Type} (P : Platform σ) (dd dd2 handle : Nat)
    (ice : interconnect_element) (domain_id pl_entries : Nat) (c1 c2 : Prop)
    [Decidable c1] [Decidable c2]
    (hgate : (dd &&& VERBOSE ≠ 0 ∧ c1) ↔ (dd2 &&& VERBOSE ≠ 0 ∧ c2))
    (F G : World σ → World σ) (hF : ∀ u, same_queries (F u) u) (hG : ∀ u, same_queries (G u) u)
    {w v : World σ} (h : same_queries w v) :
    same_queries
      (if c1 then F (print_ice_info P dd handle ice domain_id pl_entries w) else w)
      (if c2 then G (print_ice_info P dd2 handle ice domain_id pl_entries v) else v) := by
  by_cases hv : dd &&& VERBOSE ≠ 0 <;> by_cases hv2 : dd2 &&& VERBOSE ≠ 0
  · by_cases hc1 : c1
    · have hc2 : c2 := (hgate.1 ⟨hv, hc1⟩).2
      rw [if_pos hc1, if_pos hc2]
      exact same_queries_trans (hF _)
        (same_queries_trans
          (print_ice_info_same_queries P dd dd2 handle ice domain_id pl_entries hv hv2 h)
          (same_queries_symm (hG _)))
    · have hc2 : ¬ c2 := fun hc => hc1 (hgate.2 ⟨hv2, hc⟩).2
      rw [if_neg hc1, if_neg hc2]
      exact h
  · have hc1 : ¬ c1 := fun hc => hv2 (hgate.1 ⟨hv, hc⟩).1
    rw [if_neg hc1]
    refine same_queries_trans h (same_queries_symm ?_)
    exact same_queries_ite _
      (same_queries_trans (hG _)
        (same_queries_print_ice_info P dd2 handle ice domain_id pl_entries v
          (not_not.mp hv2)))
      (same_queries_refl v)
  · have hc2 : ¬ c2 := fun hc => hv (hgate.2 ⟨hv2, hc⟩).1
    rw [if_neg hc2]
    refine same_queries_trans ?_ h
    exact same_queries_ite _
      (same_queries_trans (hF _)
        (same_queries_print_ice_info P dd handle ice domain_id pl_entries w (not_not.mp hv)))
      (same_queries_refl w)
  · refine same_queries_trans
      (same_queries_ite _
        (same_queries_trans (hF _)
          (same_queries_print_ice_info P dd handle ice domain_id pl_entries w (not_not.mp hv)))
        (same_queries_refl w))
      (same_queries_trans h (same_queries_symm ?_))
    exact same_queries_ite _
      (same_queries_trans (hG _)
        (same_queries_print_ice_info P dd2 handle ice domain_id pl_entries v
          (not_not.mp hv2)))
      (same_queries_refl v)

/-- The loop over the attached ports issues the same queries in two runs that show
the element details of `print_ice_info` under VERBOSE for the same attached
ports, whatever the other display flags are. -/
theorem do_something_apn_loop_same_queries {σ : Type} (P : Platform σ) (dd dd2 : Nat)
    (aa : adapter_attr) (value value2 : Nat) (ice : interconnect_element)
    (domain_id ple_no : Nat) (ple : port_list_entry) (ps ppn : Nat)
    (hatt : ∀ d n, (dd &&& VERBOSE ≠ 0 ∧ (dd &&& ATTACHMENT ≠ 0 ∧ (value = d ∨ value = n))) ↔
      (dd2 &&& VERBOSE ≠ 0 ∧ (dd2 &&& ATTACHMENT ≠ 0 ∧ (value2 = d ∨ value2 = n)))) :
    ∀ (l : List att_port_name) (w v : World σ), same_queries w v →
      same_queries
        (do_something_apn_loop P dd aa value ice domain_id ple_no ple ps ppn l w)
        (do_something_apn_loop P dd2 aa value2 ice domain_id ple_no ple ps ppn l v) := by
  intro l
  induction l with
  | nil => intro w v h; exact h
  | cons a rest ih =>
    intro w v h
    have hd := get_destination_id_same_queries P dd dd2 aa.handle a.port_name h
    rw [do_something_apn_loop, do_something_apn_loop]
    rcases h1 : get_destination_id P dd aa.handle a.port_name w with ⟨d1, w1⟩
    rcases h2 : get_destination_id P dd2 aa.handle a.port_name v with ⟨d2, v1⟩
    rw [h1, h2] at hd
    obtain ⟨hdd, hsq⟩ := hd
    simp only at hdd hsq
    subst hdd
    simp only []
    apply ih
    have hA := print_ice_info_gated P dd dd2 aa.handle ice domain_id ple_no
      (dd &&& ATTACHMENT ≠ 0 ∧ (value = d1 ∨ value = a.port_name))
      (dd2 &&& ATTACHMENT ≠ 0 ∧ (value2 = d1 ∨ value2 = a.port_name)) (hatt d1 a.port_name)
      (fun u => print_apn_info a d1 (print_ple_info dd ple ps ppn u))
      (fun u => print_apn_info a d1 (print_ple_info dd2 ple ps ppn u))
      (fun u => same_queries_trans (same_queries_print_apn_info _ _ _)
        (same_queries_print_ple_info _ _ _ _ _))
      (fun u => same_queries_trans (same_queries_print_apn_info _ _ _)
        (same_queries_print_ple_info _ _ _ _ _)) hsq
    have hT : ∀ (d : Nat) (X : World σ),
        same_queries
          (if d &&& CSV ≠ 0 then
            print_csv ice domain_id ple ps ppn (some a) d1
              (if d &&& (ATTACHMENT ||| TOPOLOGY ||| CSV) = 0 then print_apn_info a d1 X else X)
          else
            (if d &&& (ATTACHMENT ||| TOPOLOGY ||| CSV) = 0 then print_apn_info a d1 X else X))
          X := by
      intro d X
      have hB := same_queries_ite (d &&& (ATTACHMENT ||| TOPOLOGY ||| CSV) = 0)
        (same_queries_print_apn_info a d1 X) (same_queries_refl X)
      exact same_queries_ite _
        (same_queries_trans (same_queries_print_csv _ _ _ _ _ _ _ _) hB) hB
    exact same_queries_trans (hT dd _)
      (same_queries_trans hA (same_queries_symm (hT dd2 _)))

/-- A port state is a byte. -/
theorem get_port_state_lt {σ : Type} (P : Platform σ) (dd handle port_name : Nat)
    (w : World σ) : (get_port_state P dd handle port_name w).1 < 256 := by
  unfold get_port_state
  split
  · exact Nat.zero_lt_succ 255
  · exact Nat.mod_lt _ (Nat.zero_lt_succ 255)

/-- With the same port-state filter and the same showing of element details, two
runs of the loop over the ports that both return have issued the same queries. -/
theorem do_something_ple_loop_same_queries {σ : Type} (P : Platform σ) (dd dd2 : Nat)
    (aa : adapter_attr) (value value2 : Nat) (ice : interconnect_element)
    (domain_id ple_no : Nat)
    (hatt : ∀ d n, (dd &&& VERBOSE ≠ 0 ∧ (dd &&& ATTACHMENT ≠ 0 ∧ (value = d ∨ value = n))) ↔
      (dd2 &&& VERBOSE ≠ 0 ∧ (dd2 &&& ATTACHMENT ≠ 0 ∧ (value2 = d ∨ value2 = n))))
    (hps : ∀ ps, ps < 256 → (dd &&& ps = 0 ↔ dd2 &&& ps = 0)) :
    ∀ (l : List port_list_entry) (icc icc2 : List ice_conn) (inc inc2 : Nat) (w v : World σ),
      same_queries w v →
      ∀ r r2,
        do_something_ple_loop P dd aa value ice domain_id ple_no l icc inc w = some r →
        do_something_ple_loop P dd2 aa value2 ice domain_id ple_no l icc2 inc2 v = some r2 →
        same_queries r.2.2 r2.2.2 := by
  intro l
  induction l with
  | nil =>
    intro icc icc2 inc inc2 w v h r r2 hr hr2
    simp only [do_something_ple_loop, Option.some.injEq] at hr hr2
    subst hr; subst hr2
    exact h
  | cons ple rest ih =>
    intro icc icc2 inc inc2 w v h
    have hs := get_port_state_same_queries P dd dd2 aa.handle ple.port_name h
    rw [do_something_ple_loop, do_something_ple_loop]
    have hlt := get_port_state_lt P dd aa.handle ple.port_name w
    rcases h1 : get_port_state P dd aa.handle ple.port_name w with ⟨ps, w1⟩
    rcases h2 : get_port_state P dd2 aa.handle ple.port_name v with ⟨ps2, v1⟩
    rw [h1, h2] at hs
    rw [h1] at hlt
    obtain ⟨hpe, hsq1⟩ := hs
    simp only at hpe hsq1 hlt
    subst hpe
    simp only []
    by_cases h0 : dd &&& ps = 0
    · have h0' : dd2 &&& ps = 0 := (hps ps hlt).1 h0
      simp only [h0, h0', if_true]
      exact ih _ _ _ _ _ _ hsq1
    · have h0' : ¬ dd2 &&& ps = 0 := fun hc => h0 ((hps ps hlt).2 hc)
      simp only [h0, h0', if_false]
      have hp := get_ppn_same_queries P dd dd2 aa.handle ple.port_name hsq1
      rcases h3 : get_ppn P dd aa.handle ple.port_name w1 with ⟨ppn, w2⟩
      rcases h4 : get_ppn P dd2 aa.handle ple.port_name v1 with ⟨ppn2, v2⟩
      rw [h3, h4] at hp
      obtain ⟨hpp, hsq2⟩ := hp
      simp only at hpp hsq2
      subst hpp
      simp only []
      have hple : ∀ (d : Nat) (u : World σ), same_queries
          (if d &&& (ATTACHMENT ||| TOPOLOGY ||| CSV) = 0 then print_ple_info d ple ps ppn u
            else u) u :=
        fun d u => same_queries_ite _ (same_queries_print_ple_info _ _ _ _ _)
          (same_queries_refl u)
      have hsq3 := same_queries_trans (hple dd w2)
        (same_queries_trans hsq2 (same_queries_symm (hple dd2 v2)))
      by_cases hon : ps ≠ ONLINE
      · rw [if_pos hon, if_pos hon]
        have hcsv : ∀ (d : Nat) (u : World σ), same_queries
            (if d &&& CSV ≠ 0 then print_csv ice domain_id ple ps ppn none 0 u else u) u :=
          fun d u => same_queries_ite _ (same_queries_print_csv _ _ _ _ _ _ _ _)
            (same_queries_refl u)
        exact ih _ _ _ _ _ _ (same_queries_trans (hcsv dd _)
          (same_queries_trans hsq3 (same_queries_symm (hcsv dd2 _))))
      · rw [if_neg hon, if_neg hon]
        have ha := get_att_port_list_same_queries P dd dd2 aa.handle ple.port_name hsq3
        rcases h5 : get_att_port_list P dd aa.handle ple.port_name
          (if dd &&& (ATTACHMENT ||| TOPOLOGY ||| CSV) = 0 then print_ple_info dd ple ps ppn w2
            else w2) with ⟨o, w3⟩
        rcases h6 : get_att_port_list P dd2 aa.handle ple.port_name
          (if dd2 &&& (ATTACHMENT ||| TOPOLOGY ||| CSV) = 0 then
            print_ple_info dd2 ple ps ppn v2 else v2) with ⟨o2, v3⟩
        rw [h5, h6] at ha
        obtain ⟨hoe, hsq4⟩ := ha
        simp only at hoe hsq4
        subst hoe
        cases o with
        | none => intro r r2 hr; cases hr
        | some na =>
          obtain ⟨apn_no, apn⟩ := na
          simp only []
          have hloop := do_something_apn_loop_same_queries P dd dd2 aa value value2 ice
            domain_id ple_no ple ps ppn hatt (apn.getD []) w3 v3 hsq4
          by_cases ht : dd &&& (TOPOLOGY ||| VERBOSE) ≠ 0 <;>
            by_cases ht2 : dd2 &&& (TOPOLOGY ||| VERBOSE) ≠ 0
          · rw [if_pos ht, if_pos ht2]
            cases gen_topology icc domain_id ppn (apn.map (fun l => l.getD 0 ⟨0, 0, 0⟩)) ple with
            | none => intro r r2 hr; cases hr
            | some i1 =>
              cases gen_topology icc2 domain_id ppn
                  (apn.map (fun l => l.getD 0 ⟨0, 0, 0⟩)) ple with
              | none => intro r r2 _ hr; cases hr
              | some i2 => exact ih _ _ _ _ _ _ hloop
          · rw [if_pos ht, if_neg ht2]
            cases gen_topology icc domain_id ppn (apn.map (fun l => l.getD 0 ⟨0, 0, 0⟩)) ple with
            | none => intro r r2 hr; cases hr
            | some i1 => exact ih _ _ _ _ _ _ hloop
          · rw [if_neg ht, if_pos ht2]
            cases gen_topology icc2 domain_id ppn
                (apn.map (fun l => l.getD 0 ⟨0, 0, 0⟩)) ple with
            | none => intro r r2 _ hr; cases hr
            | some i2 => exact ih _ _ _ _ _ _ hloop
          · rw [if_neg ht, if_neg ht2]
            exact ih _ _ _ _ _ _ hloop

/-- With the same domain and port-state filters and the same showing of element
details, two runs of the loop over the interconnect elements that both return
have issued the same queries. -/
theorem do_something_ice_loop_same_queries {σ : Type} (P : Platform σ) (dd dd2 : Nat)
    (aa : adapter_attr) (value value2 : Nat)
    (hice : (dd &&& VERBOSE ≠ 0 ∧ dd &&& (ATTACHMENT ||| TOPOLOGY ||| CSV) = 0) ↔
      (dd2 &&& VERBOSE ≠ 0 ∧ dd2 &&& (ATTACHMENT ||| TOPOLOGY ||| CSV) = 0))
    (hatt : ∀ d n, (dd &&& VERBOSE ≠ 0 ∧ (dd &&& ATTACHMENT ≠ 0 ∧ (value = d ∨ value = n))) ↔
      (dd2 &&& VERBOSE ≠ 0 ∧ (dd2 &&& ATTACHMENT ≠ 0 ∧ (value2 = d ∨ value2 = n))))
    (hps : ∀ ps, ps < 256 → (dd &&& ps = 0 ↔ dd2 &&& ps = 0))
    (hdom : ∀ d, (dd &&& DOMAIN ≠ 0 ∧ value ≠ d) ↔ (dd2 &&& DOMAIN ≠ 0 ∧ value2 ≠ d)) :
    ∀ (l : List interconnect_element) (icc icc2 : List ice_conn) (inc inc2 : Nat)
      (w v : World σ), same_queries w v →
      ∀ r r2,
        do_something_ice_loop P dd aa value l icc inc w = some r →
        do_something_ice_loop P dd2 aa value2 l icc2 inc2 v = some r2 →
        same_queries r.2.2 r2.2.2 := by
  intro l
  induction l with
  | nil =>
    intro icc icc2 inc inc2 w v h r r2 hr hr2
    simp only [do_something_ice_loop, Option.some.injEq] at hr hr2
    subst hr; subst hr2
    exact h
  | cons ice rest ih =>
    intro icc icc2 inc inc2 w v h
    have hs := get_domain_id_same_queries P dd dd2 aa.handle ice.port_name h
    rw [do_something_ice_loop, do_something_ice_loop]
    rcases h1 : get_domain_id P dd aa.handle ice.port_name w with ⟨dom, w1⟩
    rcases h2 : get_domain_id P dd2 aa.handle ice.port_name v with ⟨dom2, v1⟩
    rw [h1, h2] at hs
    obtain ⟨hde, hsq1⟩ := hs
    simp only at hde hsq1
    subst hde
    simp only []
    by_cases hg : dd &&& DOMAIN ≠ 0 ∧ value ≠ dom
    · have hg2 : dd2 &&& DOMAIN ≠ 0 ∧ value2 ≠ dom := (hdom dom).1 hg
      rw [if_pos hg, if_pos hg2]
      exact ih _ _ _ _ _ _ hsq1
    · have hg2 : ¬ (dd2 &&& DOMAIN ≠ 0 ∧ value2 ≠ dom) := fun hc => hg ((hdom dom).2 hc)
      rw [if_neg hg, if_neg hg2]
      have hp := get_port_list_same_queries P dd dd2 aa.handle ice.port_name hsq1
      rcases h3 : get_port_list P dd aa.handle ice.port_name w1 with ⟨o, w2⟩
      rcases h4 : get_port_list P dd2 aa.handle ice.port_name v1 with ⟨o2, v2⟩
      rw [h3, h4] at hp
      obtain ⟨hoe, hsq2⟩ := hp
      simp only at hoe hsq2
      subst hoe
      cases o with
      | none => intro r r2 hr; cases hr
      | some np =>
        obtain ⟨ple_no, ple⟩ := np
        simp only []
        have hsq3 := print_ice_info_gated P dd dd2 aa.handle ice dom ple_no
          (dd &&& (ATTACHMENT ||| TOPOLOGY ||| CSV) = 0)
          (dd2 &&& (ATTACHMENT ||| TOPOLOGY ||| CSV) = 0) hice (fun u => u) (fun u => u)
          (fun u => same_queries_refl u) (fun u => same_queries_refl u) hsq2
        have hple := do_something_ple_loop_same_queries P dd dd2 aa value value2 ice dom
          ple_no hatt hps (ple.getD []) icc icc2
          (if ple_no = 0 then (if dom = 0 then inc ||| 1 else inc) ||| 1
            else (if dom = 0 then inc ||| 1 else inc))
          (if ple_no = 0 then (if dom = 0 then inc2 ||| 1 else inc2) ||| 1
            else (if dom = 0 then inc2 ||| 1 else inc2)) _ _ hsq3
        cases hl1 : do_something_ple_loop P dd aa value ice dom ple_no (ple.getD []) icc
          (if ple_no = 0 then (if dom = 0 then inc ||| 1 else inc) ||| 1
            else (if dom = 0 then inc ||| 1 else inc))
          (if dd &&& (ATTACHMENT ||| TOPOLOGY ||| CSV) = 0 then
            print_ice_info P dd aa.handle ice dom ple_no w2 else w2) with
        | none => intro r r2 hr; cases hr
        | some s1 =>
          cases hl2 : do_something_ple_loop P dd2 aa value2 ice dom ple_no (ple.getD []) icc2
            (if ple_no = 0 then (if dom = 0 then inc2 ||| 1 else inc2) ||| 1
              else (if dom = 0 then inc2 ||| 1 else inc2))
            (if dd2 &&& (ATTACHMENT ||| TOPOLOGY ||| CSV) = 0 then
              print_ice_info P dd2 aa.handle ice dom ple_no v2 else v2) with
          | none => intro r r2 _ hr; cases hr
          | some s2 =>
            simp only []
            exact ih _ _ _ _ _ _ (hple s1 s2 hl1 hl2)

/-- C19, amended. For a fixed fabric, two runs of `do_something` from the same
world that both return, and whose display settings gate alike, return the same
status, leave the environment in the same state and have issued the same
sequence of CT queries. Gating alike means: the same port states pass the
port-state mask (`hps`), the same domain ids pass the domain-id filter
(`hdom`), and `print_ice_info`, which under VERBOSE issues GIEIL and GIELN, is
called with VERBOSE in the same places, once per element (`hice`: VERBOSE
without ATTACHMENT, TOPOLOGY and CSV) and once per attached port that matches
the attached-port filter (`hatt`). With VERBOSE off in both runs `hice` and
`hatt` hold, so that the CSV flag, the attached-port filter and its value,
topology-only and the debug flag change only what is printed. The domain-id
filter and the port-state mask do gate queries, in every world: for an element
that the domain-id filter rejects the loop goes on to the next element right
after `get_domain_id`, and for a port that the port-state mask rejects it goes
on to the next port right after `get_port_state`. -/
theorem do_something_filters_queries {σ : Type} (P : Platform σ) (dd dd2 : Nat)
    (aa : adapter_attr) (value value2 : Nat) (w : World σ)
    (hice : (dd &&& VERBOSE ≠ 0 ∧ dd &&& (ATTACHMENT ||| TOPOLOGY ||| CSV) = 0) ↔
      (dd2 &&& VERBOSE ≠ 0 ∧ dd2 &&& (ATTACHMENT ||| TOPOLOGY ||| CSV) = 0))
    (hatt : ∀ d n, (dd &&& VERBOSE ≠ 0 ∧ (dd &&& ATTACHMENT ≠ 0 ∧ (value = d ∨ value = n))) ↔
      (dd2 &&& VERBOSE ≠ 0 ∧ (dd2 &&& ATTACHMENT ≠ 0 ∧ (value2 = d ∨ value2 = n))))
    (hps : ∀ ps, ps < 256 → (dd &&& ps = 0 ↔ dd2 &&& ps = 0))
    (hdom : ∀ d, (dd &&& DOMAIN ≠ 0 ∧ value ≠ d) ↔ (dd2 &&& DOMAIN ≠ 0 ∧ value2 ≠ d)) :
    (∀ r r2, do_something P dd aa value w = some r → do_something P dd2 aa value2 w = some r2 →
      r.1 = r2.1 ∧ r.2.st = r2.2.st ∧ queries r.2.trace = queries r2.2.trace) ∧
    (∀ (ice : interconnect_element) (rest : List interconnect_element) (icc : List ice_conn)
        (inc : Nat) (u : World σ),
      dd &&& DOMAIN ≠ 0 → value ≠ (get_domain_id P dd aa.handle ice.port_name u).1 →
      do_something_ice_loop P dd aa value (ice :: rest) icc inc u =
        do_something_ice_loop P dd aa value rest icc
          (if (get_domain_id P dd aa.handle ice.port_name u).1 = 0 then inc ||| 1 else inc)
          (get_domain_id P dd aa.handle ice.port_name u).2) ∧
    (∀ (ice : interconnect_element) (domain_id ple_no : Nat) (ple : port_list_entry)
        (rest : List port_list_entry) (icc : List ice_conn) (inc : Nat) (u : World σ),
      dd &&& (get_port_state P dd aa.handle ple.port_name u).1 = 0 →
      do_something_ple_loop P dd aa value ice domain_id ple_no (ple :: rest) icc inc u =
        do_something_ple_loop P dd aa value ice domain_id ple_no rest icc inc
          (get_port_state P dd aa.handle ple.port_name u).2) := by
  refine ⟨?_, ?_, ?_⟩
  rotate_left
  · intro ice rest icc inc u h1 h2
    rw [do_something_ice_loop]
    simp only []
    rw [if_pos ⟨h1, h2⟩]
  · intro ice domain_id ple_no ple rest icc inc u h1
    rw [do_something_ple_loop]
    simp only []
    rw [if_pos h1]
  have hs := get_ice_list_same_queries P dd dd2 aa.handle (same_queries_refl w)
  unfold do_something
  rcases h1 : get_ice_list P dd aa.handle w with ⟨o, w1⟩
  rcases h2 : get_ice_list P dd2 aa.handle w with ⟨o2, v1⟩
  rw [h1, h2] at hs
  obtain ⟨hoe, hsq1⟩ := hs
  simp only at hoe hsq1
  subst hoe
  cases o with
  | none => intro r r2 hr; cases hr
  | some ni =>
    obtain ⟨ice_no, ice⟩ := ni
    simp only []
    by_cases h0 : ice_no = 0
    · rw [if_pos h0, if_pos h0]
      intro r r2 hr hr2
      simp only [Option.some.injEq] at hr hr2
      subst hr; subst hr2
      have key : ∀ m m2 : Msg, same_queries (w1.printf m) (v1.printf m2) := fun m m2 =>
        same_queries_trans (same_queries_printf m w1)
          (same_queries_trans hsq1 (same_queries_symm (same_queries_printf m2 v1)))
      exact ⟨rfl, (key _ _).1, (key _ _).2⟩
    · rw [if_neg h0, if_neg h0]
      have hcsv : ∀ (d : Nat) (m : Msg) (u : World σ), same_queries
          (if d &&& CSV ≠ 0 then u.printf m else u) u :=
        fun d m u => same_queries_ite _ (same_queries_printf _ _) (same_queries_refl u)
      have hsq2 : ∀ m m2 : Msg, same_queries (if dd &&& CSV ≠ 0 then w1.printf m else w1)
          (if dd2 &&& CSV ≠ 0 then v1.printf m2 else v1) := fun m m2 =>
        same_queries_trans (hcsv dd m w1)
          (same_queries_trans hsq1 (same_queries_symm (hcsv dd2 m2 v1)))
      cases hl1 : do_something_ice_loop P dd aa value (ice.getD []) [] 0
        (if dd &&& CSV ≠ 0 then
          w1.printf (Msg.text ("ICE-name,domain,ICE-type,ppn,status,port name," ++
            "port module type,port TX type,port type," ++
            "att. port name,att. port ID,att. port type\n"))
        else w1) with
      | none => intro r r2 hr; cases hr
      | some s1 =>
        cases hl2 : do_something_ice_loop P dd2 aa value2 (ice.getD []) [] 0
          (if dd2 &&& CSV ≠ 0 then
            v1.printf (Msg.text ("ICE-name,domain,ICE-type,ppn,status,port name," ++
              "port module type,port TX type,port type," ++
              "att. port name,att. port ID,att. port type\n"))
          else v1) with
        | none => intro r r2 _ hr; cases hr
        | some s2 =>
          have hsq3 := do_something_ice_loop_same_queries P dd dd2 aa value value2 hice
            hatt hps hdom (ice.getD []) [] [] 0 0 _ _ (hsq2 _ _) s1 s2 hl1 hl2
          intro r r2 hr hr2
          simp only [Option.some.injEq] at hr hr2
          subst hr; subst hr2
          have hfin : ∀ (d : Nat) (s : List ice_conn × Nat × World σ), same_queries
              (if s.2.1 ≠ 0 then
                (if d &&& (TOPOLOGY ||| VERBOSE) ≠ 0 then
                  if s.1 ≠ [] then
                    print_topology s.1 (s.2.2.printf (Msg.text "\n\t*** Topology ***\n"))
                  else s.2.2.printf
                    (Msg.text "\n\t*** No topology information available ***\n")
                else s.2.2).printf (Msg.text INCOMPLETE_WARNING)
              else
                (if d &&& (TOPOLOGY ||| VERBOSE) ≠ 0 then
                  if s.1 ≠ [] then
                    print_topology s.1 (s.2.2.printf (Msg.text "\n\t*** Topology ***\n"))
                  else s.2.2.printf
                    (Msg.text "\n\t*** No topology information available ***\n")
                else s.2.2)) s.2.2 := by
            intro d s
            have hT : same_queries
                (if d &&& (TOPOLOGY ||| VERBOSE) ≠ 0 then
                  if s.1 ≠ [] then
                    print_topology s.1 (s.2.2.printf (Msg.text "\n\t*** Topology ***\n"))
                  else s.2.2.printf
                    (Msg.text "\n\t*** No topology information available ***\n")
                else s.2.2) s.2.2 :=
              same_queries_ite _
                (same_queries_ite _
                  (same_queries_trans (same_queries_print_topology_loop _ _ _ _)
                    (same_queries_printf _ _))
                  (same_queries_printf _ _))
                (same_queries_refl _)
            exact same_queries_ite _ (same_queries_trans (same_queries_printf _ _) hT) hT
          have := same_queries_trans (hfin dd s1)
            (same_queries_trans hsq3 (same_queries_symm (hfin dd2 s2)))
          exact ⟨rfl, this.1, this.2⟩


set_option maxRecDepth 100000 in
/-- C19, counterexample. On one and the same fabric (one interconnect element of
domain 1 with one online E_Port and one attached port of id 0x010203) the run
with no filter issues seven queries (GIEL, GDID, GPL, GPS, GPPN, GAPNL,
GID_PN), the run with the domain-id filter set to a domain that is not 1
issues two (GIEL, GDID) and the offline-only run issues four (GIEL, GDID, GPL,
GPS): the domain filter and the port-state filter skip the queries of what
they filter out. With VERBOSE the run with no filter issues GIEIL and GIELN
after GPL, the topology-only run and the CSV run issue neither, and the run
with the attached-port filter issues them after GID_PN when the value is the
attached port id and not at all when the value is 5. When the fabric does not
answer GAPNL the run with no filter returns after eight queries and the
topology-only run does not return. -/
theorem do_something_filters_counterexample :
    (do_something (fabric 0) 0xff ⟨7, 0x1900, 0, 0, "", 0⟩ 0 ⟨0, []⟩).map
        (fun r => cmd_codes Endian.big r.2.trace) =
      some [FCS_RCC_GIEL, FCS_RCC_GDID, FCS_RCC_GPL, FCS_RCC_GPS, FCS_RCC_GPPN, FCS_RCC_GAPNL,
        NS_RCC_GID_PN] ∧
    (do_something (fabric 0) (0xff ||| DOMAIN) ⟨7, 0x1900, 0, 0, "", 0⟩ 9 ⟨0, []⟩).map
        (fun r => cmd_codes Endian.big r.2.trace) =
      some [FCS_RCC_GIEL, FCS_RCC_GDID] ∧
    (do_something (fabric 0) OFFLINE ⟨7, 0x1900, 0, 0, "", 0⟩ 0 ⟨0, []⟩).map
        (fun r => cmd_codes Endian.big r.2.trace) =
      some [FCS_RCC_GIEL, FCS_RCC_GDID, FCS_RCC_GPL, FCS_RCC_GPS] ∧
    (do_something (fabric 0) (0xff ||| VERBOSE) ⟨7, 0x1900, 0, 0, "", 0⟩ 0 ⟨0, []⟩).map
        (fun r => cmd_codes Endian.big r.2.trace) =
      some [FCS_RCC_GIEL, FCS_RCC_GDID, FCS_RCC_GPL, FCS_RCC_GIEIL, FCS_RCC_GIELN, FCS_RCC_GPS,
        FCS_RCC_GPPN, FCS_RCC_GAPNL, NS_RCC_GID_PN] ∧
    (do_something (fabric 0) (0xff ||| VERBOSE ||| TOPOLOGY) ⟨7, 0x1900, 0, 0, "", 0⟩ 0
        ⟨0, []⟩).map (fun r => cmd_codes Endian.big r.2.trace) =
      some [FCS_RCC_GIEL, FCS_RCC_GDID, FCS_RCC_GPL, FCS_RCC_GPS, FCS_RCC_GPPN, FCS_RCC_GAPNL,
        NS_RCC_GID_PN] ∧
    (do_something (fabric 0) (0xff ||| VERBOSE ||| CSV) ⟨7, 0x1900, 0, 0, "", 0⟩ 0
        ⟨0, []⟩).map (fun r => cmd_codes Endian.big r.2.trace) =
      some [FCS_RCC_GIEL, FCS_RCC_GDID, FCS_RCC_GPL, FCS_RCC_GPS, FCS_RCC_GPPN, FCS_RCC_GAPNL,
        NS_RCC_GID_PN] ∧
    (do_something (fabric 0) (0xff ||| VERBOSE ||| ATTACHMENT) ⟨7, 0x1900, 0, 0, "", 0⟩
        0x010203 ⟨0, []⟩).map (fun r => cmd_codes Endian.big r.2.trace) =
      some [FCS_RCC_GIEL, FCS_RCC_GDID, FCS_RCC_GPL, FCS_RCC_GPS, FCS_RCC_GPPN, FCS_RCC_GAPNL,
        NS_RCC_GID_PN, FCS_RCC_GIEIL, FCS_RCC_GIELN] ∧
    (do_something (fabric 0) (0xff ||| VERBOSE ||| ATTACHMENT) ⟨7, 0x1900, 0, 0, "", 0⟩ 5
        ⟨0, []⟩).map (fun r => cmd_codes Endian.big r.2.trace) =
      some [FCS_RCC_GIEL, FCS_RCC_GDID, FCS_RCC_GPL, FCS_RCC_GPS, FCS_RCC_GPPN, FCS_RCC_GAPNL,
        NS_RCC_GID_PN] ∧
    (do_something (fabric FCS_RCC_GAPNL) 0xff ⟨7, 0x1900, 0, 0, "", 0⟩ 0 ⟨0, []⟩).map
        (fun r => cmd_codes Endian.big r.2.trace) =
      some [FCS_RCC_GIEL, FCS_RCC_GDID, FCS_RCC_GPL, FCS_RCC_GPS, FCS_RCC_GPPN, FCS_RCC_GAPNL,
        FCS_RCC_GAPNL, FCS_RCC_GAPNL] ∧
    do_something (fabric FCS_RCC_GAPNL) (0xff ||| TOPOLOGY) ⟨7, 0x1900, 0, 0, "", 0⟩ 0
        ⟨0, []⟩ = none := by
  refine ⟨?_, ?_, ?_, ?_, ?_, ?_, ?_, ?_, ?_, ?_⟩ <;> rfl

set_option maxRecDepth 100000 in
/-- On the small fabric each of these pairs of runs returns and issues the same
queries: no filter and CSV output with the attached-port filter (value 5) and
topology-only; with VERBOSE, topology-only and CSV output; with VERBOSE, no
filter with and without the debug flag. -/
theorem do_something_filters_queries_witness :
    (∃ r r2, do_something (fabric 0) 0xff ⟨7, 0x1900, 0, 0, "", 0⟩ 0 ⟨0, []⟩ = some r ∧
      do_something (fabric 0) (0xff ||| CSV ||| ATTACHMENT ||| TOPOLOGY) ⟨7, 0x1900, 0, 0, "", 0⟩
        5 ⟨0, []⟩ = some r2 ∧
      r.1 = r2.1 ∧ r.2.st = r2.2.st ∧ queries r.2.trace = queries r2.2.trace) ∧
    (∃ r r2,
      do_something (fabric 0) (0xff ||| VERBOSE ||| TOPOLOGY) ⟨7, 0x1900, 0, 0, "", 0⟩ 0
        ⟨0, []⟩ = some r ∧
      do_something (fabric 0) (0xff ||| VERBOSE ||| CSV) ⟨7, 0x1900, 0, 0, "", 0⟩ 0
        ⟨0, []⟩ = some r2 ∧
      r.1 = r2.1 ∧ r.2.st = r2.2.st ∧ queries r.2.trace = queries r2.2.trace) ∧
    (∃ r r2,
      do_something (fabric 0) (0xff ||| VERBOSE) ⟨7, 0x1900, 0, 0, "", 0⟩ 0 ⟨0, []⟩ = some r ∧
      do_something (fabric 0) (0xff ||| VERBOSE ||| DEBUG) ⟨7, 0x1900, 0, 0, "", 0⟩ 0
        ⟨0, []⟩ = some r2 ∧
      r.1 = r2.1 ∧ r.2.st = r2.2.st ∧ queries r.2.trace = queries r2.2.trace) := by
  refine ⟨?_, ?_, ?_⟩
  · obtain ⟨r, hr⟩ := Option.isSome_iff_exists.1
      (show (do_something (fabric 0) 0xff ⟨7, 0x1900, 0, 0, "", 0⟩ 0 ⟨0, []⟩).isSome = true
        from rfl)
    obtain ⟨r2, hr2⟩ := Option.isSome_iff_exists.1
      (show (do_something (fabric 0) (0xff ||| CSV ||| ATTACHMENT ||| TOPOLOGY)
        ⟨7, 0x1900, 0, 0, "", 0⟩ 5 ⟨0, []⟩).isSome = true from rfl)
    exact ⟨r, r2, hr, hr2,
      (do_something_filters_queries (fabric 0) 0xff (0xff ||| CSV ||| ATTACHMENT ||| TOPOLOGY)
        ⟨7, 0x1900, 0, 0, "", 0⟩ 0 5 ⟨0, []⟩
        ⟨fun h => absurd (by decide) h.1, fun h => absurd (by decide) h.1⟩
        (fun _ _ => ⟨fun h => absurd (by decide) h.1, fun h => absurd (by decide) h.1⟩)
        (by decide)
        (fun _ => ⟨fun h => absurd (by decide) h.1, fun h => absurd (by decide) h.1⟩)).1
        r r2 hr hr2⟩
  · obtain ⟨r, hr⟩ := Option.isSome_iff_exists.1
      (show (do_something (fabric 0) (0xff ||| VERBOSE ||| TOPOLOGY)
        ⟨7, 0x1900, 0, 0, "", 0⟩ 0 ⟨0, []⟩).isSome = true from rfl)
    obtain ⟨r2, hr2⟩ := Option.isSome_iff_exists.1
      (show (do_something (fabric 0) (0xff ||| VERBOSE ||| CSV)
        ⟨7, 0x1900, 0, 0, "", 0⟩ 0 ⟨0, []⟩).isSome = true from rfl)
    exact ⟨r, r2, hr, hr2,
      (do_something_filters_queries (fabric 0) (0xff ||| VERBOSE ||| TOPOLOGY)
        (0xff ||| VERBOSE ||| CSV) ⟨7, 0x1900, 0, 0, "", 0⟩ 0 0 ⟨0, []⟩
        ⟨fun h => absurd h.2 (by decide), fun h => absurd h.2 (by decide)⟩
        (fun _ _ => ⟨fun h => absurd (by decide) h.2.1, fun h => absurd (by decide) h.2.1⟩)
        (by decide)
        (fun _ => ⟨fun h => absurd (by decide) h.1, fun h => absurd (by decide) h.1⟩)).1
        r r2 hr hr2⟩
  · obtain ⟨r, hr⟩ := Option.isSome_iff_exists.1
      (show (do_something (fabric 0) (0xff ||| VERBOSE)
        ⟨7, 0x1900, 0, 0, "", 0⟩ 0 ⟨0, []⟩).isSome = true from rfl)
    obtain ⟨r2, hr2⟩ := Option.isSome_iff_exists.1
      (show (do_something (fabric 0) (0xff ||| VERBOSE ||| DEBUG)
        ⟨7, 0x1900, 0, 0, "", 0⟩ 0 ⟨0, []⟩).isSome = true from rfl)
    exact ⟨r, r2, hr, hr2,
      (do_something_filters_queries (fabric 0) (0xff ||| VERBOSE) (0xff ||| VERBOSE ||| DEBUG)
        ⟨7, 0x1900, 0, 0, "", 0⟩ 0 0 ⟨0, []⟩
        ⟨fun _ => ⟨by decide, by decide⟩, fun _ => ⟨by decide, by decide⟩⟩
        (fun _ _ => ⟨fun h => absurd (by decide) h.2.1, fun h => absurd (by decide) h.2.1⟩)
        (by decide)
        (fun _ => ⟨fun h => absurd (by decide) h.1, fun h => absurd (by decide) h.1⟩)).1
        r r2 hr hr2⟩

/-! ## The incomplete flag of do_something -/

set_option maxRecDepth 100000 in
/-- C18, evaluated on the small fabric with every port state shown and one query
kind left without response. When get_ppn (GPPN) fails, the walk returns 0 after
sending GPPN three times and going on with GAPNL and GID_PN, and the
incomplete-data warning is not in the output; likewise when get_port_state
(GPS) fails (the port is skipped: no GPPN, GAPNL, GID_PN follow) and when
get_destination_id (GID_PN) fails. When get_domain_id (GDID) fails the warning
is printed. -/
theorem do_something_incomplete_unflagged :
    (do_something (fabric FCS_RCC_GPPN) 0xff ⟨7, 0x1900, 0, 0, "", 0⟩ 0 ⟨0, []⟩).map
        (fun r => (r.1, cmd_codes Endian.big r.2.trace,
          decide (Event.print (Msg.text INCOMPLETE_WARNING) ∈ r.2.trace))) =
      some (0, [FCS_RCC_GIEL, FCS_RCC_GDID, FCS_RCC_GPL, FCS_RCC_GPS, FCS_RCC_GPPN,
        FCS_RCC_GPPN, FCS_RCC_GPPN, FCS_RCC_GAPNL, NS_RCC_GID_PN], false) ∧
    (do_something (fabric FCS_RCC_GPS) 0xff ⟨7, 0x1900, 0, 0, "", 0⟩ 0 ⟨0, []⟩).map
        (fun r => (r.1, cmd_codes Endian.big r.2.trace,
          decide (Event.print (Msg.text INCOMPLETE_WARNING) ∈ r.2.trace))) =
      some (0, [FCS_RCC_GIEL, FCS_RCC_GDID, FCS_RCC_GPL, FCS_RCC_GPS, FCS_RCC_GPS,
        FCS_RCC_GPS], false) ∧
    (do_something (fabric NS_RCC_GID_PN) 0xff ⟨7, 0x1900, 0, 0, "", 0⟩ 0 ⟨0, []⟩).map
        (fun r => (r.1, cmd_codes Endian.big r.2.trace,
          decide (Event.print (Msg.text INCOMPLETE_WARNING) ∈ r.2.trace))) =
      some (0, [FCS_RCC_GIEL, FCS_RCC_GDID, FCS_RCC_GPL, FCS_RCC_GPS, FCS_RCC_GPPN,
        FCS_RCC_GAPNL, NS_RCC_GID_PN, NS_RCC_GID_PN, NS_RCC_GID_PN], false) ∧
    (do_something (fabric FCS_RCC_GDID) 0xff ⟨7, 0x1900, 0, 0, "", 0⟩ 0 ⟨0, []⟩).map
        (fun r => (r.1, cmd_codes Endian.big r.2.trace,
          decide (Event.print (Msg.text INCOMPLETE_WARNING) ∈ r.2.trace))) =
      some (0, [FCS_RCC_GIEL, FCS_RCC_GDID, FCS_RCC_GDID, FCS_RCC_GDID, FCS_RCC_GPL,
        FCS_RCC_GPS, FCS_RCC_GPPN, FCS_RCC_GAPNL, NS_RCC_GID_PN], true) := by
  refine ⟨?_, ?_, ?_, ?_⟩ <;> rfl

/-! ## The reject tables outside their entries -/

/-- C21, counterexample. The reason codes 0x06 and 0x20 and the explanation code
0x05 have no table entry: the table element is a null pointer, not an
"Unknown" string, and `print_error` prints with that null pointer. -/
theorem print_error_unknown_counterexample :
    RET_CODES 0x06 = none ∧ RET_CODES 0x20 = none ∧ RC_EXPL 0x05 = none ∧
    RET_CODES 0x06 ≠ some "Unknown" ∧ RC_EXPL 0x05 ≠ some "Unknown" ∧
    (print_error 0x06 0x00 (⟨0, []⟩ : World Nat)).trace =
      [Event.print (Msg.error none none)] ∧
    (print_error 0x09 0x05 (⟨0, []⟩ : World Nat)).trace =
      [Event.print (Msg.error (some "Unable to perform command request") (some none))] := by
  refine ⟨rfl, rfl, rfl, by decide, by decide, rfl, rfl⟩

/-- C21, amended. For every reason code that is not one of the eleven known codes
the element of `ret_codes[]` is a null pointer, and for every explanation code
without table entry the element of `rc_expl[]` is a null pointer; `print_error`
hands that pointer to `printf` as it is. -/
theorem print_error_unknown_codes {σ : Type} (rc expl : Nat) (w : World σ) :
    (rc ∉ [0x01, 0x02, 0x03, 0x04, 0x05, 0x07, 0x09, 0x0b, 0x0d, 0x0e, 0xff] →
      RET_CODES rc = none ∧
      (print_error rc expl w).trace = w.trace ++ [Event.print (Msg.error none none)]) ∧
    (expl ∉ [0x00, 0x01, 0x02, 0x03, 0x04, 0x06, 0x07, 0x08, 0x09, 0x0a, 0x0c, 0x0d, 0x0f,
        0x10, 0x11, 0x12, 0x13, 0x14, 0x15, 0x16, 0x30, 0x31, 0x32, 0x34, 0x36,
        0xf0, 0xf1, 0xf2, 0xf3, 0xf4, 0xf5, 0xf6, 0xff] →
      RC_EXPL expl = none ∧
      (print_error RC_UNABLE_TO_PERFORM_CMND_REQUEST expl w).trace = w.trace ++
        [Event.print (Msg.error (some "Unable to perform command request") (some none))]) := by
  constructor
  · intro h
    simp only [List.mem_cons, List.mem_singleton, List.not_mem_nil, or_false, not_or] at h
    obtain ⟨h1, h2, h3, h4, h5, h7, h9, hb, hd, he, hf⟩ := h
    have hr : RET_CODES rc = none := by
      simp only [RET_CODES, h1, h2, h3, h4, h5, h7, h9, hb, hd, he, hf, if_false]
    refine ⟨hr, ?_⟩
    simp only [print_error, World.printf, hr, RC_UNABLE_TO_PERFORM_CMND_REQUEST, h9, if_false]
  · intro h
    simp only [List.mem_cons, List.mem_singleton, List.not_mem_nil, or_false, not_or] at h
    have hr : RC_EXPL expl = none := by
      simp only [RC_EXPL, h, if_false]
    refine ⟨hr, ?_⟩
    simp only [print_error, World.printf, hr, RC_UNABLE_TO_PERFORM_CMND_REQUEST, RET_CODES]
    rfl

/-- C21 at reason code 0x06 and explanation code 0x05. -/
theorem print_error_unknown_codes_witness :
    (RET_CODES 0x06 = none ∧
      (print_error 0x06 0x05 (⟨0, []⟩ : World Nat)).trace =
        [] ++ [Event.print (Msg.error none none)]) ∧
    (RC_EXPL 0x05 = none ∧
      (print_error RC_UNABLE_TO_PERFORM_CMND_REQUEST 0x05 (⟨0, []⟩ : World Nat)).trace = [] ++
        [Event.print (Msg.error (some "Unable to perform command request") (some none))]) :=
  ⟨(print_error_unknown_codes 0x06 0x05 ⟨0, []⟩).1 (by decide),
    (print_error_unknown_codes 0x06 0x05 ⟨0, []⟩).2 (by decide)⟩

/-! ## Byte order -/

set_option maxRecDepth 100000 in
/-- C22, counterexample. On a little-endian host `send_ct_pt` places the command
code 0x0126 least-significant byte first (0x26 at offset 8, 0x01 at offset 9)
and the size field likewise, and `get_ppn` reads the payload `00 00 00 05` as
0x05000000. -/
theorem byte_order_counterexample :
    (send_ct_pt_req Endian.little 24 20 0x0126 (host_bytes Endian.little 8 0x200000051e000001)
        0x01 0xfa).take 12 = [3, 0, 0, 0, 0xfa, 1, 0, 0, 0x26, 0x01, 1, 0] ∧
    (get_ppn (constant_reply Endian.little 0
        [1, 0, 0, 0, 0xfa, 1, 0, 0, 0x02, 0x80, 0, 1, 0, 0, 0, 0, 0, 0, 0, 5])
        0 7 0x200000051e000001 ⟨0, []⟩).1 = 0x05000000 := by
  refine ⟨?_, ?_⟩ <;> rfl

/-- C22, amended. Encoding and decoding follow the byte order of the host. On a
big-endian host `send_ct_pt` places the command code most-significant byte
first at request offsets 8 and 9 and the size field likewise at offsets 10 and
11, `send_ct` accepts a response whose bytes 8 and 9 are 0x80 0x02, and
`get_ice_list` and `get_ppn` read the entry count and the 4-byte value at
response offsets 16 to 19 most-significant byte first; on a little-endian host
all of these are least-significant byte first. -/
theorem byte_order_follows_host {σ : Type} (P : Platform σ) (display_detail handle : Nat)
    (req_s resp_s cmd : Nat) (c_param : List Nat) (gs_subtype gs_type port_name : Nat)
    (w : World σ) (hreq : 16 ≤ req_s) (hreq32 : req_s < 2 ^ 32)
    (hlen : req_s - 16 ≤ c_param.length) (hcmd : cmd < 65536) :
    ((send_ct_pt_req P.endian req_s resp_s cmd c_param gs_subtype gs_type).drop 8).take 4 =
        (match P.endian with
          | Endian.big =>
            [cmd / 256, cmd % 256,
              (resp_s + 2 ^ 64 - 16) % 2 ^ 64 / 4 % 65536 / 256,
              (resp_s + 2 ^ 64 - 16) % 2 ^ 64 / 4 % 65536 % 256]
          | Endian.little =>
            [cmd % 256, cmd / 256,
              (resp_s + 2 ^ 64 - 16) % 2 ^ 64 / 4 % 65536 % 256,
              (resp_s + 2 ^ 64 - 16) % 2 ^ 64 / 4 % 65536 / 256]) ∧
    (∀ resp w1,
      send_ct_pt P display_detail handle req_s resp_s cmd c_param gs_subtype gs_type w
        = (some resp, w1) →
      (match P.endian with
        | Endian.big => peek resp 8 * 256 + peek resp 9
        | Endian.little => peek resp 9 * 256 + peek resp 8) = 0x8002 →
      send_ct P display_detail handle req_s resp_s cmd c_param gs_subtype gs_type w
        = (some resp, w1)) ∧
    (∀ resp w1 r,
      send_ct P display_detail handle CT_IU_PREAMBLE_SIZE (CT_IU_PREAMBLE_SIZE + PL_SIZE 100)
        FCS_RCC_GIEL [] SUBTYPE_FABRIC_CONFIGURATION_SERVER GS_TYPE_MANAGEMENT_SERVICE w
        = (some resp, w1) →
      (get_ice_list P display_detail handle w).1 = some r →
      r.1 = (match P.endian with
        | Endian.big =>
          ((peek resp 16 * 256 + peek resp 17) * 256 + peek resp 18) * 256 + peek resp 19
        | Endian.little =>
          ((peek resp 19 * 256 + peek resp 18) * 256 + peek resp 17) * 256 + peek resp 16)) ∧
    (∀ resp w1,
      send_ct P display_detail handle (CT_IU_PREAMBLE_SIZE + 8) (CT_IU_PREAMBLE_SIZE + 4)
        FCS_RCC_GPPN (host_bytes P.endian 8 port_name) SUBTYPE_FABRIC_CONFIGURATION_SERVER
        GS_TYPE_MANAGEMENT_SERVICE w = (some resp, w1) →
      (get_ppn P display_detail handle port_name w).1 = (match P.endian with
        | Endian.big =>
          ((peek resp 16 * 256 + peek resp 17) * 256 + peek resp 18) * 256 + peek resp 19
        | Endian.little =>
          ((peek resp 19 * 256 + peek resp 18) * 256 + peek resp 17) * 256 + peek resp 16)) := by
  refine ⟨?_, ?_, ?_, ?_⟩
  · rw [send_ct_pt_req_eq P.endian req_s resp_s cmd c_param gs_subtype gs_type hreq hreq32 hlen,
      host_bytes_two, host_bytes_two, Nat.mod_eq_of_lt hcmd]
    have h1 : cmd / 256 % 256 = cmd / 256 := Nat.mod_eq_of_lt (by omega)
    have h2 : (resp_s + 2 ^ 64 - 16) % 2 ^ 64 / 4 % 65536 / 256 % 256 =
        (resp_s + 2 ^ 64 - 16) % 2 ^ 64 / 4 % 65536 / 256 := Nat.mod_eq_of_lt (by omega)
    have h3 : (resp_s + 2 ^ 64 - 16) % 2 ^ 64 / 4 % 65536 % 256 % 256 =
        (resp_s + 2 ^ 64 - 16) % 2 ^ 64 / 4 % 65536 % 256 := Nat.mod_eq_of_lt (by omega)
    cases P.endian <;> simp <;> omega
  · intro resp w1 h hcode
    have hc : load P.endian resp CT_IU_CODE_OFFSET 2 = GS_ACCEPT_RESPONSE_CT_IU := by
      rw [load_two]
      exact hcode
    exact send_ct_loop_accept P display_detail handle req_s resp_s cmd c_param gs_subtype gs_type
      2 w w1 resp h hc
  · intro resp w1 r h hr
    unfold get_ice_list at hr
    rw [h] at hr
    simp only [Option.map_eq_some'] at hr
    obtain ⟨ice, _, hice⟩ := hr
    rw [← hice, load_four]
    cases P.endian <;> simp [peek, CT_IU_PREAMBLE_SIZE, List.getD_eq_getElem?_getD]
  · intro resp w1 h
    unfold get_ppn
    rw [h]
    simp only []
    rw [load_four]
    rfl

set_option maxRecDepth 100000 in
/-- C22 on a big-endian host: the command code 0x0122 goes out as 01 22, the size
as 00 01, and the accepted payload `00 00 00 07` is read as 7. -/
theorem byte_order_follows_host_witness :
    ((send_ct_pt_req Endian.big 24 20 FCS_RCC_GPPN (host_bytes Endian.big 8 0x200000051e000001)
        0x01 0xfa).drop 8).take 4 = [0x01, 0x22, 0, 1] ∧
    (get_ppn (constant_reply Endian.big 0 ACCEPT_IU) 0 7 0x200000051e000001 ⟨0, []⟩).1 = 7 :=
  ⟨(byte_order_follows_host (constant_reply Endian.big 0 ACCEPT_IU) 0 7 24 20 FCS_RCC_GPPN
      (host_bytes Endian.big 8 0x200000051e000001) 0x01 0xfa 0x200000051e000001 ⟨0, []⟩
      (by decide) (by decide) (by decide) (by decide)).1,
    (byte_order_follows_host (constant_reply Endian.big 0 ACCEPT_IU) 0 7 24 20 FCS_RCC_GPPN
      (host_bytes Endian.big 8 0x200000051e000001) 0x01 0xfa 0x200000051e000001 ⟨0, []⟩
      (by decide) (by decide) (by decide) (by decide)).2.2.2 ACCEPT_IU _ rfl⟩

/-! ## WWN or fabric address -/

theorem wwn_mask_eq : (0xffffffffff000000 : Nat) = (2 ^ 40 - 1) <<< 24 := by decide

/-- A `uint64_t` has a bit of the mask 0xffffffffff000000 exactly when it is at
least 2^24. -/
theorem and_wwn_mask_ne_zero_iff (v : Nat) (h : v < 2 ^ 64) :
    v &&& 0xffffffffff000000 ≠ 0 ↔ 2 ^ 24 ≤ v := by
  rw [wwn_mask_eq]
  constructor
  · intro hne
    by_contra hlt
    apply hne
    apply Nat.eq_of_testBit_eq
    intro i
    simp only [Nat.testBit_and, Nat.testBit_shiftLeft, Nat.testBit_two_pow_sub_one,
      Nat.zero_testBit]
    by_cases hi : 24 ≤ i
    · have : v.testBit i = false :=
        Nat.testBit_lt_two_pow (lt_of_lt_of_le (not_le.mp hlt) (Nat.pow_le_pow_right (by decide) hi))
      simp [this]
    · simp [hi]
  · intro hle hz
    have hlt : v < 2 ^ 24 := by
      apply Nat.lt_pow_two_of_testBit
      intro i hi
      by_cases h64 : i < 64
      · have := congrArg (fun x => x.testBit i) hz
        simp only [Nat.testBit_and, Nat.testBit_shiftLeft, Nat.testBit_two_pow_sub_one,
          Nat.zero_testBit] at this
        have h1 : decide (i ≥ 24) = true := by simpa using hi
        have h2 : decide (i - 24 < 40) = true := by simp; omega
        simpa [h1, h2] using this
      · exact Nat.testBit_lt_two_pow (lt_of_lt_of_le h (Nat.pow_le_pow_right (by decide) (by omega)))
    omega

/-- A number has a bit set at position 24 or above exactly when it is at least 2^24. -/
theorem high_bit_iff (v : Nat) : (∃ i, 24 ≤ i ∧ v.testBit i = true) ↔ 2 ^ 24 ≤ v := by
  constructor
  · rintro ⟨i, hi, hb⟩
    by_contra hlt
    have : v.testBit i = false :=
      Nat.testBit_lt_two_pow (lt_of_lt_of_le (not_le.mp hlt) (Nat.pow_le_pow_right (by decide) hi))
    rw [this] at hb
    exact Bool.noConfusion hb
  · intro hle
    by_contra hne
    have hlt : v < 2 ^ 24 := by
      apply Nat.lt_pow_two_of_testBit
      intro i hi
      by_contra hb
      exact hne ⟨i, hi, by simpa using hb⟩
    omega

/-- C23, counterexample. The value 0x1000000 has no bit set above bit 39 (it is
below 2^40), yet `fc_get_hba_handle` takes it for a WWPN and `send_fc_ping`
sends it with the WWPN tag. -/
theorem selector_counterexample :
    (0x1000000 : Nat) < 2 ^ 40 ∧
    fc_get_hba_handle_id plain_libc "0x1000000" = some (addr_type.WWPN, 0x1000000) ∧
    (send_fc_ping_setup 0x1000000 0).1.tag = FC_TAG_WWPN := by
  refine ⟨by decide, by decide, by decide⟩

/-- C23, amended. A nonzero numeric selector value `v` (the `uint64_t` that
`strtoull` reads from an argument without "." and "host") is treated as a WWN
if and only if it has some bit set at position 24 or above, and as a 24-bit
fabric address otherwise, both by `fc_get_hba_handle` for the adapter and by
`send_fc_ping` for the destination. -/
theorem selector_wwn_iff_high_bit (L : Libc) (arg : String) (v token : Nat)
    (hdot : strstr arg "." = false) (hhost : strstr arg "host" = false)
    (hv : L.strtoull arg 0 = v) (h0 : v ≠ 0) (h64 : v < 2 ^ 64) :
    (fc_get_hba_handle_id L arg = some (addr_type.WWPN, v) ↔
      ∃ i, 24 ≤ i ∧ v.testBit i = true) ∧
    (fc_get_hba_handle_id L arg = some (addr_type.NPORT, v) ↔
      ¬ ∃ i, 24 ≤ i ∧ v.testBit i = true) ∧
    ((send_fc_ping_setup v token).1.tag = FC_TAG_WWPN ↔ ∃ i, 24 ≤ i ∧ v.testBit i = true) ∧
    ((send_fc_ping_setup v token).1 =
        ⟨FC_PNG_REV, FC_TAG_NPORT, 4, ((v &&& 0xFFFFFF) <<< 8) % 2 ^ 32, token⟩ ↔
      ¬ ∃ i, 24 ≤ i ∧ v.testBit i = true) := by
  rw [high_bit_iff, ← and_wwn_mask_ne_zero_iff v h64]
  by_cases hm : v &&& 0xffffffffff000000 ≠ 0
  · have hm2 : v &&& 0xFFFFFFFFFF000000 ≠ 0 := hm
    simp [fc_get_hba_handle_id, send_fc_ping_setup, hdot, hhost, hv, h0, hm, FC_TAG_WWPN,
      FC_TAG_NPORT]
  · have hm2 : ¬ v &&& 0xFFFFFFFFFF000000 ≠ 0 := hm
    simp [fc_get_hba_handle_id, send_fc_ping_setup, hdot, hhost, hv, h0, hm, FC_TAG_WWPN,
      FC_TAG_NPORT]

/-- C23 at the fabric address 0x010203. -/
theorem selector_wwn_iff_high_bit_witness :
    (fc_get_hba_handle_id plain_libc "0x010203" = some (addr_type.WWPN, 0x010203) ↔
      ∃ i, 24 ≤ i ∧ (0x010203 : Nat).testBit i = true) ∧
    (fc_get_hba_handle_id plain_libc "0x010203" = some (addr_type.NPORT, 0x010203) ↔
      ¬ ∃ i, 24 ≤ i ∧ (0x010203 : Nat).testBit i = true) ∧
    ((send_fc_ping_setup 0x010203 7).1.tag = FC_TAG_WWPN ↔
      ∃ i, 24 ≤ i ∧ (0x010203 : Nat).testBit i = true) ∧
    ((send_fc_ping_setup 0x010203 7).1 =
        ⟨FC_PNG_REV, FC_TAG_NPORT, 4, ((0x010203 &&& 0xFFFFFF) <<< 8) % 2 ^ 32, 7⟩ ↔
      ¬ ∃ i, 24 ≤ i ∧ (0x010203 : Nat).testBit i = true) :=
  selector_wwn_iff_high_bit plain_libc "0x010203" 0x010203 7 (by decide) (by decide)
    (by decide) (by decide) (by decide)

/-! ## The exit status of zfcp_ping -/

set_option maxRecDepth 100000 in
/-- C24, evaluated. A ping to the fabric address 0x010203 with the default
options, on an adapter that is found: when every FPNG request is rejected, when
the response is neither accept nor reject, and when every transport call fails,
`send_fc_ping` returns HBA_STATUS_ERROR and `main` prints "Error received for
FPNG request, aborting.", yet the exit status of the process is 0, as after a
run in which every ping was echoed: `timing_results(0)` calls `exit(0)` before
`main` gets to `return rc`. A bad count, which ends `main` before the ping,
gives exit status 1. -/
theorem zfcp_ping_exit_status_after_failure :
    (send_fc_ping (constant_reply Endian.big 0 (REJECT_IU 9 0)) 0xff
        ⟨7, 0x1900, 0x5005076401a0b3c5, 0x010100, "/sys/class/fc_host/host0", 0⟩ 0x010203 0 3 10
        ⟨0, 0, 0⟩ (⟨0, []⟩ : World Nat)).map (fun r => r.1) = some HBA_STATUS_ERROR ∧
    (zfcp_ping_main (constant_reply Endian.big 0 (REJECT_IU 9 0)) plain_libc HBA_STATUS_OK
        one_adapter [] ["0x010203"] 10 ⟨0, []⟩).map
      (fun r => (r.1, decide (Event.print
        (Msg.text "Error received for FPNG request, aborting.\n") ∈ r.2.trace))) =
      some (0, true) ∧
    (zfcp_ping_main (constant_reply Endian.big 0 ODD_IU) plain_libc HBA_STATUS_OK
        one_adapter [] ["0x010203"] 10 ⟨0, []⟩).map
      (fun r => (r.1, decide (Event.print
        (Msg.text "Error received for FPNG request, aborting.\n") ∈ r.2.trace))) =
      some (0, true) ∧
    (zfcp_ping_main (constant_reply Endian.big 1 []) plain_libc HBA_STATUS_OK
        one_adapter [] ["0x010203"] 10 ⟨0, []⟩).map
      (fun r => (r.1, calls r.2.trace, decide (Event.print
        (Msg.text "Error received for FPNG request, aborting.\n") ∈ r.2.trace))) =
      some (0, 3, true) ∧
    (zfcp_ping_main (constant_reply Endian.big 0 ACCEPT_IU) plain_libc HBA_STATUS_OK
        one_adapter [('c', "2")] ["0x010203"] 10 ⟨0, []⟩).map
      (fun r => (r.1, echoes r.2.trace, decide (Event.print
        (Msg.text "Error received for FPNG request, aborting.\n") ∈ r.2.trace))) =
      some (0, [0, 1], false) ∧
    (zfcp_ping_main (constant_reply Endian.big 0 ACCEPT_IU) plain_libc HBA_STATUS_OK
        one_adapter [('c', "x")] ["0x010203"] 10 ⟨0, []⟩).map (fun r => (r.1, calls r.2.trace)) =
      some (1, 0) := by
  refine ⟨?_, ?_, ?_, ?_, ?_, ?_⟩ <;> rfl

/-! ## Online-only and offline-only -/

set_option maxRecDepth 100000 in
/-- C25, evaluated on the small fabric. With only -o given `display_detail` is
0x01 and with only -O it is 0x02. A port that reports the state Testing (0x03)
is processed and printed under -o and under -O (GPPN is sent and the port
line appears), and so is a port in the state Vendor (0xff); a port in the state
Fault (0x04) is skipped under -o. -/
theorem zfcp_show_online_only_shows_testing :
    (zfcp_show_getopt plain_libc [('o', "")] ⟨"", 0xff, 0, 0, 0⟩
      (⟨0, []⟩ : World Nat)).2.1.display_detail = 0x01 ∧
    (zfcp_show_getopt plain_libc [('O', "")] ⟨"", 0xff, 0, 0, 0⟩
      (⟨0, []⟩ : World Nat)).2.1.display_detail = 0x02 ∧
    (zfcp_show_main (fabric_in_state 0x03) plain_libc HBA_STATUS_OK one_adapter [('o', "")] 10
        ⟨0, []⟩).map
      (fun r => (r.1, cmd_codes Endian.big r.2.trace, decide (Event.print
        (Msg.fmt "\tICE Port %03d  %s\n" [Arg.num 5, Arg.tab "port_state" 0x03]) ∈ r.2.trace))) =
      some (0, [FCS_RCC_GIEL, FCS_RCC_GDID, FCS_RCC_GPL, FCS_RCC_GPS, FCS_RCC_GPPN], true) ∧
    (zfcp_show_main (fabric_in_state 0x03) plain_libc HBA_STATUS_OK one_adapter [('O', "")] 10
        ⟨0, []⟩).map
      (fun r => (r.1, cmd_codes Endian.big r.2.trace, decide (Event.print
        (Msg.fmt "\tICE Port %03d  %s\n" [Arg.num 5, Arg.tab "port_state" 0x03]) ∈ r.2.trace))) =
      some (0, [FCS_RCC_GIEL, FCS_RCC_GDID, FCS_RCC_GPL, FCS_RCC_GPS, FCS_RCC_GPPN], true) ∧
    (zfcp_show_main (fabric_in_state 0xff) plain_libc HBA_STATUS_OK one_adapter [('o', "")] 10
        ⟨0, []⟩).map
      (fun r => (r.1, cmd_codes Endian.big r.2.trace, decide (Event.print
        (Msg.fmt "\tICE Port %03d  %s\n" [Arg.num 5, Arg.tab "port_state" 0xff]) ∈ r.2.trace))) =
      some (0, [FCS_RCC_GIEL, FCS_RCC_GDID, FCS_RCC_GPL, FCS_RCC_GPS, FCS_RCC_GPPN], true) ∧
    (zfcp_show_main (fabric_in_state 0x04) plain_libc HBA_STATUS_OK one_adapter [('o', "")] 10
        ⟨0, []⟩).map
      (fun r => (r.1, cmd_codes Endian.big r.2.trace, decide (Event.print
        (Msg.fmt "\tICE Port %03d  %s\n" [Arg.num 5, Arg.tab "port_state" 0x04]) ∈ r.2.trace))) =
      some (0, [FCS_RCC_GIEL, FCS_RCC_GDID, FCS_RCC_GPL, FCS_RCC_GPS], false) := by
  refine ⟨?_, ?_, ?_, ?_, ?_, ?_⟩ <;> rfl

/-! ## Consecutive transport failures in send_fc_ping -/

/-- Each passage of the loop makes one transport call. -/
theorem send_fc_ping_attempt_calls {σ : Type} (P : Platform σ) (display_detail : Nat)
    (aa : adapter_attr) (size : Nat) (p : fpng) (w : World σ) :
    calls (send_fc_ping_attempt P display_detail aa size p w).2.2.2.trace = calls w.trace + 1 := by
  simp only [send_fc_ping_attempt, World.gettimeofday]
  exact send_ct_pt_calls P display_detail aa.handle size (CT_IU_PREAMBLE_SIZE + 4) FCS_RCC_FPNG
    (fpng_bytes P.endian p) SUBTYPE_FABRIC_CONFIGURATION_SERVER GS_TYPE_MANAGEMENT_SERVICE _

theorem ping_after_calls {σ : Type} (P : Platform σ) (display_detail : Nat)
    (aa : adapter_attr) (size : Nat) (p : fpng) :
    ∀ (k : Nat) (w : World σ),
      calls (ping_after P display_detail aa size p k w).trace = calls w.trace + k := by
  intro k
  induction k with
  | zero => intro w; rfl
  | succ k ih =>
    intro w
    rw [ping_after, ih, send_fc_ping_attempt_calls]
    omega

/-- A passage without response while retries are left: the loop goes on with one
retry less. -/
theorem send_fc_ping_loop_no_response {σ : Type} (P : Platform σ) (display_detail : Nat)
    (aa : adapter_attr) (dest_val size fuel : Nat) (p : fpng) (retry count : Nat)
    (ts : time_stat) (w : World σ) (hcount : count ≠ 0) (hretry : retry ≠ 0)
    (h : (send_fc_ping_attempt P display_detail aa size p w).2.2.1.isNone = true) :
    send_fc_ping_loop P display_detail aa dest_val size (fuel + 1) p retry count ts w
      = send_fc_ping_loop P display_detail aa dest_val size fuel p (retry - 1) count ts
          (send_fc_ping_attempt P display_detail aa size p w).2.2.2 := by
  simp only [send_fc_ping_attempt, Option.isNone_iff_eq_none] at h
  rw [send_fc_ping_loop]
  simp [hcount, h, hretry, send_fc_ping_attempt]

/-- A passage without response when no retry is left: the loop returns
HBA_STATUS_ERROR. -/
theorem send_fc_ping_loop_give_up {σ : Type} (P : Platform σ) (display_detail : Nat)
    (aa : adapter_attr) (dest_val size fuel : Nat) (p : fpng) (count : Nat)
    (ts : time_stat) (w : World σ) (hcount : count ≠ 0)
    (h : (send_fc_ping_attempt P display_detail aa size p w).2.2.1.isNone = true) :
    send_fc_ping_loop P display_detail aa dest_val size (fuel + 1) p 0 count ts w
      = some (HBA_STATUS_ERROR, ts, (send_fc_ping_attempt P display_detail aa size p w).2.2.2) := by
  simp only [send_fc_ping_attempt, Option.isNone_iff_eq_none] at h
  rw [send_fc_ping_loop]
  simp [hcount, h, send_fc_ping_attempt]

/-- A passage with a response does not look at the retries that were left. -/
theorem send_fc_ping_loop_response {σ : Type} (P : Platform σ) (display_detail : Nat)
    (aa : adapter_attr) (dest_val size fuel : Nat) (p : fpng) (retry retry2 count : Nat)
    (ts : time_stat) (w : World σ)
    (h : (send_fc_ping_attempt P display_detail aa size p w).2.2.1.isSome = true) :
    send_fc_ping_loop P display_detail aa dest_val size (fuel + 1) p retry count ts w
      = send_fc_ping_loop P display_detail aa dest_val size (fuel + 1) p retry2 count ts w := by
  simp only [send_fc_ping_attempt, Option.isSome_iff_exists] at h
  obtain ⟨resp, h⟩ := h
  rw [send_fc_ping_loop, send_fc_ping_loop]
  simp only [h]

/-- After `k` passages without response, with at least `k` retries left, the
loop is where it was with `k` retries less. -/
theorem send_fc_ping_loop_failures {σ : Type} (P : Platform σ) (display_detail : Nat)
    (aa : adapter_attr) (dest_val size fuel : Nat) (p : fpng) (count : Nat)
    (ts : time_stat) (hcount : count ≠ 0) :
    ∀ (k retry : Nat) (w : World σ), k ≤ retry →
      ping_all_fail P display_detail aa size p k w = true →
      send_fc_ping_loop P display_detail aa dest_val size (fuel + k) p retry count ts w
        = send_fc_ping_loop P display_detail aa dest_val size fuel p (retry - k) count ts
            (ping_after P display_detail aa size p k w) := by
  intro k
  induction k with
  | zero => intro retry w _ _; rfl
  | succ k ih =>
    intro retry w hk hf
    simp only [ping_all_fail, Bool.and_eq_true] at hf
    have hstep := send_fc_ping_loop_no_response P display_detail aa dest_val size (fuel + k) p
      retry count ts w hcount (by omega) hf.1
    rw [show fuel + (k + 1) = fuel + k + 1 from rfl, hstep, ih (retry - 1) _ (by omega) hf.2,
      ping_after]
    congr 1
    omega

theorem ping_all_fail_succ {σ : Type} (P : Platform σ) (display_detail : Nat)
    (aa : adapter_attr) (size : Nat) (p : fpng) :
    ∀ (k : Nat) (w : World σ), ping_all_fail P display_detail aa size p (k + 1) w =
      (ping_all_fail P display_detail aa size p k w &&
        (send_fc_ping_attempt P display_detail aa size p
          (ping_after P display_detail aa size p k w)).2.2.1.isNone) := by
  intro k
  induction k with
  | zero => intro w; simp [ping_all_fail, ping_after]
  | succ k ih =>
    intro w
    rw [ping_all_fail, ih, ping_all_fail, ping_after, Bool.and_assoc]

theorem ping_after_succ {σ : Type} (P : Platform σ) (display_detail : Nat)
    (aa : adapter_attr) (size : Nat) (p : fpng) :
    ∀ (k : Nat) (w : World σ), ping_after P display_detail aa size p (k + 1) w =
      (send_fc_ping_attempt P display_detail aa size p
        (ping_after P display_detail aa size p k w)).2.2.2 := by
  intro k
  induction k with
  | zero => intro w; rfl
  | succ k ih => intro w; rw [ping_after, ih, ping_after]

/-- C28. In the loop of `send_fc_ping`, with pings still to send and the retry
counter at 2 (its value at the start and after every response): when the next
three transport calls deliver no response the loop returns HBA_STATUS_ERROR
right after the third, having made exactly these three calls; when only k < 3
calls deliver no response and the next one delivers a response, the loop goes
on with that response exactly as it would with a fresh retry counter, so the
ping is not aborted. -/
theorem send_fc_ping_three_failures {σ : Type} (P : Platform σ) (display_detail : Nat)
    (aa : adapter_attr) (dest_val size fuel : Nat) (p : fpng) (count : Nat)
    (ts : time_stat) (w : World σ) (hcount : count ≠ 0) :
    (ping_all_fail P display_detail aa size p 3 w = true →
      send_fc_ping_loop P display_detail aa dest_val size (fuel + 3) p 2 count ts w
        = some (HBA_STATUS_ERROR, ts, ping_after P display_detail aa size p 3 w) ∧
      calls (ping_after P display_detail aa size p 3 w).trace = calls w.trace + 3) ∧
    (∀ k, k < 3 → ping_all_fail P display_detail aa size p k w = true →
      (send_fc_ping_attempt P display_detail aa size p
        (ping_after P display_detail aa size p k w)).2.2.1.isSome = true →
      send_fc_ping_loop P display_detail aa dest_val size (fuel + 1 + k) p 2 count ts w
        = send_fc_ping_loop P display_detail aa dest_val size (fuel + 1) p 2 count ts
            (ping_after P display_detail aa size p k w)) := by
  constructor
  · intro hf
    refine ⟨?_, ping_after_calls P display_detail aa size p 3 w⟩
    rw [ping_all_fail_succ, Bool.and_eq_true] at hf
    rw [show fuel + 3 = fuel + 1 + 2 from rfl,
      send_fc_ping_loop_failures P display_detail aa dest_val size (fuel + 1) p count ts hcount
        2 2 w (Nat.le_refl 2) hf.1,
      send_fc_ping_loop_give_up P display_detail aa dest_val size fuel p count ts _ hcount hf.2,
      ping_after_succ P display_detail aa size p 2 w]
  · intro k hk hf hs
    rw [send_fc_ping_loop_failures P display_detail aa dest_val size (fuel + 1) p count ts hcount
      k 2 w (by omega) hf]
    exact send_fc_ping_loop_response P display_detail aa dest_val size fuel p (2 - k) 2 count ts
      _ hs

set_option maxRecDepth 100000 in
/-- C28 on a transport that never answers (the ping is given up after three
calls) and on one that answers the third call (the ping goes on). -/
theorem send_fc_ping_three_failures_witness :
    (send_fc_ping_loop (constant_reply Endian.big 1 []) 0xff ⟨7, 0x1900, 0, 0, "", 0⟩ 0x010203 32
        (0 + 3) (send_fc_ping_setup 0x010203 0).1 2 1 ⟨0, 0, 0⟩ ⟨0, []⟩
      = some (HBA_STATUS_ERROR, ⟨0, 0, 0⟩,
          ping_after (constant_reply Endian.big 1 []) 0xff ⟨7, 0x1900, 0, 0, "", 0⟩ 32
            (send_fc_ping_setup 0x010203 0).1 3 ⟨0, []⟩) ∧
      calls (ping_after (constant_reply Endian.big 1 []) 0xff ⟨7, 0x1900, 0, 0, "", 0⟩ 32
        (send_fc_ping_setup 0x010203 0).1 3 ⟨0, []⟩).trace = calls [] + 3) ∧
    send_fc_ping_loop (scripted Endian.big [(1, []), (1, []), (0, ACCEPT_IU)]) 0xff
        ⟨7, 0x1900, 0, 0, "", 0⟩ 0x010203 32 (1 + 1 + 2) (send_fc_ping_setup 0x010203 0).1 2 1
        ⟨0, 0, 0⟩ ⟨0, []⟩
      = send_fc_ping_loop (scripted Endian.big [(1, []), (1, []), (0, ACCEPT_IU)]) 0xff
          ⟨7, 0x1900, 0, 0, "", 0⟩ 0x010203 32 (1 + 1) (send_fc_ping_setup 0x010203 0).1 2 1
          ⟨0, 0, 0⟩
          (ping_after (scripted Endian.big [(1, []), (1, []), (0, ACCEPT_IU)]) 0xff
            ⟨7, 0x1900, 0, 0, "", 0⟩ 32 (send_fc_ping_setup 0x010203 0).1 2 ⟨0, []⟩) :=
  ⟨(send_fc_ping_three_failures (constant_reply Endian.big 1 []) 0xff ⟨7, 0x1900, 0, 0, "", 0⟩
      0x010203 32 0 (send_fc_ping_setup 0x010203 0).1 1 ⟨0, 0, 0⟩ ⟨0, []⟩ (by decide)).1 rfl,
    (send_fc_ping_three_failures (scripted Endian.big [(1, []), (1, []), (0, ACCEPT_IU)]) 0xff
      ⟨7, 0x1900, 0, 0, "", 0⟩ 0x010203 32 1 (send_fc_ping_setup 0x010203 0).1 1 ⟨0, 0, 0⟩
      ⟨0, []⟩ (by decide)).2 2 (by decide) rfl rfl⟩

/-! ## The statistics of zfcp_ping -/

theorem foldl_min_le (ds : List Nat) : ∀ a : Nat,
    ds.foldl min a ≤ a ∧ (∀ d ∈ ds, ds.foldl min a ≤ d) ∧ ds.foldl min a ∈ a :: ds := by
  induction ds with
  | nil => intro a; simp
  | cons d ds ih =>
    intro a
    obtain ⟨h1, h2, h3⟩ := ih (min a d)
    simp only [List.foldl_cons]
    refine ⟨le_trans h1 (Nat.min_le_left a d), ?_, ?_⟩
    · intro x hx
      rcases List.mem_cons.1 hx with rfl | hx
      · exact le_trans h1 (Nat.min_le_right a x)
      · exact h2 x hx
    · rcases List.mem_cons.1 h3 with h | h
      · rcases Nat.le_total a d with hle | hle
        · rw [h, Nat.min_eq_left hle]; simp
        · rw [h, Nat.min_eq_right hle]; simp
      · simp [h]

theorem foldl_max_ge (ds : List Nat) : ∀ a : Nat,
    a ≤ ds.foldl max a ∧ (∀ d ∈ ds, d ≤ ds.foldl max a) ∧ ds.foldl max a ∈ a :: ds := by
  induction ds with
  | nil => intro a; simp
  | cons d ds ih =>
    intro a
    obtain ⟨h1, h2, h3⟩ := ih (max a d)
    simp only [List.foldl_cons]
    refine ⟨le_trans (Nat.le_max_left a d) h1, ?_, ?_⟩
    · intro x hx
      rcases List.mem_cons.1 hx with rfl | hx
      · exact le_trans (Nat.le_max_right a x) h1
      · exact h2 x hx
    · rcases List.mem_cons.1 h3 with h | h
      · rcases Nat.le_total a d with hle | hle
        · rw [h, Nat.max_eq_right hle]; simp
        · rw [h, Nat.max_eq_left hle]; simp
      · simp [h]

/-- Further measurements after the first one: the count goes up by one each
time, `min` and `max` are the running minimum and maximum. -/
theorem update_ts_all_next : ∀ (ms : List (timeval × timeval)) (ts : time_stat),
    ts.count ≠ 0 → ts.count + ms.length < 2 ^ 32 →
    (update_ts_all ms ts).count = ts.count + ms.length ∧
    (update_ts_all ms ts).min = (ms.map (fun m => calc_time_diff m.1 m.2)).foldl min ts.min ∧
    (update_ts_all ms ts).max = (ms.map (fun m => calc_time_diff m.1 m.2)).foldl max ts.max := by
  intro ms
  induction ms with
  | nil => intro ts _ _; simp [update_ts_all]
  | cons m ms ih =>
    intro ts hc hlen
    simp only [List.length_cons] at hlen
    have hcnt : (ts.count + 1) % 2 ^ 32 = ts.count + 1 := Nat.mod_eq_of_lt (by omega)
    have hstep : (update_ts ts m.1 m.2).2 =
        ⟨min ts.min (calc_time_diff m.1 m.2), max ts.max (calc_time_diff m.1 m.2),
          ts.count + 1⟩ := by
      simp only [update_ts, hc, if_false, hcnt]
      congr 1
      · split <;> omega
      · split <;> omega
    obtain ⟨h1, h2, h3⟩ := ih (update_ts ts m.1 m.2).2 (by rw [hstep]; simp)
      (by rw [hstep]; simp only []; omega)
    rw [hstep] at h1 h2 h3
    simp only at h1 h2 h3
    simp only [update_ts_all, List.map_cons, List.foldl_cons, List.length_cons, hstep]
    refine ⟨by rw [h1]; omega, h2, h3⟩

/-- C29. Starting from `time_stat.count = 0`, after `update_ts` has been applied
to n >= 1 measurements (n in the range of the `unsigned int` count) with the
differences d1..dn that `calc_time_diff` computes, `count` is n, `min` is the
least and `max` the greatest of d1..dn, and min <= max. -/
theorem update_ts_min_max (ms : List (timeval × timeval)) (ts : time_stat)
    (h0 : ts.count = 0) (hne : ms ≠ []) (hlen : ms.length < 2 ^ 32) :
    (update_ts_all ms ts).count = ms.length ∧
    ((update_ts_all ms ts).min ∈ ms.map (fun m => calc_time_diff m.1 m.2) ∧
      ∀ d ∈ ms.map (fun m => calc_time_diff m.1 m.2), (update_ts_all ms ts).min ≤ d) ∧
    ((update_ts_all ms ts).max ∈ ms.map (fun m => calc_time_diff m.1 m.2) ∧
      ∀ d ∈ ms.map (fun m => calc_time_diff m.1 m.2), d ≤ (update_ts_all ms ts).max) ∧
    (update_ts_all ms ts).min ≤ (update_ts_all ms ts).max := by
  cases ms with
  | nil => exact absurd rfl hne
  | cons m ms =>
    simp only [List.length_cons] at hlen
    have hstep : (update_ts ts m.1 m.2).2 =
        ⟨calc_time_diff m.1 m.2, calc_time_diff m.1 m.2, 1⟩ := by
      simp [update_ts, h0]
    obtain ⟨h1, h2, h3⟩ := update_ts_all_next ms (update_ts ts m.1 m.2).2
      (by rw [hstep]; simp) (by rw [hstep]; simp only []; omega)
    rw [hstep] at h1 h2 h3
    simp only at h1 h2 h3
    obtain ⟨a1, a2, a3⟩ := foldl_min_le (ms.map (fun m => calc_time_diff m.1 m.2))
      (calc_time_diff m.1 m.2)
    obtain ⟨b1, b2, b3⟩ := foldl_max_ge (ms.map (fun m => calc_time_diff m.1 m.2))
      (calc_time_diff m.1 m.2)
    simp only [update_ts_all, List.map_cons, List.length_cons, hstep]
    rw [h1, h2, h3]
    refine ⟨by omega, ⟨a3, ?_⟩, ⟨b3, ?_⟩, le_trans a1 b1⟩
    · intro d hd
      rcases List.mem_cons.1 hd with rfl | hd
      · exact a1
      · exact a2 d hd
    · intro d hd
      rcases List.mem_cons.1 hd with rfl | hd
      · exact b1
      · exact b2 d hd

/-- C29 for the three round trips of 300, 100 and 200 microseconds. -/
theorem update_ts_min_max_witness :
    (update_ts_all [(⟨0, 0⟩, ⟨0, 300⟩), (⟨1, 0⟩, ⟨1, 100⟩), (⟨2, 999900⟩, ⟨3, 100⟩)] ⟨0, 0, 0⟩).count
      = 3 ∧
    (update_ts_all [(⟨0, 0⟩, ⟨0, 300⟩), (⟨1, 0⟩, ⟨1, 100⟩), (⟨2, 999900⟩, ⟨3, 100⟩)] ⟨0, 0, 0⟩).min
      ≤ (update_ts_all [(⟨0, 0⟩, ⟨0, 300⟩), (⟨1, 0⟩, ⟨1, 100⟩), (⟨2, 999900⟩, ⟨3, 100⟩)]
        ⟨0, 0, 0⟩).max :=
  ⟨(update_ts_min_max [(⟨0, 0⟩, ⟨0, 300⟩), (⟨1, 0⟩, ⟨1, 100⟩), (⟨2, 999900⟩, ⟨3, 100⟩)] ⟨0, 0, 0⟩
      rfl (by simp) (by decide)).1,
    (update_ts_min_max [(⟨0, 0⟩, ⟨0, 300⟩), (⟨1, 0⟩, ⟨1, 100⟩), (⟨2, 999900⟩, ⟨3, 100⟩)] ⟨0, 0, 0⟩
      rfl (by simp) (by decide)).2.2.2⟩

/-! ## HBA_GetFcpTargetMapping -/

theorem mapping_steps_append (es fs : List HBA_FCPSCSIENTRY) :
    ∀ s, mapping_steps (es ++ fs) s = mapping_steps fs (mapping_steps es s) := by
  induction es with
  | nil => intro s; rfl
  | cons e es ih => intro s; simp [mapping_steps, ih]

/-- The unit loop makes one passage for each valid unit. -/
theorem mapping_unit_loop_eq (adapter : vlib_adapter) (port : vlib_port) :
    ∀ (units : List vlib_unit) (s : mapping_state),
      mapping_unit_loop adapter port units s =
        mapping_steps ((units.filter (fun unit => unit.isInvalid = 0)).map
          (mapping_entry adapter port)) s := by
  intro units
  induction units with
  | nil => intro s; rfl
  | cons u rest ih =>
    intro s
    by_cases hu : u.isInvalid = 0
    · by_cases hf : s.free = 0
      · simp [mapping_unit_loop, mapping_steps, mapping_step, hu, hf, ih]
      · simp [mapping_unit_loop, mapping_steps, mapping_step, hu, hf, ih]
    · simp [mapping_unit_loop, hu, ih]

/-- What a run of passages leaves behind. -/
theorem mapping_steps_spec : ∀ (es : List HBA_FCPSCSIENTRY) (s : mapping_state),
    s.index + s.free ≤ s.entry.length → s.total < 2 ^ 32 →
    (mapping_steps es s).entry =
        s.entry.take s.index ++ es.take s.free ++ s.entry.drop (s.index + min s.free es.length) ∧
      (mapping_steps es s).index = s.index + min s.free es.length ∧
      (mapping_steps es s).free = s.free - es.length ∧
      (mapping_steps es s).total = (s.total + es.length) % 2 ^ 32 := by
  intro es
  induction es with
  | nil =>
    intro s _ ht
    simp only [mapping_steps, List.take_nil, List.append_nil, List.length_nil, Nat.min_zero,
      Nat.add_zero, List.take_append_drop, Nat.sub_zero, true_and]
    omega
  | cons e es ih =>
    intro s h ht
    obtain ⟨entry, index, total, free⟩ := s
    simp only at h ht
    have hmod : (total + 1) % 2 ^ 32 < 2 ^ 32 := Nat.mod_lt _ (by decide)
    cases free with
    | zero =>
      obtain ⟨h1, h2, h3, h4⟩ := ih ⟨entry, index, (total + 1) % 2 ^ 32, 0⟩ (by simpa using h) hmod
      dsimp only at h1 h2 h3 h4
      simp only [mapping_steps, mapping_step, if_true]
      refine ⟨?_, ?_, ?_, ?_⟩
      · rw [h1]; simp
      · rw [h2]; simp
      · rw [h3]; simp
      · rw [h4]; simp only [List.length_cons]; omega
    | succ f =>
      have hidx : index < entry.length := by omega
      obtain ⟨h1, h2, h3, h4⟩ := ih ⟨entry.set index e, index + 1, (total + 1) % 2 ^ 32, f⟩
        (by simp only [List.length_set]; omega) hmod
      dsimp only at h1 h2 h3 h4
      simp only [mapping_steps, mapping_step, Nat.succ_ne_zero, if_false, Nat.add_sub_cancel]
      refine ⟨?_, ?_, ?_, ?_⟩
      · rw [h1]
        simp only [take_succ_set e entry index hidx, List.length_cons, List.take_succ_cons,
          Nat.add_min_add_right, List.append_assoc, List.singleton_append, List.cons_append]
        rw [List.drop_set_of_lt e entry (by omega)]
        simp only [List.nil_append, Nat.add_assoc, Nat.add_comm 1]
      · rw [h2]; simp only [List.length_cons, Nat.add_min_add_right]; omega
      · rw [h3]; simp only [List.length_cons]; omega
      · rw [h4]; simp only [List.length_cons]; omega

/-- When `revalidateUnits` reports no error, the port loop runs to its end, leaves
every valid port as `revalidateUnits` left it and makes one passage for each
valid unit of these ports. -/
theorem mapping_port_loop_spec (S : Sysfs) (adapter : vlib_adapter) :
    ∀ (ports : List vlib_port) (s : mapping_state),
      (∀ port ∈ ports, port.isInvalid = 0 → 0 ≤ (revalidateUnits S port).1) →
      mapping_port_loop S adapter ports s =
        (true,
          ports.map (fun port => if port.isInvalid ≠ 0 then port else (revalidateUnits S port).2),
          mapping_steps (target_mappings adapter (revalidated_ports S ports)) s) := by
  intro ports
  induction ports with
  | nil => intro s _; rfl
  | cons p rest ih =>
    intro s h
    have hrest : ∀ port ∈ rest, port.isInvalid = 0 → 0 ≤ (revalidateUnits S port).1 :=
      fun port hp => h port (List.mem_cons_of_mem _ hp)
    by_cases hv : p.isInvalid = 0
    · have hok : ¬ (revalidateUnits S p).1 < 0 := by
        have := h p (List.mem_cons_self _ _) hv
        omega
      have hunits : (match getUnitByIndex (revalidateUnits S p).2 0 with
          | none => s
          | some _ => mapping_unit_loop adapter (revalidateUnits S p).2
              ((revalidateUnits S p).2.units.data.take (revalidateUnits S p).2.units.used) s) =
          mapping_steps (target_mappings adapter [(revalidateUnits S p).2]) s := by
        by_cases hz : (revalidateUnits S p).2.units.used = 0
        · simp [getUnitByIndex, hz, target_mappings, mapping_steps]
        · simp [getUnitByIndex, hz, target_mappings, mapping_unit_loop_eq]
      have htm : target_mappings adapter (revalidated_ports S (p :: rest)) =
          target_mappings adapter [(revalidateUnits S p).2] ++
            target_mappings adapter (revalidated_ports S rest) := by
        simp [target_mappings, revalidated_ports, hv]
      rw [mapping_port_loop]
      simp only [hv, ne_eq, not_true_eq_false, if_false, hok, hunits, ih _ hrest, htm,
        mapping_steps_append, List.map_cons]
    · have htm : target_mappings adapter (revalidated_ports S (p :: rest)) =
          target_mappings adapter (revalidated_ports S rest) := by
        simp [target_mappings, revalidated_ports, hv]
      rw [mapping_port_loop]
      simp only [hv, ne_eq, not_false_eq_true, if_true, ih _ hrest, htm, List.map_cons]

/-- C26, amended. For a loaded library and a valid handle whose adapter has at
least one port in the repository, when no revalidation step reports an error:
with N the `NumberOfEntries` passed in (at most the size of the caller's array)
and T the number of valid units on the valid ports,
`HBA_GetFcpTargetMapping` leaves in the array the first min(N, T) mappings, in
port order and then unit order, followed by the rest of the array untouched,
sets `NumberOfEntries` to T, and returns HBA_STATUS_ERROR_MORE_DATA when T > N
and HBA_STATUS_OK otherwise. -/
theorem HBA_GetFcpTargetMapping_entries (S : Sysfs) (handle : Nat)
    (pMapping : HBA_FCPTARGETMAPPING) (d d1 : vlib_data) (a : Nat) (ret : Int)
    (adapter : vlib_adapter)
    (hrepo : revalidateRepository S d = (HBA_STATUS_OK, d1))
    (hhandle : getAdapterByHandle d1 handle = (some a, HBA_STATUS_OK))
    (hports : revalidatePorts S (d1.adapters.data.getD a vlib_adapter.zero) = (ret, adapter))
    (hret : 0 ≤ ret)
    (hused : adapter.ports.used ≠ 0)
    (hunits : ∀ port ∈ adapter.ports.data.take adapter.ports.used,
      port.isInvalid = 0 → 0 ≤ (revalidateUnits S port).1)
    (hN : pMapping.NumberOfEntries ≤ pMapping.entry.length)
    (hT : (target_mappings adapter
      (revalidated_ports S (adapter.ports.data.take adapter.ports.used))).length < 2 ^ 32) :
    (HBA_GetFcpTargetMapping S handle pMapping d).2.1.entry =
        (target_mappings adapter
          (revalidated_ports S (adapter.ports.data.take adapter.ports.used))).take
            pMapping.NumberOfEntries ++
          pMapping.entry.drop (min pMapping.NumberOfEntries (target_mappings adapter
            (revalidated_ports S (adapter.ports.data.take adapter.ports.used))).length) ∧
      (HBA_GetFcpTargetMapping S handle pMapping d).2.1.NumberOfEntries =
        (target_mappings adapter
          (revalidated_ports S (adapter.ports.data.take adapter.ports.used))).length ∧
      (HBA_GetFcpTargetMapping S handle pMapping d).1 =
        (if (target_mappings adapter
            (revalidated_ports S (adapter.ports.data.take adapter.ports.used))).length >
              pMapping.NumberOfEntries
          then HBA_STATUS_ERROR_MORE_DATA else HBA_STATUS_OK) := by
  have hnot : ¬ ret < 0 := by omega
  obtain ⟨h1, h2, h3, h4⟩ := mapping_steps_spec
    (target_mappings adapter (revalidated_ports S (adapter.ports.data.take adapter.ports.used)))
    ⟨pMapping.entry, 0, 0, pMapping.NumberOfEntries⟩ (by simpa using hN)
    (Nat.pos_pow_of_pos 32 (Nat.zero_lt_succ 1))
  dsimp only at h1 h2 h3 h4
  have hmod : (0 + (target_mappings adapter
      (revalidated_ports S (adapter.ports.data.take adapter.ports.used))).length) % 2 ^ 32 =
      (target_mappings adapter
        (revalidated_ports S (adapter.ports.data.take adapter.ports.used))).length := by
    rw [Nat.zero_add]; exact Nat.mod_eq_of_lt hT
  rw [hmod] at h4
  simp only [List.take_zero, List.nil_append, Nat.zero_add] at h1
  simp only [HBA_GetFcpTargetMapping, hrepo, hhandle, hports, hnot, getPortByIndex, hused,
    mapping_port_loop_spec S adapter _ _ hunits, h1, h4, ne_eq, not_true_eq_false, if_false,
    ge_iff_le, Nat.le_zero_eq, Bool.true_eq_false, gt_iff_lt, and_self]

/-- C26, counterexample. For an open adapter with a valid handle and no port in
the repository (T = 0) and N = 5, `HBA_GetFcpTargetMapping` returns
HBA_STATUS_ERROR, not HBA_STATUS_OK, and leaves `NumberOfEntries` at 5. -/
theorem HBA_GetFcpTargetMapping_counterexample :
    getAdapterByHandle (sample_repository (sample_adapter [])) 1 = (some 0, HBA_STATUS_OK) ∧
    target_mappings (sample_adapter []) (revalidated_ports quiet_sysfs []) = [] ∧
    (HBA_GetFcpTargetMapping quiet_sysfs 1 ⟨5, List.replicate 5 blank_entry⟩
      (sample_repository (sample_adapter []))).1 = HBA_STATUS_ERROR ∧
    HBA_STATUS_ERROR ≠ HBA_STATUS_OK ∧
    (HBA_GetFcpTargetMapping quiet_sysfs 1 ⟨5, List.replicate 5 blank_entry⟩
      (sample_repository (sample_adapter []))).2.1.NumberOfEntries = 5 := by
  refine ⟨rfl, rfl, rfl, by decide, rfl⟩

/-- C26 on an adapter with one port that has two valid units and N = 1: one entry
is written, `NumberOfEntries` becomes 2 and the status is
HBA_STATUS_ERROR_MORE_DATA. -/
theorem HBA_GetFcpTargetMapping_entries_witness :
    (HBA_GetFcpTargetMapping quiet_sysfs 1 ⟨1, [blank_entry, blank_entry]⟩
        (sample_repository (sample_adapter [sample_port 0]))).2.1.entry =
        (target_mappings (sample_adapter [sample_port 0])
          (revalidated_ports quiet_sysfs ((sample_adapter [sample_port 0]).ports.data.take
            (sample_adapter [sample_port 0]).ports.used))).take 1 ++
          [blank_entry, blank_entry].drop (min 1 (target_mappings (sample_adapter [sample_port 0])
            (revalidated_ports quiet_sysfs ((sample_adapter [sample_port 0]).ports.data.take
              (sample_adapter [sample_port 0]).ports.used))).length) ∧
      (HBA_GetFcpTargetMapping quiet_sysfs 1 ⟨1, [blank_entry, blank_entry]⟩
        (sample_repository (sample_adapter [sample_port 0]))).2.1.NumberOfEntries =
        (target_mappings (sample_adapter [sample_port 0])
          (revalidated_ports quiet_sysfs ((sample_adapter [sample_port 0]).ports.data.take
            (sample_adapter [sample_port 0]).ports.used))).length ∧
      (HBA_GetFcpTargetMapping quiet_sysfs 1 ⟨1, [blank_entry, blank_entry]⟩
        (sample_repository (sample_adapter [sample_port 0]))).1 =
        (if (target_mappings (sample_adapter [sample_port 0])
            (revalidated_ports quiet_sysfs ((sample_adapter [sample_port 0]).ports.data.take
              (sample_adapter [sample_port 0]).ports.used))).length > 1
          then HBA_STATUS_ERROR_MORE_DATA else HBA_STATUS_OK) :=
  HBA_GetFcpTargetMapping_entries quiet_sysfs 1 ⟨1, [blank_entry, blank_entry]⟩
    (sample_repository (sample_adapter [sample_port 0]))
    (sample_repository (sample_adapter [sample_port 0])) 0 0 (sample_adapter [sample_port 0])
    rfl rfl rfl (by decide) (by decide)
    (by
      intro port _ _
      unfold revalidateUnits
      split <;> simp [quiet_sysfs])
    (by decide) (by decide)

/-! ## addPortToRepos -/

/-- The elements that `block_assertSize` appends are cleared memory: a property
of all elements of the array and of cleared memory holds for all elements
afterwards. -/
theorem block_assertSize_forall {α : Type} (zero : α) (b : block α) (num grow : Nat)
    (Q : α → Prop) (hz : Q zero) (h : ∀ x ∈ b.data, Q x) :
    ∀ x ∈ (block_assertSize zero b num grow).2.data, Q x := by
  unfold block_assertSize
  split_ifs
  · exact h
  · intro x hx
    simp only [List.mem_append, List.mem_replicate] at hx
    rcases hx with hx | ⟨_, hx⟩
    · exact h x hx
    · rw [hx]; exact hz

/-- As `block_assertSize_forall`, for `block_addItem`. -/
theorem block_addItem_forall {α : Type} (zero : α) (b : block α) (grow : Nat)
    (Q : α → Prop) (hz : Q zero) (h : ∀ x ∈ b.data, Q x) :
    ∀ x ∈ (block_addItem zero b grow).2.data, Q x := by
  have := block_assertSize_forall zero b (b.used + 1) grow Q hz h
  unfold block_addItem
  simp only []
  split_ifs
  · exact this
  · exact this

/-- An element read from the array, or cleared memory when there is none, has a
property that all elements and cleared memory have. -/
theorem getD_forall {α : Type} (l : List α) (i : Nat) (zero : α) (Q : α → Prop) (hz : Q zero)
    (h : ∀ x ∈ l, Q x) : Q (l.getD i zero) := by
  by_cases hi : i < l.length
  · rw [List.getD_eq_getElem l zero hi]
    exact h _ (List.getElem_mem hi)
  · rw [List.getD_eq_default l zero (Nat.le_of_not_lt hi)]
    exact hz

/-- No call of `addPortToRepos` sets the flag `isInvalid` of a stored port:
when all ports of the array have the flag 0, which is so for cleared memory, they have
it afterwards, whether the port was found, added or could not be added. -/
theorem addPortToRepos_keeps_ports_valid (adapter : vlib_adapter) (port : vlib_port)
    (hinv : ∀ p ∈ adapter.ports.data, p.isInvalid = 0) :
    ∀ p ∈ (addPortToRepos adapter port).2.1.ports.data, p.isInvalid = 0 := by
  have hadd := block_addItem_forall vlib_port.zero adapter.ports VLIB_GROW_PORTS
    (fun p => p.isInvalid = 0) rfl hinv
  unfold addPortToRepos
  cases getPortFromRepos adapter port.name with
  | some i => exact hinv
  | none =>
    simp only []
    rcases hb : block_addItem vlib_port.zero adapter.ports VLIB_GROW_PORTS with ⟨o, ports⟩
    rw [hb] at hadd
    cases o with
    | none => exact hadd
    | some portLoc =>
      intro p hp
      simp only [] at hp
      rcases List.mem_or_eq_of_mem_set hp with hp | hp
      · exact hadd p hp
      · rw [hp]
        exact getD_forall ports.data portLoc vlib_port.zero (fun p => p.isInvalid = 0) rfl hadd

/-- Every array of ports that `addPortToRepos` builds from cleared memory, by
any sequence of calls, holds only ports with the flag `isInvalid` 0. -/
theorem addPortToRepos_from_cleared_memory (ps : List vlib_port) :
    ∀ (adapter : vlib_adapter), (∀ p ∈ adapter.ports.data, p.isInvalid = 0) →
      ∀ p ∈ (ps.foldl (fun a q => (addPortToRepos a q).2.1) adapter).ports.data,
        p.isInvalid = 0 := by
  induction ps with
  | nil => intro adapter h; exact h
  | cons q rest ih =>
    intro adapter h
    exact ih _ (addPortToRepos_keeps_ports_valid adapter q h)

/-- The flag that `addPortToRepos` clears when the port is found is the one of
the port passed in, `port->isInvalid`, not the one of the stored port: were
the stored port marked invalid, which no function of the library does, it
would stay so. -/
theorem addPortToRepos_clears_flag_of_argument :
    (addPortToRepos (sample_adapter [sample_port 1])
      { vlib_port.zero with isInvalid := 1, name := "rport-0:0-1" }).2.1 =
        sample_adapter [sample_port 1] ∧
    (addPortToRepos (sample_adapter [sample_port 1])
      { vlib_port.zero with isInvalid := 1, name := "rport-0:0-1" }).2.2.isInvalid = 0 := by
  refine ⟨?_, ?_⟩ <;> decide

/-! ## The event queue -/

/-- C30, evaluated. From the state that `init_event_queue` sets up: after append,
append, pop the slot at the head of the event queue is also on the free list;
and in the run append 1, append 2, pop, append 3, ..., append 12, pop, pop the
first pop returns event 1, the second returns event 12, the newest, although
the events 3 to 11 were appended before it and not yet returned, and the third
finds the queue empty. -/
theorem event_queue_loses_events :
    (run_events [event_op.append (link_up 1), event_op.append (link_up 2), event_op.pop]
        (init_event_queue event_store.zero)).map
      (fun r => (chain r.2.mem MAX_SLOTS r.2.event_queue.first,
        chain r.2.mem MAX_SLOTS r.2.free_event_list.first)) =
      some ([1], [2, 3, 4, 5, 6, 7, 8, 9, 0, 1]) ∧
    (run_events overrun_ops (init_event_queue event_store.zero)).map (fun r => r.1) =
      some [some (link_up 1), some (link_up 12), none] := by
  refine ⟨?_, ?_⟩ <;> decide

end Zfcp
